import Mathlib

/-!
# Verification of the Jeedom discovery engine (`custom_components/jeedomhub`)

Shallow embedding of `discovery.py` (classification / document generation) and of
the cover position conversion helpers of `cover/cover.py`, together with proofs
settling the specification claims.

Modelling conventions:
* Python dicts whose keys form a fixed, known set are embedded as Lean
  structures with `Option` fields; dicts with open key sets are association
  lists (first occurrence wins on lookup, mirroring a well-formed dict).
* Python strings are Lean `String`s restricted to the ASCII range, so that
  `unicodedata.normalize("NFKD", ·)` and combining-mark removal act as the
  identity and `str.lower()` agrees with `Char.toLower`.
* Python `or` on possibly-falsy strings is `pyOrStr` / `pyOrOpt`
  (`""` and `None` are falsy).
* Numeric configuration payloads (`value`, `minValue`, `maxValue`) are either
  strings or integers (`PyVal`); `float()` / `int(float())` are modelled as
  exact parsers of optional-sign decimal integer literals, failing (returning
  `none`, like the `try/except` blocks) on anything else.  Exact rational
  arithmetic (`ℚ`) stands in for the float arithmetic of the cover position
  conversions, which is exact on the ranges the claims exercise.
* `sorted(...)` is `List.insertionSort` with a `≤` comparison on the key,
  which is a stable sort, matching Python's stable `sorted`.
-/

namespace Jeedom

/-! ## String helpers (ASCII model of the Python string operations) -/

/-- Python `str.lower()` on the embedded (ASCII) character range. -/
def strLower (s : String) : String := String.mk (s.data.map Char.toLower)

/-- Python `str.upper()` on the embedded (ASCII) character range. -/
def strUpper (s : String) : String := String.mk (s.data.map Char.toUpper)

/-- Python `str.strip()` (whitespace at both ends). -/
def strStrip (s : String) : String :=
  String.mk (((s.data.dropWhile Char.isWhitespace).reverse.dropWhile Char.isWhitespace).reverse)

/-- `pat` is a prefix of `l` (character lists). -/
def listIsPrefix : List Char → List Char → Bool
  | [], _ => true
  | _ :: _, [] => false
  | p :: ps, c :: cs => p == c && listIsPrefix ps cs

/-- `pat` occurs as a contiguous substring of `hay` (character lists). -/
def listContainsSub (hay pat : List Char) : Bool :=
  match hay with
  | [] => pat.isEmpty
  | _ :: t => listIsPrefix pat hay || listContainsSub t pat

/-- Python `pat in hay` (substring containment). -/
def strContains (hay pat : String) : Bool := listContainsSub hay.data pat.data

/-- Split a character list into the maximal runs satisfying `p`
(the tokens of the string, dropping separators). -/
def tokenizeBy (p : Char → Bool) : List Char → List (List Char)
  | [] => []
  | c :: t =>
    let rest := tokenizeBy p t
    if p c then
      match t with
      | [] => [[c]]
      | d :: _ =>
        if p d then
          match rest with
          | tok :: toks => (c :: tok) :: toks
          | [] => [[c]]
        else [c] :: rest
    else rest

/-- ASCII lowercase letters and digits. -/
def isLowerAlnum (c : Char) : Bool := (c.isLower && c.isAlpha) || c.isDigit

/-- `slugify` from `discovery.py`: strip + lowercase (+ NFKD, identity on the
embedded ASCII range), drop apostrophes/backticks, collapse non-`[a-z0-9]` runs
to single underscores, trim underscores, falling back to `"item"`. -/
def slugify (value : String) : String :=
  let v := strLower (strStrip value)
  let v := v.data.filter (fun c => !(c == '\'' || c == '`' || c == '’'))
  let toks := tokenizeBy isLowerAlnum v
  let out := String.intercalate "_" (toks.map String.mk)
  if out = "" then "item" else out

/-! ## Python truthiness helpers -/

/-- Python `a or b` where `a : Option String` (both `None` and `""` are falsy)
and `b` a plain string. -/
def pyOrStr (a : Option String) (b : String) : String :=
  match a with
  | some s => if s = "" then b else s
  | none => b

/-- Python `a or b` where both sides are possibly-`None` strings. -/
def pyOrOpt (a b : Option String) : Option String :=
  match a with
  | some s => if s = "" then b else some s
  | none => b

/-- Keep a string only when truthy (used for the `{k: v ... if v}` device-block
filters). -/
def truthyStr (a : Option String) : Option String :=
  match a with
  | some s => if s = "" then none else some s
  | none => none

/-! ## Configuration values (`PyVal`) -/

/-- A configuration payload value: the embedded domain has strings and ints. -/
inductive PyVal where
  | pstr (s : String)
  | pint (n : Int)
deriving DecidableEq, Repr

/-- Python `str(v)`. -/
def PyVal.toStr : PyVal → String
  | .pstr s => s
  | .pint n => toString n

/-- Parse an optional-sign decimal integer literal; `none` otherwise. -/
def parseIntStr? (s : String) : Option Int :=
  let l := s.data
  let (neg, ds) := match l with
    | '-' :: t => (true, t)
    | t => (false, t)
  if ds.isEmpty || !(ds.all Char.isDigit) then none
  else
    let n : Nat := ds.foldl (fun acc c => acc * 10 + (c.toNat - '0'.toNat)) 0
    some (if neg then -(n : Int) else (n : Int))

/-- Python `float(v)` on the embedded value domain (integer literals only;
anything else raises, i.e. `none`). -/
def pyFloat? (v : PyVal) : Option ℚ :=
  match v with
  | .pint n => some (n : ℚ)
  | .pstr s => (parseIntStr? (strStrip s)).map (fun n => (n : ℚ))

/-- Python `int(float(v))` on the embedded value domain. -/
def pyIntFloat? (v : PyVal) : Option Int :=
  match v with
  | .pint n => some n
  | .pstr s => parseIntStr? (strStrip s)

/-! ## Data model: commands, devices -/

/-- The `configuration` map of a command (`property`, `value`, `minValue`,
`maxValue`, `class`). -/
structure CmdCfg where
  property : Option String := none
  value : Option PyVal := none
  minValue : Option PyVal := none
  maxValue : Option PyVal := none
  zwClass : Option String := none
deriving DecidableEq, Repr

/-- A Jeedom command record (`cmd`). `type` is `"info"` or `"action"`.
The integer `id` is taken as already parsed (the engine only stores devices
whose ids parse). -/
structure Cmd where
  id : Int
  name : Option String := none
  logicalId : Option String := none
  type : Option String := none
  subType : Option String := none
  generic_type : Option String := none
  unite : Option String := none
  order : Int := 0
  configuration : CmdCfg := {}
deriving DecidableEq, Repr

/-- The `category` flags of a device. -/
structure Category where
  light : Option String := none
  heating : Option String := none
  opening : Option String := none
  automatism : Option String := none
deriving DecidableEq, Repr

/-- A Jeedom device record (`eqLogic`); `cmds` lists the values of the `cmds`
mapping in insertion order. -/
structure EqLogic where
  id : Int
  name : Option String := none
  logicalId : Option String := none
  eqType_name : Option String := none
  category : Category := {}
  cmds : List Cmd := []
deriving DecidableEq, Repr

/-- `Category.get(key, "0")` then `str(...)`: absent flags default to `"0"`. -/
def catGet (c : Option String) : String := c.getD "0"

/-! ## Blacklists and command classifiers -/

def NODE_MGMT_LOGICALID_SUBSTR : List String :=
  ["pingnode", "healnode", "isfailednode", "nodestatus", "refreshinfo", "refreshvalues", "refresh"]

def NODE_MGMT_PROPERTY_SUBSTR : List String :=
  ["pingnode", "healnode", "isfailednode", "nodestatus"]

def SCENE_ID_LOGICALID_SUBSTR : List String := ["sceneid"]

def SCENE_ID_NAME_EXACT : List String := ["sceneid"]

def SCENE_ID_PROPERTY_SUBSTR : List String := ["sceneid"]

/-- `is_scene_id_cmd`. -/
def is_scene_id_cmd (cmd : Cmd) : Bool :=
  let lid := strLower (pyOrStr cmd.logicalId "")
  let name := strLower (strStrip (pyOrStr cmd.name ""))
  let prop := strLower (pyOrStr cmd.configuration.property "")
  SCENE_ID_LOGICALID_SUBSTR.any (fun s => strContains lid s) ||
  SCENE_ID_NAME_EXACT.any (fun s => name = s) ||
  SCENE_ID_PROPERTY_SUBSTR.any (fun s => strContains prop s)

/-- `is_node_mgmt_cmd`. -/
def is_node_mgmt_cmd (cmd : Cmd) : Bool :=
  let lid := strLower (pyOrStr cmd.logicalId "")
  let name := strLower (pyOrStr cmd.name "")
  let prop := strLower (pyOrStr cmd.configuration.property "")
  if NODE_MGMT_LOGICALID_SUBSTR.any (fun s => strContains lid s) then true
  else if NODE_MGMT_PROPERTY_SUBSTR.any (fun s => strContains prop s) then true
  else
    let has_node_word := strContains name "node" || strContains name "noeud"
    if has_node_word &&
        (["ping", "pinguer", "heal", "soigner", "tester", "test", "statut", "status", "health",
          "sant"].any (fun k => strContains name k)) then true
    else if name = "pinguer noeud" || name = "soigner noeud" || name = "tester noeud" ||
        name = "statut noeud" then true
    else false

/-- A command matching either hard blacklist (skipped by every detector loop). -/
def blacklisted (cmd : Cmd) : Bool := is_node_mgmt_cmd cmd || is_scene_id_cmd cmd

/-- The `norm` helper of the device-class classifiers: lowercase, turn
`_`/`-`/`\` separators into spaces, collapse whitespace, strip.  On the
token level this equals splitting at non-token characters. -/
def normSep (s : Option String) : String :=
  let base := strLower (pyOrStr s "")
  let toks := tokenizeBy (fun c => !(c == '_' || c == '-' || c == '\\' || c.isWhitespace)) base.data
  String.intercalate " " (toks.map String.mk)

/-- `notification_113_device_class`. -/
def notification_113_device_class (cmd : Cmd) : Option String :=
  let zclass := strStrip (pyOrStr cmd.configuration.zwClass "")
  if zclass ≠ "113" then none
  else
    let lid := normSep cmd.logicalId
    let name := normSep cmd.name
    let prop := normSep cmd.configuration.property
    if strContains lid "sensor status" || strContains prop "sensor status" ||
        strContains name "sensor status" then some "vibration"
    else if ["sabotage", "tamper"].any (fun k =>
        strContains lid k || strContains prop k || strContains name k) then some "tamper"
    else none

/-- `vibration_device_class`. -/
def vibration_device_class (cmd : Cmd) : Option String :=
  let lid := normSep cmd.logicalId
  let name := normSep cmd.name
  let prop := normSep cmd.configuration.property
  let kws := ["shock", "vibration", "vibrate", "impact", "choc"]
  if kws.any (fun k => strContains lid k) then some "vibration"
  else if kws.any (fun k => strContains name k) then some "vibration"
  else if kws.any (fun k => strContains prop k) then some "vibration"
  else none

/-- `tamper_device_class`. -/
def tamper_device_class (cmd : Cmd) : Option String :=
  let lid := normSep cmd.logicalId
  let name := normSep cmd.name
  let prop := normSep cmd.configuration.property
  let kws := ["sabotage", "tamper"]
  if kws.any (fun k => strContains lid k) then some "tamper"
  else if kws.any (fun k => strContains name k) then some "tamper"
  else if kws.any (fun k => strContains prop k) then some "tamper"
  else none

/-! ## Rules and configuration -/

/-- The include-filter of a rule (`include.get("cmd_ids", []) or []`, etc.). -/
structure IncludeF where
  cmd_ids : List Int := []
  generic_types : List String := []
  cmd_names : List String := []
deriving DecidableEq, Repr

/-- A value of an `entity_overrides` entry: JSON-ish (null, string, or a
string-to-string map such as `state_map`). -/
inductive OvVal where
  | vnull
  | vs (s : String)
  | vm (m : List (String × String))
deriving DecidableEq, Repr

/-- One `entity_overrides` entry: the raw dict, as an association list
(so that Python dict truthiness — emptiness — is expressible). -/
abbrev Override := List (String × OvVal)

/-- A key of the `entity_overrides` map: integer or string. -/
inductive OvKey where
  | ik (n : Int)
  | sk (s : String)
deriving DecidableEq, Repr

instance : BEq OvKey := ⟨fun a b => decide (a = b)⟩

/-- `ov.get(k)`: `vnull` both for an absent key and for an explicit `None`. -/
def ovGet (ov : Override) (k : String) : OvVal := (ov.lookup k).getD .vnull

/-- `ov.get(k)` as an optional string (the claims' overrides are strings). -/
def ovGetS (ov : Override) (k : String) : Option String :=
  match ovGet ov k with
  | .vs s => some s
  | _ => none

/-- `ov.get(k)` as an optional map (for `state_map`). -/
def ovGetM (ov : Override) (k : String) : Option (List (String × String)) :=
  match ovGet ov k with
  | .vm m => some m
  | _ => none

/-- `ov.get(k) is not None`. -/
def ovHas (ov : Override) (k : String) : Bool := ovGet ov k != .vnull

/-- The rule-level `water_heater` entry: `True` or a config dict. -/
structure WhDict where
  state_cmd_id : Option Int := none
  on_cmd_id : Option Int := none
  off_cmd_id : Option Int := none
  modes : Option (List String) := none
deriving DecidableEq, Repr

inductive WhCfgV where
  | whTrue
  | whDict (d : WhDict)
deriving DecidableEq, Repr

/-- The rule-level `alarm_control_panel` config block. -/
structure AcpCfg where
  state_map : Option (List (String × String)) := none
deriving DecidableEq, Repr

/-- A user override rule (one entry of the `devices` list). -/
structure Rule where
  match_eqlogic_id : Option Int := none
  match_eqlogic_name : Option String := none
  platform : Option String := none
  device_type : Option String := none
  slug : Option String := none
  device_name : Option String := none
  «include» : Option IncludeF := none
  entity_overrides : List (OvKey × Override) := []
  water_heater : Option WhCfgV := none
  alarm_control_panel : Option AcpCfg := none
  alarm_state_map : Option (List (String × String)) := none
deriving DecidableEq, Repr

/-- `DiscoveryConfig`. -/
structure DiscoveryConfig where
  include_all_if_no_filter : Bool := true
  global_generic_whitelist : List String := []
  devices : List Rule := []
deriving DecidableEq, Repr

/-- `find_rule`: first rule matching by id (priority inside one rule) or by
exact name. -/
def find_rule (eqlogic : EqLogic) (config : DiscoveryConfig) : Option Rule :=
  config.devices.find? (fun rule =>
    (match rule.match_eqlogic_id with
     | some i => eqlogic.id == i
     | none => false) ||
    (match rule.match_eqlogic_name with
     | some n => (eqlogic.name.getD "") == n
     | none => false))

def EQ_PLATFORMS : List String :=
  ["alarm_control_panel", "climate", "cover", "light", "number", "select", "switch",
   "water_heater"]

/-- `rule_platform`. -/
def rule_platform (rule : Option Rule) : Option String :=
  match rule with
  | none => none
  | some r =>
    let platform := strLower (strStrip (pyOrStr (pyOrOpt r.platform r.device_type) ""))
    if EQ_PLATFORMS.contains platform then some platform else none

/-- `device_slug`. -/
def device_slug (eqlogic : EqLogic) (rule : Option Rule) : String :=
  match rule with
  | some r =>
    match truthyStr r.slug with
    | some s => slugify s
    | none => slugify (eqlogic.name.getD ("eq_" ++ toString eqlogic.id))
  | none => slugify (eqlogic.name.getD ("eq_" ++ toString eqlogic.id))

/-- The normalised generic type of a command
(`(cmd.get("generic_type") or "").strip().upper()`). -/
def cmdGeneric (cmd : Cmd) : String := strUpper (strStrip (pyOrStr cmd.generic_type ""))

/-- `allows_cmd`: blacklist first, then the global generic whitelist (only for
commands with a non-empty generic type), then the rule's include-filter. -/
def allows_cmd (rule : Option Rule) (cmd : Cmd) (config : DiscoveryConfig) : Bool :=
  let generic := cmdGeneric cmd
  let name := strStrip (pyOrStr cmd.name "")
  if blacklisted cmd then false
  else if !config.global_generic_whitelist.isEmpty && generic ≠ "" &&
      !config.global_generic_whitelist.contains generic then false
  else
    match rule with
    | none => true
    | some r =>
      let inc := r.«include».getD {}
      if inc.cmd_ids.isEmpty && inc.generic_types.isEmpty && inc.cmd_names.isEmpty then
        config.include_all_if_no_filter
      else if !inc.cmd_ids.isEmpty && inc.cmd_ids.contains cmd.id then true
      else if !inc.generic_types.isEmpty && inc.generic_types.contains generic then true
      else if !inc.cmd_names.isEmpty && inc.cmd_names.contains name then true
      else false

/-- Python `a or b` on dict-valued expressions ({}-falsy). -/
def pyOrDict (a : Option Override) (b : Override) : Override :=
  match a with
  | some m => if m.isEmpty then b else m
  | none => b

/-- `get_override`: the integer key, then the stringified key, then `{}` —
each step skipped when its entry is falsy (absent or an empty dict). -/
def get_override (rule : Option Rule) (cmd_id : Int) : Override :=
  match rule with
  | none => []
  | some r =>
    pyOrDict (r.entity_overrides.lookup (.ik cmd_id))
      (pyOrDict (r.entity_overrides.lookup (.sk (toString cmd_id))) [])

/-- `_cmd_min_max`: the configured numeric range as floats (`none` on absent,
`""`, or unparsable values). -/
def cmdMinMax (cmd : Cmd) : Option ℚ × Option ℚ :=
  let conv : Option PyVal → Option ℚ := fun v =>
    match v with
    | none => none
    | some (.pstr "") => none
    | some x => pyFloat? x
  (conv cmd.configuration.minValue, conv cmd.configuration.maxValue)

/-- `_get_cmd_by_id`. -/
def getCmdById (eqlogic : EqLogic) (cmd_id : Int) : Option Cmd :=
  eqlogic.cmds.find? (fun c => c.id == cmd_id)

/-! ## Keypad / alarm control panel -/

def KEYPAD_EQ_NAME_HINTS : List String := ["keypad", "clavier", "rfid"]
def KEYPAD_ALARM_HINTS : List String := ["alarm", "alarme", "armed", "arm"]
def KEYPAD_HOME_HINTS : List String := ["home", "maison", "domicile"]
def KEYPAD_AWAY_HINTS : List String := ["away", "absent", "exterieur", "exterior", "outside"]
def KEYPAD_DISARM_HINTS : List String := ["disarm", "desarm", "unarm", "off", "unlock"]

/-- `is_keypad_eqlogic`. -/
def is_keypad_eqlogic (eqlogic : EqLogic) : Bool :=
  let name_slug := slugify (eqlogic.name.getD "")
  let logical_slug := slugify (eqlogic.logicalId.getD "")
  let eqtype_slug := slugify (eqlogic.eqType_name.getD "")
  KEYPAD_EQ_NAME_HINTS.any (fun hint =>
    strContains name_slug hint || strContains logical_slug hint || strContains eqtype_slug hint)

/-- `is_keypad_alarm_cmd`. -/
def is_keypad_alarm_cmd (eqlogic : EqLogic) (cmd : Cmd) : Bool :=
  if !is_keypad_eqlogic eqlogic then false
  else
    let name_slug := slugify (pyOrStr cmd.name "")
    let lid_slug := slugify (pyOrStr cmd.logicalId "")
    KEYPAD_ALARM_HINTS.any (fun hint => strContains name_slug hint) ||
    KEYPAD_ALARM_HINTS.any (fun hint => strContains lid_slug hint)

/-- `sorted(cmds, key=lambda c: int(c.get("id", 0)))` (stable). -/
def sortCmdsById (l : List Cmd) : List Cmd := l.insertionSort (fun a b => a.id ≤ b.id)

/-- Result bundle of `detect_alarm_control_panel`. -/
structure AlarmDetect where
  state_cmd : Cmd
  arm_home_cmd : Option Cmd := none
  arm_away_cmd : Option Cmd := none
  arm_night_cmd : Option Cmd := none
  disarm_cmd : Option Cmd := none
deriving DecidableEq, Repr

/-- The action-scanning loop of `detect_alarm_control_panel`: each role is
assigned at most once, first match wins per role, one role per command. -/
def alarmActionStep (st : Option Cmd × Option Cmd × Option Cmd × Option Cmd) (cmd : Cmd) :
    Option Cmd × Option Cmd × Option Cmd × Option Cmd :=
  if blacklisted cmd then st
  else if cmd.type ≠ some "action" then st
  else
    let label := slugify (pyOrStr (pyOrOpt cmd.name cmd.logicalId) "")
    let (home, away, disarm, night) := st
    if home = none && KEYPAD_HOME_HINTS.any (fun h => strContains label h) then
      (some cmd, away, disarm, night)
    else if away = none && KEYPAD_AWAY_HINTS.any (fun h => strContains label h) then
      (home, some cmd, disarm, night)
    else if disarm = none && KEYPAD_DISARM_HINTS.any (fun h => strContains label h) then
      (home, away, some cmd, night)
    else if night = none && strContains label "night" then
      (home, away, disarm, some cmd)
    else st

/-- `detect_alarm_control_panel`. -/
def detect_alarm_control_panel (eqlogic : EqLogic) : Option AlarmDetect :=
  if !is_keypad_eqlogic eqlogic then none
  else
    let cmds := eqlogic.cmds
    let state_cmd := (sortCmdsById cmds).find? (fun cmd =>
      !blacklisted cmd && cmd.type == some "info" &&
      ["binary", "numeric", "string"].contains (strLower (pyOrStr cmd.subType "")) &&
      is_keypad_alarm_cmd eqlogic cmd)
    match state_cmd with
    | none => none
    | some st =>
      let (home, away, disarm, night) := cmds.foldl alarmActionStep (none, none, none, none)
      some { state_cmd := st, arm_home_cmd := home, arm_away_cmd := away,
             arm_night_cmd := night, disarm_cmd := disarm }

/-! ## Pilot wire detection -/

def PILOT_WIRE_VALUES : List Int := [0, 20, 30, 40, 50, 99, 255]

/-- One pilot-wire option (`{"value": ..., "label": ..., "cmd": ..., "order": ...}`). -/
structure PilotOpt where
  value : Int
  label : String
  cmd : Cmd
  order : Int
deriving DecidableEq, Repr

/-- Result bundle of `detect_pilot_wire`. -/
structure PilotDetect where
  state_cmd : Cmd
  options : List PilotOpt
deriving DecidableEq, Repr

/-- The option candidate built for one command of the pilot-wire loop
(`none` when any of the `continue` guards fires). -/
def pilotOptOf (c : Cmd) : Option PilotOpt :=
  if blacklisted c then none
  else if c.type ≠ some "action" || c.subType ≠ some "other" then none
  else
    let prop := strLower (strStrip (pyOrStr c.configuration.property ""))
    if prop ≠ "targetvalue" then none
    else
      match c.configuration.value with
      | none => none
      | some v =>
        let val := strStrip v.toStr
        if val = "" || val = "#slider#" then none
        else
          match parseIntStr? val with
          | none => none
          | some value_i =>
            some { value := value_i,
                   label := strStrip (pyOrStr (pyOrOpt c.name c.logicalId)
                     ("mode_" ++ toString value_i)),
                   cmd := c, order := c.order }

/-- One step of the label/value deduplication pass of `detect_pilot_wire`
(first occurrence wins). -/
def pilotDedupStep (st : List PilotOpt × List String × List Int) (o : PilotOpt) :
    List PilotOpt × List String × List Int :=
  let (acc, seen, seen_values) := st
  if seen.contains o.label || seen_values.contains o.value then st
  else (acc ++ [o], seen ++ [o.label], seen_values ++ [o.value])

/-- The label/value deduplication pass of `detect_pilot_wire` (first
occurrence wins after the stable sort by declared order). -/
def pilotDedup (options : List PilotOpt) : List PilotOpt :=
  (options.foldl pilotDedupStep ([], [], [])).1

/-- `detect_pilot_wire`. -/
def detect_pilot_wire (eqlogic : EqLogic) : Option PilotDetect :=
  let cmds := eqlogic.cmds
  let state_cmd := cmds.find? (fun c =>
    !blacklisted c && c.type == some "info" && c.subType == some "numeric" &&
    (strUpper (strStrip (pyOrStr c.generic_type "")) == "FAN_STATE" ||
     (strLower (strStrip (pyOrStr c.configuration.property "")) == "currentvalue" &&
      strContains (strLower (pyOrStr c.logicalId "")) "currentvalue")))
  let options := cmds.filterMap pilotOptOf
  let has_mode_generic := options.any (fun o =>
    let gt := strUpper (strStrip (pyOrStr o.cmd.generic_type ""))
    gt.startsWith "FAN_" || gt.startsWith "HEATING_")
  match state_cmd with
  | none => none
  | some st =>
    if options.length < 3 then none
    else
      let known_count := (options.filter (fun o => PILOT_WIRE_VALUES.contains o.value)).length
      if known_count < 3 && !has_mode_generic &&
          catGet eqlogic.category.heating ≠ "1" then none
      else
        let sorted := options.insertionSort (fun a b => a.order ≤ b.order)
        some { state_cmd := st, options := pilotDedup sorted }

/-- The role map produced by `_pilot_wire_cmds`. -/
structure PilotRoles where
  off : Option PilotOpt
  away : Option PilotOpt
  eco : Option PilotOpt
  comfort_2 : Option PilotOpt
  comfort_1 : Option PilotOpt
  comfort : Option PilotOpt
deriving DecidableEq, Repr

/-- `by_value[v]` (last write wins, like repeated dict assignment). -/
def byValueGet (options : List PilotOpt) (v : Int) : Option PilotOpt :=
  options.reverse.find? (fun o => o.value == v)

/-- Smallest key of `by_value`. -/
def minKey (options : List PilotOpt) : Option Int :=
  match options.map (fun o => o.value) with
  | [] => none
  | x :: xs => some (xs.foldl min x)

/-- Largest key of `by_value`. -/
def maxKey (options : List PilotOpt) : Option Int :=
  match options.map (fun o => o.value) with
  | [] => none
  | x :: xs => some (xs.foldl max x)

/-- `_pick`: first candidate value present in `by_value`, else the min/max
fallback. -/
def pilotPick (options : List PilotOpt) (values : List Int) (fallback : Option String) :
    Option PilotOpt :=
  match values.find? (fun v => options.any (fun o => o.value == v)) with
  | some v => byValueGet options v
  | none =>
    if fallback = some "min" then (minKey options).bind (byValueGet options)
    else if fallback = some "max" then (maxKey options).bind (byValueGet options)
    else none

/-- `_pilot_wire_cmds`. -/
def pilot_wire_cmds (options : List PilotOpt) : PilotRoles :=
  { off := pilotPick options [0, 10] (some "min")
    away := pilotPick options [20] none
    eco := pilotPick options [30] none
    comfort_2 := pilotPick options [40] none
    comfort_1 := pilotPick options [50] none
    comfort := pilotPick options [255, 99, 100] (some "max") }

/-! ## Generic-type default tables -/

/-- One row of `GENERIC_DEFAULTS` / `GENERIC_BINARY_DEFAULTS`. -/
structure GenDefault where
  device_class : Option String := none
  state_class : Option String := none
  unit_of_measurement : Option String := none
deriving DecidableEq, Repr

def GENERIC_DEFAULTS : List (String × GenDefault) :=
  [("POWER", { device_class := some "power", state_class := some "measurement" }),
   ("CONSUMPTION", { device_class := some "energy", state_class := some "total_increasing" }),
   ("TEMPERATURE", { device_class := some "temperature", state_class := some "measurement" }),
   ("HUMIDITY", { device_class := some "humidity", state_class := some "measurement" }),
   ("ILLUMINANCE", { device_class := some "illuminance", state_class := some "measurement",
                     unit_of_measurement := some "lx" }),
   ("BATTERY", { device_class := some "battery", state_class := some "measurement",
                 unit_of_measurement := some "%" }),
   ("BATTERIE", { device_class := some "battery", state_class := some "measurement",
                  unit_of_measurement := some "%" }),
   ("BRIGHTNESS", { device_class := some "illuminance", state_class := some "measurement",
                    unit_of_measurement := some "lx" }),
   ("THERMOSTAT_TEMPERATURE", { device_class := some "temperature",
                                state_class := some "measurement" }),
   ("THERMOSTAT_SETPOINT", { device_class := some "temperature",
                             state_class := some "measurement" }),
   ("THERMOSTAT_SET_SETPOINT", { device_class := some "temperature",
                                 state_class := some "measurement" }),
   ("FLAP_STATE", { device_class := none, state_class := some "measurement" })]

def GENERIC_BINARY_DEFAULTS : List (String × GenDefault) :=
  [("PRESENCE", { device_class := some "presence" }),
   ("OPENING", { device_class := some "opening" })]

/-! ## Entity item records

The Python builders produce string-keyed dicts whose final `None`-valued keys
are removed; those dicts are embedded as typed records with `Option` fields
(`none` = key absent). -/

/-- The `device` sub-dict; its falsy entries are filtered
(`{k: v ... if v}`), hence the `truthyStr` normalisation at construction. -/
structure DeviceBlock where
  identifiers : List String
  name : Option String := none
  manufacturer : Option String := none
  model : Option String := none
deriving DecidableEq, Repr

/-- Build a device block, applying the truthiness filter of the source. -/
def mkDeviceBlock (ident : String) (name manufacturer model : Option String) : DeviceBlock :=
  { identifiers := [ident], name := truthyStr name,
    manufacturer := truthyStr manufacturer, model := truthyStr model }

/-- The `"{{ value | float(0) }}"` template. -/
def tmplFloat : String := "\x7b\x7b value | float(0) \x7d\x7d"

/-- The `"{{ '1' if (value | int(0)) > 0 else '0' }}"` template. -/
def tmplBinNumeric : String :=
  "\x7b\x7b \x271\x27 if (value | int(0)) > 0 else \x270\x27 \x7d\x7d"

/-- A sensor entity record. -/
structure SensorItem where
  name : String
  unique_id : String
  cmd_id : Int
  value_template : Option String := none
  device : DeviceBlock
  unit_of_measurement : Option String := none
  device_class : Option String := none
  state_class : Option String := none
  icon : Option String := none
deriving DecidableEq, Repr

/-- The sensor record built once all guards of `build_sensor_yaml` pass. -/
def sensorItemOf (eqlogic : EqLogic) (cmd : Cmd) (rule : Option Rule) : SensorItem :=
  let generic := cmdGeneric cmd
  let eq_id := eqlogic.id
  let eq_name := eqlogic.name.getD ("Jeedom " ++ toString eq_id)
  let cmd_id := cmd.id
  let cmd_name := pyOrStr (pyOrOpt cmd.name cmd.logicalId) ("cmd_" ++ toString cmd_id)
  let unit := pyOrStr cmd.unite ""
  let dslug := device_slug eqlogic rule
  let ov := get_override rule cmd_id
  let dev := mkDeviceBlock
    (pyOrStr (ovGetS ov "device_identifier") ("jeedom_" ++ dslug))
    (pyOrOpt (ovGetS ov "device_name")
      (pyOrOpt (rule.bind (fun r => r.device_name)) (some eq_name)))
    (ovGetS ov "manufacturer") (ovGetS ov "model")
  let uom0 : Option String :=
    if ovHas ov "unit_of_measurement" then
      match ovGetS ov "unit_of_measurement" with
      | some u => if u ≠ "" then some u else none
      | none => none
    else if unit ≠ "" then some unit else none
  let (dc0, sc0, uom1) :=
    match GENERIC_DEFAULTS.lookup generic with
    | some d =>
      (d.device_class, d.state_class,
       match d.unit_of_measurement with
       | some u => some u
       | none => uom0)
    | none => (none, none, uom0)
  let dc1 := if ovHas ov "device_class" then ovGetS ov "device_class" else dc0
  let sc1 := if ovHas ov "state_class" then ovGetS ov "state_class" else sc0
  let icon := if ovHas ov "icon" then ovGetS ov "icon" else none
  let uom2 := if ovHas ov "unit_of_measurement" then ovGetS ov "unit_of_measurement" else uom1
  let uom3 :=
    if dc1 = some "illuminance" then
      match uom2 with
      | some u => if strLower u = "lux" then some "lx" else some u
      | none => none
    else uom2
  { name := pyOrStr (ovGetS ov "name") (eq_name ++ " " ++ cmd_name)
    unique_id := pyOrStr (ovGetS ov "unique_id")
      ("jeedom_" ++ toString eq_id ++ "_" ++ toString cmd_id)
    cmd_id := cmd_id
    value_template := pyOrOpt (ovGetS ov "value_template")
      (if cmd.subType = some "numeric" then some tmplFloat else none)
    device := dev
    unit_of_measurement := uom3
    device_class := dc1
    state_class := sc1
    icon := icon }

/-- `build_sensor_yaml`. -/
def build_sensor_yaml (eqlogic : EqLogic) (cmd : Cmd) (rule : Option Rule)
    (config : DiscoveryConfig) : Option SensorItem :=
  if cmd.type ≠ some "info" then none
  else if is_keypad_alarm_cmd eqlogic cmd then none
  else if (GENERIC_BINARY_DEFAULTS.lookup (cmdGeneric cmd)).isSome then none
  else if cmd.subType = some "binary" &&
      (GENERIC_BINARY_DEFAULTS.lookup (cmdGeneric cmd)).isSome then none
  else if cmd.subType = some "binary" && (notification_113_device_class cmd).isSome then none
  else if !allows_cmd rule cmd config then none
  else some (sensorItemOf eqlogic cmd rule)

/-- A binary-sensor entity record. -/
structure BinaryItem where
  name : String
  unique_id : String
  cmd_id : Int
  payload_on : String
  payload_off : String
  value_template : Option String := none
  device : DeviceBlock
  device_class : Option String := none
  icon : Option String := none
deriving DecidableEq, Repr

/-- The binary-sensor shape test of `build_binary_sensor_yaml`: a generic
binary default, a motion keyword, or one of the three device-class
inferences. -/
def binaryHint (cmd : Cmd) : Bool :=
  let cmd_name_slug := slugify (strStrip (pyOrStr (pyOrOpt cmd.name cmd.logicalId) ""))
  (GENERIC_BINARY_DEFAULTS.lookup (cmdGeneric cmd)).isSome ||
  (["presence", "motion", "mouvement", "occupancy"].any (fun k => strContains cmd_name_slug k)) ||
  (notification_113_device_class cmd).isSome ||
  (vibration_device_class cmd).isSome ||
  (tamper_device_class cmd).isSome

/-- The binary-sensor record built once all guards pass. -/
def binaryItemOf (eqlogic : EqLogic) (cmd : Cmd) (rule : Option Rule) : BinaryItem :=
  let st := strLower (pyOrStr cmd.subType "")
  let generic := cmdGeneric cmd
  let cmd_name_raw := strStrip (pyOrStr (pyOrOpt cmd.name cmd.logicalId) "")
  let cmd_name_slug := slugify cmd_name_raw
  let is_motion_hint := ["presence", "motion", "mouvement", "occupancy"].any
    (fun k => strContains cmd_name_slug k)
  let notif_113_class := notification_113_device_class cmd
  let vibration_class := vibration_device_class cmd
  let tamper_class := tamper_device_class cmd
  let eq_id := eqlogic.id
  let eq_name := eqlogic.name.getD ("Jeedom " ++ toString eq_id)
  let cmd_id := cmd.id
  let cmd_name := pyOrStr (pyOrOpt cmd.name cmd.logicalId) ("cmd_" ++ toString cmd_id)
  let dslug := device_slug eqlogic rule
  let ov := get_override rule cmd_id
  let dev := mkDeviceBlock
    (pyOrStr (ovGetS ov "device_identifier") ("jeedom_" ++ dslug))
    (pyOrOpt (ovGetS ov "device_name")
      (pyOrOpt (rule.bind (fun r => r.device_name)) (some eq_name)))
    (ovGetS ov "manufacturer") (ovGetS ov "model")
  let vt0 := pyOrOpt (ovGetS ov "value_template")
    (if st = "numeric" then some tmplBinNumeric else none)
  let dc0 : Option String :=
    match notif_113_class with
    | some c => some c
    | none =>
      match vibration_class with
      | some c => some c
      | none =>
        match tamper_class with
        | some c => some c
        | none =>
          if generic = "PRESENCE" || is_motion_hint then some "motion"
          else
            match GENERIC_BINARY_DEFAULTS.lookup generic with
            | some d => d.device_class
            | none => none
  let dc1 := if ovHas ov "device_class" then ovGetS ov "device_class" else dc0
  let icon := if ovHas ov "icon" then ovGetS ov "icon" else none
  let vt1 := if ovHas ov "value_template" then ovGetS ov "value_template" else vt0
  { name := pyOrStr (ovGetS ov "name") (eq_name ++ " " ++ cmd_name)
    unique_id := pyOrStr (ovGetS ov "unique_id")
      ("jeedom_" ++ toString eq_id ++ "_" ++ toString cmd_id)
    cmd_id := cmd_id
    payload_on := pyOrStr (ovGetS ov "payload_on") "1"
    payload_off := pyOrStr (ovGetS ov "payload_off") "0"
    value_template := vt1
    device := dev
    device_class := dc1
    icon := icon }

/-- `build_binary_sensor_yaml`. -/
def build_binary_sensor_yaml (eqlogic : EqLogic) (cmd : Cmd) (rule : Option Rule)
    (config : DiscoveryConfig) : Option BinaryItem :=
  if cmd.type ≠ some "info" then none
  else if !(["binary", "numeric"].contains (strLower (pyOrStr cmd.subType ""))) then none
  else if !allows_cmd rule cmd config then none
  else if is_keypad_alarm_cmd eqlogic cmd then none
  else if !binaryHint cmd then none
  else some (binaryItemOf eqlogic cmd rule)

/-! ## Switch -/

/-- Result bundle of `detect_switch`. -/
structure SwitchDetect where
  state_cmd : Cmd
  state_cmd_id : Int
  on_cmd : Cmd
  off_cmd : Cmd
deriving DecidableEq, Repr

/-- The on/off scanning loop of `detect_switch` (an `if/elif` chain where the
last matching action wins each role). -/
def switchOnOffStep (p : Option Cmd × Option Cmd) (action : Cmd) : Option Cmd × Option Cmd :=
  let lid := action.logicalId.getD ""
  let name := strLower (action.name.getD "")
  if strContains lid "setvalue-true" || name == "on" then (some action, p.2)
  else if strContains lid "setvalue-false" || name == "off" then (p.1, some action)
  else p

/-- `detect_switch`. -/
def detect_switch (eqlogic : EqLogic) : Option SwitchDetect :=
  let clean := eqlogic.cmds.filter (fun c => !blacklisted c)
  let infos := clean.filter (fun c => c.type == some "info" && c.subType == some "binary")
  let actions := clean.filter (fun c => c.type == some "action")
  match infos with
  | [] => none
  | st :: _ =>
    match actions.foldl switchOnOffStep (none, none) with
    | (some on_cmd, some off_cmd) =>
      some { state_cmd := st, state_cmd_id := st.id, on_cmd := on_cmd, off_cmd := off_cmd }
    | _ => none

/-- A switch entity record. -/
structure SwitchItem where
  name : String
  unique_id : String
  payload_on : String
  payload_off : String
  state_on : String
  state_off : String
  device : DeviceBlock
deriving DecidableEq, Repr

/-- The switch record built once the guards of `build_switch_yaml` pass
(its `name` is the rule device-name / device-name chain; the override is
consulted only for the device block). -/
def switchItemOf (eqlogic : EqLogic) (detected : SwitchDetect) (rule : Option Rule) :
    SwitchItem :=
  let eq_id := eqlogic.id
  let eq_name := eqlogic.name.getD ("Jeedom " ++ toString eq_id)
  let dslug := device_slug eqlogic rule
  let ov := get_override rule detected.state_cmd.id
  let base_name := pyOrStr (rule.bind (fun r => r.device_name)) eq_name
  { name := base_name
    unique_id := "jeedom_" ++ toString eq_id ++ "_switch"
    payload_on := "ON", payload_off := "OFF", state_on := "1", state_off := "0"
    device := mkDeviceBlock
      (pyOrStr (ovGetS ov "device_identifier") ("jeedom_" ++ dslug))
      (pyOrOpt (ovGetS ov "device_name")
        (pyOrOpt (rule.bind (fun r => r.device_name)) (some eq_name)))
      (ovGetS ov "manufacturer") (ovGetS ov "model") }

/-- `build_switch_yaml`. -/
def build_switch_yaml (eqlogic : EqLogic) (rule : Option Rule) (config : DiscoveryConfig) :
    Option SwitchItem :=
  match detect_switch eqlogic with
  | none => none
  | some detected =>
    if rule.isSome && !(allows_cmd rule detected.state_cmd config &&
        allows_cmd rule detected.on_cmd config && allows_cmd rule detected.off_cmd config) then
      none
    else some (switchItemOf eqlogic detected rule)

/-! ## Cover -/

/-- Result bundle of `detect_cover`. -/
structure CoverDetect where
  up_cmd : Cmd
  down_cmd : Cmd
  stop_cmd : Option Cmd
  set_position_cmd : Option Cmd
  position_state_cmd : Cmd
deriving DecidableEq, Repr

/-- Accumulator of the `detect_cover` scanning loop. -/
structure CoverAcc where
  up : Option Cmd := none
  down : Option Cmd := none
  stop : Option Cmd := none
  set_pos : Option Cmd := none
  pos : Option Cmd := none
deriving DecidableEq, Repr

/-- One step of the `detect_cover` loop. -/
def coverStep (st : CoverAcc) (cmd : Cmd) : CoverAcc :=
  let gt := strStrip (pyOrStr cmd.generic_type "")
  let lid := strLower (pyOrStr cmd.logicalId "")
  let name := strLower (pyOrStr cmd.name "")
  if cmd.type == some "action" then
    if gt == "FLAP_UP" || strContains lid "-open-true" ||
        ["haut", "up", "open"].contains name then { st with up := some cmd }
    else if gt == "FLAP_DOWN" || strContains lid "-close-true" ||
        ["bas", "down", "close"].contains name then { st with down := some cmd }
    else if gt == "FLAP_STOP" || (strContains lid "-open-false" && strContains name "stop") ||
        name == "stop" then { st with stop := some cmd }
    else if gt == "FLAP_SLIDER" || strContains lid "#slider#" ||
        cmd.subType == some "slider" then { st with set_pos := some cmd }
    else st
  else
    if gt == "FLAP_STATE" || strContains lid "currentvalue" ||
        ["etat", "position", "state"].contains name then
      if cmd.subType = some "numeric" || cmd.subType = some "string" then
        { st with pos := some cmd }
      else st
    else st

/-- `detect_cover`. -/
def detect_cover (eqlogic : EqLogic) : Option CoverDetect :=
  let clean := eqlogic.cmds.filter (fun c => !blacklisted c)
  let acc := clean.foldl coverStep {}
  match acc.up, acc.down, acc.pos with
  | some up, some down, some pos =>
    if acc.stop.isSome || acc.set_pos.isSome then
      some { up_cmd := up, down_cmd := down, stop_cmd := acc.stop,
             set_position_cmd := acc.set_pos, position_state_cmd := pos }
    else none
  | _, _, _ => none

/-- A cover entity record (`_position_min`/`_position_max` keep the raw
configured range; `none` = dropped key). -/
structure CoverItem where
  name : String
  unique_id : String
  payload_open : String
  payload_close : String
  payload_stop : String
  position_min : Option ℚ := none
  position_max : Option ℚ := none
  device : DeviceBlock
deriving DecidableEq, Repr

/-- The cover record built once the guards of `build_cover_yaml` pass. -/
def coverItemOf (eqlogic : EqLogic) (detected : CoverDetect) (rule : Option Rule) : CoverItem :=
  let pos_cmd := detected.position_state_cmd
  let eq_id := eqlogic.id
  let eq_name := eqlogic.name.getD ("Jeedom " ++ toString eq_id)
  let dslug := device_slug eqlogic rule
  let ov := get_override rule pos_cmd.id
  let base_name := pyOrStr (rule.bind (fun r => r.device_name)) eq_name
  let (min_v, max_v) := cmdMinMax pos_cmd
  { name := pyOrStr (ovGetS ov "name") base_name
    unique_id := "jeedom_" ++ toString eq_id ++ "_cover"
    payload_open := "OPEN", payload_close := "CLOSE", payload_stop := "STOP"
    position_min := min_v, position_max := max_v
    device := mkDeviceBlock
      (pyOrStr (ovGetS ov "device_identifier") ("jeedom_" ++ dslug))
      (pyOrOpt (ovGetS ov "device_name")
        (pyOrOpt (rule.bind (fun r => r.device_name)) (some eq_name)))
      (ovGetS ov "manufacturer") (ovGetS ov "model") }

/-- `build_cover_yaml`. -/
def build_cover_yaml (eqlogic : EqLogic) (rule : Option Rule) (config : DiscoveryConfig) :
    Option CoverItem :=
  match detect_cover eqlogic with
  | none => none
  | some detected =>
    if rule.isSome && !allows_cmd rule detected.position_state_cmd config then none
    else some (coverItemOf eqlogic detected rule)

/-! ## Number -/

/-- Result bundle of `detect_number`. -/
structure NumberDetect where
  set_cmd : Cmd
  state_cmd : Cmd
deriving DecidableEq, Repr

/-- One step of the `detect_number` loop: the slider action is last-wins, the
numeric info state is first-wins. -/
def numberStep (p : Option Cmd × Option Cmd) (cmd : Cmd) : Option Cmd × Option Cmd :=
  let slider := if cmd.type == some "action" &&
      (cmd.subType == some "slider" || strContains (pyOrStr cmd.logicalId "") "#slider#") then
      some cmd
    else p.1
  let state := if cmd.type == some "info" && cmd.subType == some "numeric" && p.2 = none then
      some cmd
    else p.2
  (slider, state)

/-- `detect_number` (one loop over the non-blacklisted commands). -/
def detect_number (eqlogic : EqLogic) : Option NumberDetect :=
  let clean := eqlogic.cmds.filter (fun c => !blacklisted c)
  let acc := clean.foldl numberStep (none, none)
  match acc with
  | (some set_cmd, some state_cmd) => some { set_cmd := set_cmd, state_cmd := state_cmd }
  | _ => none

/-- A number entity record. -/
structure NumberItem where
  name : String
  unique_id : String
  value_template : String
  device : DeviceBlock
deriving DecidableEq, Repr

/-- The number record built once the guards of `build_number_yaml` pass. -/
def numberItemOf (eqlogic : EqLogic) (detected : NumberDetect) (rule : Option Rule) :
    NumberItem :=
  let eq_id := eqlogic.id
  let eq_name := eqlogic.name.getD ("Jeedom " ++ toString eq_id)
  let dslug := device_slug eqlogic rule
  let ov := get_override rule detected.state_cmd.id
  { name := pyOrStr (ovGetS ov "name") (eq_name ++ " Valeur")
    unique_id := "jeedom_" ++ toString eq_id ++ "_number"
    value_template := tmplFloat
    device := mkDeviceBlock
      (pyOrStr (ovGetS ov "device_identifier") ("jeedom_" ++ dslug))
      (pyOrOpt (ovGetS ov "device_name")
        (pyOrOpt (rule.bind (fun r => r.device_name)) (some eq_name)))
      (ovGetS ov "manufacturer") (ovGetS ov "model") }

/-- `build_number_yaml`. -/
def build_number_yaml (eqlogic : EqLogic) (rule : Option Rule) (config : DiscoveryConfig) :
    Option NumberItem :=
  match detect_number eqlogic with
  | none => none
  | some detected =>
    if rule.isSome && !(allows_cmd rule detected.state_cmd config &&
        allows_cmd rule detected.set_cmd config) then none
    else some (numberItemOf eqlogic detected rule)

/-! ## Alarm control panel (builder) -/

/-- Python `a or b` on string-to-string map values ({}-falsy). -/
def pyOrMap (a : Option (List (String × String))) (b : List (String × String)) :
    List (String × String) :=
  match a with
  | some m => if m.isEmpty then b else m
  | none => b

/-- An alarm-control-panel entity record. -/
structure AlarmItem where
  name : String
  unique_id : String
  state_map : List (String × String)
  device : DeviceBlock
deriving DecidableEq, Repr

def default_alarm_state_map : List (String × String) :=
  [("0", "disarmed"), ("1", "armed_away"), ("home", "disarmed"), ("away", "armed_away")]

/-- The alarm-panel record built once the guards pass. -/
def alarmItemOf (eqlogic : EqLogic) (detected : AlarmDetect) (rule : Option Rule) : AlarmItem :=
  let eq_id := eqlogic.id
  let eq_name := eqlogic.name.getD ("Jeedom " ++ toString eq_id)
  let dslug := device_slug eqlogic rule
  let ov := get_override rule detected.state_cmd.id
  let base_name := pyOrStr (rule.bind (fun r => r.device_name)) eq_name
  let rule_state_map : Option (List (String × String)) :=
    match rule with
    | none => none
    | some r =>
      match r.alarm_control_panel with
      | some acp =>
        match acp.state_map with
        | some m => some m
        | none => r.alarm_state_map
      | none => r.alarm_state_map
  { name := pyOrStr (ovGetS ov "name") base_name
    unique_id := pyOrStr (ovGetS ov "unique_id")
      ("jeedom_" ++ toString eq_id ++ "_alarm_control_panel")
    state_map := pyOrMap (ovGetM ov "state_map")
      (pyOrMap rule_state_map default_alarm_state_map)
    device := mkDeviceBlock
      (pyOrStr (ovGetS ov "device_identifier") ("jeedom_" ++ dslug))
      (pyOrOpt (ovGetS ov "device_name") (some base_name))
      (ovGetS ov "manufacturer") (ovGetS ov "model") }

/-- `build_alarm_control_panel_yaml`. -/
def build_alarm_control_panel_yaml (eqlogic : EqLogic) (rule : Option Rule)
    (config : DiscoveryConfig) : Option AlarmItem :=
  match detect_alarm_control_panel eqlogic with
  | none => none
  | some detected =>
    if rule.isSome && !allows_cmd rule detected.state_cmd config then none
    else some (alarmItemOf eqlogic detected rule)

/-! ## Water heater -/

/-- Python `a or b` on lists ([]-falsy). -/
def pyOrList (a : Option (List String)) (b : List String) : List String :=
  match a with
  | some l => if l.isEmpty then b else l
  | none => b

/-- Result bundle of `detect_water_heater`. -/
structure WHDetect where
  state_cmd : Cmd
  on_cmd : Cmd
  off_cmd : Cmd
  modes : List String
deriving DecidableEq, Repr

/-- The keyword/generic-type on/off scan of the water-heater heuristics
(two independent first-wins assignments per action). -/
def whOnOffStep (p : Option Cmd × Option Cmd) (action : Cmd) : Option Cmd × Option Cmd :=
  let lid := strLower (pyOrStr action.logicalId "")
  let name := strLower (strStrip (pyOrStr action.name ""))
  let gt := strUpper (strStrip (pyOrStr action.generic_type ""))
  let on' := if p.1 = none && (strContains lid "setvalue-true" || name = "on" ||
      gt = "SWITCH_ON" || gt = "WATER_HEATER_ON") then some action else p.1
  let off' := if p.2 = none && (strContains lid "setvalue-false" || name = "off" ||
      gt = "SWITCH_OFF" || gt = "WATER_HEATER_OFF") then some action else p.2
  (on', off')

/-- One step of the weighted state scoring of the water-heater heuristics
(binary +3, state keyword +2, `currentvalue` +1; strict improvement, first
max wins). -/
def whScoreStep (p : Option Cmd × Int) (info : Cmd) : Option Cmd × Int :=
  let name := strLower (strStrip (pyOrStr info.name ""))
  let lid := strLower (pyOrStr info.logicalId "")
  let st := strLower (pyOrStr info.subType "")
  let score : Int :=
    (if st = "binary" then 3 else 0) +
    (if strContains name "etat" || strContains name "state" || strContains name "status"
     then 2 else 0) +
    (if strContains lid "currentvalue" then 1 else 0)
  if score > p.2 then (some info, score) else p

/-- The weighted state scoring loop of the water-heater heuristics. -/
def whBestState (infos : List Cmd) : Option Cmd :=
  (infos.foldl whScoreStep (none, -1)).1

/-- The switch-detection fallback stage of `detect_water_heater`. -/
def whStage1 (eqlogic : EqLogic) (s0 o0 f0 : Option Cmd) :
    Option Cmd × Option Cmd × Option Cmd :=
  if o0.isNone || f0.isNone || s0.isNone then
    match detect_switch eqlogic with
    | some sw => (s0 <|> some sw.state_cmd, o0 <|> some sw.on_cmd, f0 <|> some sw.off_cmd)
    | none => (s0, o0, f0)
  else (s0, o0, f0)

/-- The keyword/scoring fallback stage of `detect_water_heater`. -/
def whStage2 (eqlogic : EqLogic) (s1 o1 f1 : Option Cmd) :
    Option Cmd × Option Cmd × Option Cmd :=
  if o1.isNone || f1.isNone || s1.isNone then
    let clean := eqlogic.cmds.filter (fun c => !blacklisted c)
    let actions := clean.filter (fun c => c.type == some "action")
    let infos := clean.filter (fun c => c.type == some "info")
    let p := actions.foldl whOnOffStep (o1, f1)
    (s1 <|> whBestState infos, p.1, p.2)
  else (s1, o1, f1)

/-- `detect_water_heater` (only considered when explicitly requested by rule). -/
def detect_water_heater (eqlogic : EqLogic) (rule : Option Rule) (config : DiscoveryConfig) :
    Option WHDetect :=
  match rule with
  | none => none
  | some r =>
    let platform := strLower (strStrip (pyOrStr (pyOrOpt r.platform r.device_type) ""))
    let wh_cfg := r.water_heater
    let isDict := match wh_cfg with | some (.whDict _) => true | _ => false
    if platform ≠ "water_heater" && !isDict && wh_cfg ≠ some .whTrue then none
    else
      let whd : WhDict := match wh_cfg with | some (.whDict d) => d | _ => {}
      let p1 := whStage1 eqlogic (whd.state_cmd_id.bind (getCmdById eqlogic))
        (whd.on_cmd_id.bind (getCmdById eqlogic)) (whd.off_cmd_id.bind (getCmdById eqlogic))
      let p2 := whStage2 eqlogic p1.1 p1.2.1 p1.2.2
      match p2.1, p2.2.1, p2.2.2 with
      | some state_cmd, some on_cmd, some off_cmd =>
        if !(allows_cmd rule state_cmd config && allows_cmd rule on_cmd config &&
             allows_cmd rule off_cmd config) then none
        else
          some { state_cmd := state_cmd, on_cmd := on_cmd, off_cmd := off_cmd,
                 modes := pyOrList whd.modes ["off", "heat"] }
      | _, _, _ => none

/-- `_water_heater_on_mode`. -/
def water_heater_on_mode (modes : List String) : String :=
  if modes.contains "heat" then "heat"
  else
    match modes.find? (fun m => m ≠ "off") with
    | some m => m
    | none => "on"

/-- A water-heater entity record. -/
structure WaterHeaterItem where
  name : String
  unique_id : String
  modes : List String
  mode_state_template : String
  device : DeviceBlock
deriving DecidableEq, Repr

/-- The default water-heater mode-state template for a given on-mode. -/
def whDefaultTemplate (on_mode : String) : String :=
  "\x7b% set v = value | string | lower %\x7d" ++
  "\x7b% if v in [\x27on\x27,\x27heat\x27,\x27eco\x27,\x27boost\x27,\x271\x27,\x27true\x27]" ++
  " or (value | int(0)) > 0 %\x7d" ++ on_mode ++ "\x7b% else %\x7doff\x7b% endif %\x7d"

/-- The `"off"`-first normalised mode list of `build_water_heater_yaml`. -/
def whModesOf (detected : WHDetect) : List String :=
  let modes0 := (detected.modes.map strStrip).filter (fun m => m ≠ "")
  let modes1 := if modes0.isEmpty then ["off", "heat"] else modes0
  if !modes1.contains "off" then "off" :: modes1.filter (fun m => m ≠ "off") else modes1

/-- The water-heater record built once the guards pass. -/
def whItemOf (eqlogic : EqLogic) (detected : WHDetect) (rule : Option Rule) : WaterHeaterItem :=
  let modes2 := whModesOf detected
  let eq_id := eqlogic.id
  let eq_name := eqlogic.name.getD ("Jeedom " ++ toString eq_id)
  let dslug := device_slug eqlogic rule
  let ov := get_override rule detected.state_cmd.id
  let base_name := pyOrStr (rule.bind (fun r => r.device_name)) eq_name
  let on_mode := water_heater_on_mode modes2
  { name := pyOrStr (ovGetS ov "name") base_name
    unique_id := pyOrStr (ovGetS ov "unique_id")
      ("jeedom_" ++ toString eq_id ++ "_water_heater")
    modes := modes2
    mode_state_template := pyOrStr
      (pyOrOpt (ovGetS ov "mode_state_template") (ovGetS ov "value_template"))
      (whDefaultTemplate on_mode)
    device := mkDeviceBlock
      (pyOrStr (ovGetS ov "device_identifier") ("jeedom_" ++ dslug))
      (pyOrOpt (ovGetS ov "device_name")
        (pyOrOpt (rule.bind (fun r => r.device_name)) (some eq_name)))
      (ovGetS ov "manufacturer") (ovGetS ov "model") }

/-- `build_water_heater_yaml`. -/
def build_water_heater_yaml (eqlogic : EqLogic) (rule : Option Rule) (config : DiscoveryConfig) :
    Option WaterHeaterItem :=
  match detect_water_heater eqlogic rule config with
  | none => none
  | some detected =>
    if rule.isSome && !(allows_cmd rule detected.state_cmd config &&
        allows_cmd rule detected.on_cmd config && allows_cmd rule detected.off_cmd config) then
      none
    else some (whItemOf eqlogic detected rule)

/-! ## Climate (thermostat) -/

/-- `_setpoint_kind` (returns `""` when no kind matches). -/
def setpoint_kind (cmd : Cmd) : String :=
  let lid := strLower (cmd.logicalId.getD "")
  let prop := strLower (cmd.configuration.property.getD "")
  let name := strLower (cmd.name.getD "")
  if strContains lid "setpoint-1" || strContains prop "setpoint-1" then "hot"
  else if strContains lid "setpoint-2" || strContains prop "setpoint-2" then "cold"
  else if strContains lid "setpoint-10" || strContains prop "setpoint-10" then "auto"
  else if strContains name "chaud" || strContains name "hot" || strContains name "heat" then "hot"
  else if strContains name "froid" || strContains name "cold" || strContains name "cool" then
    "cold"
  else if strContains name "auto" then "auto"
  else ""

/-- A `"hot"/"cold"/"auto"`-keyed command map. -/
structure KindMap where
  hot : Option Cmd := none
  cold : Option Cmd := none
  auto : Option Cmd := none
deriving DecidableEq, Repr

def kmGet (m : KindMap) (k : String) : Option Cmd :=
  if k = "hot" then m.hot else if k = "cold" then m.cold
  else if k = "auto" then m.auto else none

/-- `m[k] = c` (overwrite). -/
def kmSet (m : KindMap) (k : String) (c : Cmd) : KindMap :=
  if k = "hot" then { m with hot := some c }
  else if k = "cold" then { m with cold := some c }
  else if k = "auto" then { m with auto := some c }
  else m

/-- `m.setdefault(k, c)`. -/
def kmSetD (m : KindMap) (k : String) (c : Cmd) : KindMap :=
  if (kmGet m k).isSome then m else kmSet m k c

/-- Result bundle of `detect_climate`. -/
structure ClimateDetect where
  current_temp_cmd : Option Cmd
  target_temp_state_cmd : Option Cmd
  set_temp_cmd : Cmd
  set_temp_cmds : KindMap
  target_temp_state_cmds : KindMap
  setpoint_kind : String
deriving DecidableEq, Repr

/-- Accumulator of the `detect_climate` loop. -/
structure ClimateAcc where
  current_temp : Option Cmd := none
  target_temp_states : KindMap := {}
  set_temp_cmds : KindMap := {}
deriving DecidableEq, Repr

/-- The info half of one `detect_climate` loop step. -/
def climateInfoPhase (st : ClimateAcc) (cmd : Cmd) : ClimateAcc :=
  let gt := strUpper (strStrip (pyOrStr cmd.generic_type ""))
  let kind := setpoint_kind cmd
  if cmd.type == some "info" && cmd.subType == some "numeric" then
    if gt = "THERMOSTAT_TEMPERATURE" then { st with current_temp := some cmd }
    else if kind ≠ "" then { st with target_temp_states := kmSet st.target_temp_states kind cmd }
    else if gt = "THERMOSTAT_SETPOINT" then
      { st with target_temp_states := kmSetD st.target_temp_states "auto" cmd }
    else st
  else st

/-- The action half of one `detect_climate` loop step. -/
def climateActionPhase (st : ClimateAcc) (cmd : Cmd) : ClimateAcc :=
  let gt := strUpper (strStrip (pyOrStr cmd.generic_type ""))
  let lid := strLower (pyOrStr cmd.logicalId "")
  let name := strLower (pyOrStr cmd.name "")
  let kind := setpoint_kind cmd
  if cmd.type == some "action" then
    if cmd.subType == some "slider" || strContains lid "#slider#" then
      if kind ≠ "" then { st with set_temp_cmds := kmSet st.set_temp_cmds kind cmd }
      else if gt = "THERMOSTAT_SET_SETPOINT" || gt = "THERMOSTAT_SETPOINT" ||
          strContains name "consigne" || strContains name "setpoint" then
        { st with set_temp_cmds := kmSetD st.set_temp_cmds "auto" cmd }
      else st
    else st
  else st

/-- One step of the `detect_climate` classification loop. -/
def climateStep (st : ClimateAcc) (cmd : Cmd) : ClimateAcc :=
  climateActionPhase (climateInfoPhase st cmd) cmd

/-- `detect_climate`. -/
def detect_climate (eqlogic : EqLogic) : Option ClimateDetect :=
  let eq_lid := strLower (pyOrStr eqlogic.logicalId "")
  let eq_name := strLower (pyOrStr eqlogic.name "")
  if strContains eq_lid "fibargroup_rgbw_controller_fgrgbw" || strContains eq_lid "fgrgbw" ||
      strContains eq_name "fgrgbw" then none
  else if catGet eqlogic.category.light = "1" then none
  else
    let clean := eqlogic.cmds.filter (fun c => !blacklisted c)
    let acc := clean.foldl climateStep {}
    let kind? := (["hot", "auto", "cold"].find? (fun k => (kmGet acc.set_temp_cmds k).isSome))
    match kind? with
    | none => none
    | some kind =>
      match kmGet acc.set_temp_cmds kind with
      | none => none
      | some set_temp_cmd =>
        some { current_temp_cmd := acc.current_temp
               target_temp_state_cmd :=
                 (kmGet acc.target_temp_states kind) <|> (kmGet acc.target_temp_states "auto")
               set_temp_cmd := set_temp_cmd
               set_temp_cmds := acc.set_temp_cmds
               target_temp_state_cmds := acc.target_temp_states
               setpoint_kind := kind }

/-! ## Light -/

/-- `_norm_text`: lowercase (+ NFKD on ASCII), collapse non-alphanumeric runs
to single spaces, strip. -/
def normText (value : Option String) : String :=
  let base := strLower (pyOrStr value "")
  String.intercalate " " ((tokenizeBy isLowerAlnum base.data).map String.mk)

/-- Adjacent token pair in a token list. -/
def adjPair (tokens : List String) (a b : String) : Bool :=
  (tokens.zip tokens.tail).any (fun p => p.1 = a && p.2 = b)

/-- `_color_channel`: generic-type tag first, then word-boundary keyword
matching over the normalized text, then compact RGBW-token heuristics.
The word-boundary regexes of the source act on the space-normalized text,
where `\b(w)\b` is token membership and `\bcolor\s*[rgbw]\b` matches a
`"color"` token directly followed by a one-letter token, or a single
`"color<letter>"` token. -/
def colorChannel (cmd : Cmd) : Option String :=
  let gt := strUpper (strStrip (pyOrStr cmd.generic_type ""))
  if strContains gt "RED" then some "red"
  else if strContains gt "GREEN" then some "green"
  else if strContains gt "BLUE" then some "blue"
  else if strContains gt "WHITE" || gt.endsWith "_W" then some "white"
  else
    let lid := normText cmd.logicalId
    let name := normText cmd.name
    let prop := normText cmd.configuration.property
    let text := String.intercalate " " ([lid, name, prop].filter (fun t => t ≠ ""))
    let tokens := (tokenizeBy isLowerAlnum text.data).map String.mk
    if tokens.contains "red" || tokens.contains "rouge" then some "red"
    else if tokens.contains "green" || tokens.contains "vert" then some "green"
    else if tokens.contains "blue" || tokens.contains "bleu" then some "blue"
    else if tokens.contains "white" || tokens.contains "blanc" then some "white"
    else
      let compact :=
        if ["rgb", "rgbw", "color", "couleur"].any (fun t => tokens.contains t) then
          if tokens.contains "r" then some "red"
          else if tokens.contains "g" then some "green"
          else if tokens.contains "b" then some "blue"
          else if tokens.contains "w" then some "white"
          else none
        else none
      match compact with
      | some c => some c
      | none =>
        let colorLetter := ["r", "g", "b", "w"].any (fun l =>
          adjPair tokens "color" l || tokens.contains ("color" ++ l))
        if colorLetter then
          if strContains text "color r" then some "red"
          else if strContains text "color g" then some "green"
          else if strContains text "color b" then some "blue"
          else if strContains text "color w" then some "white"
          else none
        else none

/-- A `"red"/"green"/"blue"/"white"`-keyed command map. -/
structure ColorMap where
  red : Option Cmd := none
  green : Option Cmd := none
  blue : Option Cmd := none
  white : Option Cmd := none
deriving DecidableEq, Repr

def cmGet (m : ColorMap) (k : String) : Option Cmd :=
  if k = "red" then m.red else if k = "green" then m.green
  else if k = "blue" then m.blue else if k = "white" then m.white else none

/-- First-wins insertion (`if channel and channel not in dict`). -/
def cmSetFirst (m : ColorMap) (k : String) (c : Cmd) : ColorMap :=
  if (cmGet m k).isSome then m
  else if k = "red" then { m with red := some c }
  else if k = "green" then { m with green := some c }
  else if k = "blue" then { m with blue := some c }
  else if k = "white" then { m with white := some c }
  else m

/-- `c in map.values()`. -/
def cmHasVal (m : ColorMap) (c : Cmd) : Bool :=
  m.red = some c || m.green = some c || m.blue = some c || m.white = some c

/-- Result bundle of `detect_light`. -/
structure LightDetect where
  on_cmd : Option Cmd
  off_cmd : Option Cmd
  brightness_set_cmd : Option Cmd
  state_cmd : Option Cmd
  brightness_state_cmd : Option Cmd
  color_set_cmds : ColorMap
  color_state_cmds : ColorMap
deriving DecidableEq, Repr

/-- The on/off + color-slider scan over the light actions. -/
def lightActionStep (st : Option Cmd × Option Cmd × ColorMap) (action : Cmd) :
    Option Cmd × Option Cmd × ColorMap :=
  let lid := strLower (pyOrStr action.logicalId "")
  let name := strLower (strStrip (pyOrStr action.name ""))
  let gt := strStrip (pyOrStr action.generic_type "")
  let (on?, off?, cs) := st
  let (on?, off?) :=
    if strContains lid "setvalue-true" || name = "on" || gt = "LIGHT_ON" || gt = "SWITCH_ON" then
      (some action, off?)
    else if strContains lid "setvalue-false" || name = "off" || gt = "LIGHT_OFF" ||
        gt = "SWITCH_OFF" then (on?, some action)
    else (on?, off?)
  let cs :=
    if action.subType == some "slider" || strContains lid "#slider#" then
      match colorChannel action with
      | some channel => cmSetFirst cs channel action
      | none => cs
    else cs
  (on?, off?, cs)

/-- The binary state + numeric color-state scan over the light infos. -/
def lightInfoStep (st : Option Cmd × ColorMap) (info : Cmd) : Option Cmd × ColorMap :=
  let lid := strLower (pyOrStr info.logicalId "")
  let name := strLower (strStrip (pyOrStr info.name ""))
  let (sb, cs) := st
  let sb :=
    if sb = none && info.subType == some "binary" &&
        (["etat", "state", "on", "off"].contains name || strContains lid "currentvalue") then
      some info
    else sb
  let cs :=
    if info.subType == some "numeric" then
      match colorChannel info with
      | some channel => cmSetFirst cs channel info
      | none => cs
    else cs
  (sb, cs)

/-- `detect_light`. -/
def detect_light (eqlogic : EqLogic) : Option LightDetect :=
  if (detect_climate eqlogic).isSome then none
  else if (detect_cover eqlogic).isSome then none
  else if (catGet eqlogic.category.opening = "1" || catGet eqlogic.category.automatism = "1") &&
      catGet eqlogic.category.light ≠ "1" then none
  else
    let cmds := eqlogic.cmds
    let clean := cmds.filter (fun c => !blacklisted c)
    let actions := clean.filter (fun c => c.type == some "action")
    let infos := clean.filter (fun c => c.type == some "info")
    let (on?, off?, color_set_cmds) := actions.foldl lightActionStep (none, none, {})
    let (state_bin, color_state_cmds) := infos.foldl lightInfoStep (none, {})
    let brightness_set := (actions.filter (fun a => !cmHasVal color_set_cmds a)).find? (fun a =>
      let lid := strLower (pyOrStr a.logicalId "")
      let name := strLower (strStrip (pyOrStr a.name ""))
      let gt := strStrip (pyOrStr a.generic_type "")
      (a.subType == some "slider" || strContains lid "#slider#" || gt = "LIGHT_SLIDER" ||
       gt = "DIMMER") ||
      (["brightness", "dimmer", "level", "niveau", "intensite", "luminosite"].any
        (fun k => strContains name k)))
    let brightness_state := infos.find? (fun i =>
      i.subType == some "numeric" && !cmHasVal color_state_cmds i &&
      (strContains (strLower (pyOrStr i.logicalId "")) "currentvalue" ||
       ["niveau", "brightness", "dimmer", "level", "valeur", "intensite", "luminosite"].contains
         (strLower (strStrip (pyOrStr i.name "")))))
    let is_marked_light := catGet eqlogic.category.light = "1"
    let has_light_generic := cmds.any (fun c =>
      ["LIGHT_ON", "LIGHT_OFF", "LIGHT_SLIDER", "DIMMER"].contains
        (strStrip (pyOrStr c.generic_type "")))
    let has_rgb := color_set_cmds.red.isSome && color_set_cmds.green.isSome &&
      color_set_cmds.blue.isSome
    if (has_rgb || brightness_set.isSome || is_marked_light || has_light_generic) &&
        (has_rgb || (on?.isSome && off?.isSome) || brightness_set.isSome) then
      some { on_cmd := on?, off_cmd := off?, brightness_set_cmd := brightness_set,
             state_cmd := state_bin, brightness_state_cmd := brightness_state,
             color_set_cmds := color_set_cmds, color_state_cmds := color_state_cmds }
    else none

/-- A light entity record. -/
structure LightItem where
  name : String
  unique_id : String
  payload_on : String
  payload_off : String
  optimistic : Option Bool := none
  brightness_scale : Option Int := none
  device : DeviceBlock
deriving DecidableEq, Repr

/-- A rule rejecting an optionally-detected command (the per-key guard loops
of the light/climate builders and of `generate_actions`). -/
def ruleRejects (rule : Option Rule) (config : DiscoveryConfig) (c : Option Cmd) : Bool :=
  match c with
  | some cmd => rule.isSome && !allows_cmd rule cmd config
  | none => false

/-- The light record built once the guards pass. -/
def lightItemOf (eqlogic : EqLogic) (detected : LightDetect) (rule : Option Rule) : LightItem :=
  let eq_id := eqlogic.id
  let eq_name := eqlogic.name.getD ("Jeedom " ++ toString eq_id)
  let dslug := device_slug eqlogic rule
  let base_name := pyOrStr (rule.bind (fun r => r.device_name)) eq_name
  let (nm, dev, opt) :=
    match detected.state_cmd with
    | some st_cmd =>
      let ov := get_override rule st_cmd.id
      (pyOrStr (ovGetS ov "name") base_name,
       mkDeviceBlock
         (pyOrStr (ovGetS ov "device_identifier") ("jeedom_" ++ dslug))
         (pyOrOpt (ovGetS ov "device_name") (some base_name))
         (ovGetS ov "manufacturer") (ovGetS ov "model"),
       (none : Option Bool))
    | none =>
      (base_name,
       { identifiers := ["jeedom_" ++ dslug], name := some base_name : DeviceBlock },
       some true)
  { name := nm
    unique_id := "jeedom_" ++ toString eq_id ++ "_light"
    payload_on := "ON", payload_off := "OFF"
    optimistic := opt
    brightness_scale := if detected.brightness_set_cmd.isSome then some 255 else none
    device := dev }

/-- `build_light_yaml`. -/
def build_light_yaml (eqlogic : EqLogic) (rule : Option Rule) (config : DiscoveryConfig) :
    Option LightItem :=
  match detect_light eqlogic with
  | none => none
  | some detected =>
    if ruleRejects rule config detected.on_cmd || ruleRejects rule config detected.off_cmd ||
        ruleRejects rule config detected.brightness_set_cmd ||
        ruleRejects rule config detected.state_cmd ||
        ruleRejects rule config detected.brightness_state_cmd then none
    else some (lightItemOf eqlogic detected rule)

/-! ## Select and pilot climate (builders) -/

/-- A select entity record. -/
structure SelectItem where
  name : String
  unique_id : String
  options : List String
  icon : Option String := none
  device : DeviceBlock
deriving DecidableEq, Repr

/-- Insert into an int-keyed ordered dict (overwrite value, keep key order). -/
def valueMapInsert (m : List (Int × String)) (k : Int) (v : String) : List (Int × String) :=
  if m.any (fun p => p.1 == k) then m.map (fun p => if p.1 == k then (k, v) else p)
  else m ++ [(k, v)]

/-- The rule filtering of detected pilot options shared by the select/pilot
builders. -/
def pilotAllowedOptions (detected : PilotDetect) (rule : Option Rule)
    (config : DiscoveryConfig) : List PilotOpt :=
  detected.options.filter (fun o => !(rule.isSome && !allows_cmd rule o.cmd config))

/-- The int-keyed label dict of `build_select_yaml`. -/
def selectOptionsMap (options : List PilotOpt) : List (Int × String) :=
  options.foldl (fun m o => valueMapInsert m o.value o.label) []

/-- The select record built once the guards pass. -/
def selectItemOf (eqlogic : EqLogic) (state_cmd : Cmd) (options : List PilotOpt)
    (rule : Option Rule) : SelectItem :=
  let eq_id := eqlogic.id
  let eq_name := eqlogic.name.getD ("Jeedom " ++ toString eq_id)
  let dslug := device_slug eqlogic rule
  let ov := get_override rule state_cmd.id
  let base_name := pyOrStr (rule.bind (fun r => r.device_name)) eq_name
  { name := pyOrStr (ovGetS ov "name") (base_name ++ " Mode")
    unique_id := pyOrStr (ovGetS ov "unique_id") ("jeedom_" ++ toString eq_id ++ "_select")
    options := (selectOptionsMap options).map (fun p => p.2)
    icon := if ovHas ov "icon" then ovGetS ov "icon" else none
    device := mkDeviceBlock
      (pyOrStr (ovGetS ov "device_identifier") ("jeedom_" ++ dslug))
      (pyOrOpt (ovGetS ov "device_name")
        (pyOrOpt (rule.bind (fun r => r.device_name)) (some eq_name)))
      (ovGetS ov "manufacturer") (ovGetS ov "model") }

/-- `build_select_yaml`. -/
def build_select_yaml (eqlogic : EqLogic) (rule : Option Rule) (config : DiscoveryConfig) :
    Option SelectItem :=
  match detect_pilot_wire eqlogic with
  | none => none
  | some detected =>
    if rule.isSome && !allows_cmd rule detected.state_cmd config then none
    else
      let options := pilotAllowedOptions detected rule config
      if options.length < 2 then none
      else if (selectOptionsMap options).length < 2 then none
      else some (selectItemOf eqlogic detected.state_cmd options rule)

/-- A climate entity record (pilot-wire or thermostat; unused fields absent). -/
structure ClimateItem where
  name : String
  unique_id : String
  modes : List String
  preset_modes : Option (List String) := none
  min_temp : Option ℚ := none
  max_temp : Option ℚ := none
  temp_step : Option ℚ := none
  current_temperature_cmd_id : Option Int := none
  icon : Option String := none
  device : DeviceBlock
deriving DecidableEq, Repr

/-- The current-temperature scan of `build_pilot_climate_yaml`: the first
numeric `TEMPERATURE` info command of the **raw** command list (no blacklist
check). -/
def pilotTempCmd (eqlogic : EqLogic) : Option Cmd :=
  eqlogic.cmds.find? (fun c =>
    c.type == some "info" && c.subType == some "numeric" && cmdGeneric c = "TEMPERATURE")

/-- The pilot-climate record built once the guards pass; its
current-temperature reference is `allows_cmd`-gated only when a rule matches
the device. -/
def pilotClimateItemOf (eqlogic : EqLogic) (state_cmd : Cmd) (pilot_cmds : PilotRoles)
    (rule : Option Rule) (config : DiscoveryConfig) : ClimateItem :=
  let additional_modes := pilot_cmds.comfort_1.isSome && pilot_cmds.comfort_2.isSome
  let eq_id := eqlogic.id
  let eq_name := eqlogic.name.getD ("Jeedom " ++ toString eq_id)
  let dslug := device_slug eqlogic rule
  let ov := get_override rule state_cmd.id
  let base_name := pyOrStr (rule.bind (fun r => r.device_name)) eq_name
  let preset_modes := ["comfort"] ++
    (if additional_modes then ["comfort-1", "comfort-2"] else []) ++ ["eco", "away"]
  let ct_id : Option Int :=
    match pilotTempCmd eqlogic with
    | some tc => if rule.isNone || allows_cmd rule tc config then some tc.id else none
    | none => none
  { name := pyOrStr (ovGetS ov "name") base_name
    unique_id := pyOrStr (ovGetS ov "unique_id")
      ("jeedom_" ++ toString eq_id ++ "_pilot_climate")
    modes := ["heat", "off"]
    preset_modes := some preset_modes
    current_temperature_cmd_id := ct_id
    icon := if ovHas ov "icon" then ovGetS ov "icon" else none
    device := mkDeviceBlock
      (pyOrStr (ovGetS ov "device_identifier") ("jeedom_" ++ dslug))
      (pyOrOpt (ovGetS ov "device_name")
        (pyOrOpt (rule.bind (fun r => r.device_name)) (some eq_name)))
      (ovGetS ov "manufacturer") (ovGetS ov "model") }

/-- `build_pilot_climate_yaml`.  Note that the current-temperature scan runs
over the raw command list (no blacklist check) and is only `allows_cmd`-gated
when a rule matches the device. -/
def build_pilot_climate_yaml (eqlogic : EqLogic) (rule : Option Rule)
    (config : DiscoveryConfig) : Option ClimateItem :=
  match detect_pilot_wire eqlogic with
  | none => none
  | some detected =>
    if rule.isSome && !allows_cmd rule detected.state_cmd config then none
    else
      let options := pilotAllowedOptions detected rule config
      if options.isEmpty then none
      else
        let pilot_cmds := pilot_wire_cmds options
        if !(pilot_cmds.off.isSome && pilot_cmds.comfort.isSome) then none
        else some (pilotClimateItemOf eqlogic detected.state_cmd pilot_cmds rule config)

/-- The thermostat-climate record built once the guards pass (its `name` is
always the rule device-name / device-name chain; overrides only reach the
device block, via the current-temperature command's id). -/
def climateItemOf (eqlogic : EqLogic) (detected : ClimateDetect) (rule : Option Rule) :
    ClimateItem :=
  let eq_id := eqlogic.id
  let eq_name := eqlogic.name.getD ("Jeedom " ++ toString eq_id)
  let dslug := device_slug eqlogic rule
  let base_name := pyOrStr (rule.bind (fun r => r.device_name)) eq_name
  let dev :=
    match detected.current_temp_cmd with
    | some ct_cmd =>
      let ov := get_override rule ct_cmd.id
      mkDeviceBlock
        (pyOrStr (ovGetS ov "device_identifier") ("jeedom_" ++ dslug))
        (pyOrOpt (ovGetS ov "device_name") (some base_name))
        (ovGetS ov "manufacturer") (ovGetS ov "model")
    | none =>
      { identifiers := ["jeedom_" ++ dslug], name := some base_name }
  { name := base_name
    unique_id := "jeedom_" ++ toString eq_id ++ "_climate"
    modes := ["off", "heat"]
    min_temp := some 5
    max_temp := some 30
    temp_step := some (1 / 2 : ℚ)
    device := dev }

/-- `build_climate_yaml` (thermostat). -/
def build_climate_yaml (eqlogic : EqLogic) (rule : Option Rule) (config : DiscoveryConfig) :
    Option ClimateItem :=
  match detect_climate eqlogic with
  | none => none
  | some detected =>
    if ruleRejects rule config detected.current_temp_cmd ||
        ruleRejects rule config detected.target_temp_state_cmd ||
        ruleRejects rule config (some detected.set_temp_cmd) then none
    else some (climateItemOf eqlogic detected rule)

/-! ## Entity document -/

/-- The entity document: platform-kind → list of entity records. -/
structure EntityDoc where
  sensor : List SensorItem := []
  binary_sensor : List BinaryItem := []
  alarm_control_panel : List AlarmItem := []
  climate : List ClimateItem := []
  light : List LightItem := []
  switch : List SwitchItem := []
  water_heater : List WaterHeaterItem := []
  cover : List CoverItem := []
  number : List NumberItem := []
  select : List SelectItem := []
deriving DecidableEq, Repr

/-- The per-command sensor/binary-sensor loop of `generate_entity_doc`
(binary-sensor wins, mutually exclusive with the plain sensor). -/
def sensorBinLists (eqlogic : EqLogic) (rule : Option Rule) (config : DiscoveryConfig) :
    List SensorItem × List BinaryItem :=
  let scs := sortCmdsById eqlogic.cmds
  (scs.filterMap (fun c =>
     if (build_binary_sensor_yaml eqlogic c rule config).isSome then none
     else build_sensor_yaml eqlogic c rule config),
   scs.filterMap (fun c => build_binary_sensor_yaml eqlogic c rule config))

/-- The contribution of a single device to the entity document (the loop body
of `generate_entity_doc`). -/
def genEntityForDevice (config : DiscoveryConfig) (eq : EqLogic) : EntityDoc :=
  let rule := find_rule eq config
  let (sensors, binaries) := sensorBinLists eq rule config
  let base : EntityDoc := { sensor := sensors, binary_sensor := binaries }
  match rule_platform rule with
  | some "alarm_control_panel" =>
    { base with alarm_control_panel := (build_alarm_control_panel_yaml eq rule config).toList }
  | some "climate" =>
    { base with climate :=
        match build_pilot_climate_yaml eq rule config with
        | some pcl => [pcl]
        | none => (build_climate_yaml eq rule config).toList }
  | some "water_heater" =>
    { base with water_heater := (build_water_heater_yaml eq rule config).toList }
  | some "cover" =>
    { base with cover := (build_cover_yaml eq rule config).toList }
  | some "light" =>
    { base with light := (build_light_yaml eq rule config).toList }
  | some "switch" =>
    { base with switch := (build_switch_yaml eq rule config).toList }
  | some "number" =>
    { base with number := (build_number_yaml eq rule config).toList }
  | some "select" =>
    { base with select := (build_select_yaml eq rule config).toList }
  | _ =>
    let acp := (build_alarm_control_panel_yaml eq rule config).toList
    let climates :=
      match build_pilot_climate_yaml eq rule config with
      | some pcl => [pcl]
      | none => (build_climate_yaml eq rule config).toList
    let has_climate := !climates.isEmpty
    let whs := (build_water_heater_yaml eq rule config).toList
    let has_water_heater := !whs.isEmpty
    let covers := (build_cover_yaml eq rule config).toList
    let has_cover := !covers.isEmpty
    let lights :=
      if !has_cover && !has_climate && !has_water_heater then
        (build_light_yaml eq rule config).toList
      else []
    let has_light := !lights.isEmpty
    let switches :=
      if !has_light && !has_cover && !has_climate && !has_water_heater then
        (build_switch_yaml eq rule config).toList
      else []
    { base with
        alarm_control_panel := acp, climate := climates, water_heater := whs,
        cover := covers, light := lights, switch := switches,
        number := (build_number_yaml eq rule config).toList,
        select := (build_select_yaml eq rule config).toList }

/-- The device store (`_eqlogic_store`), as an id-keyed association list. -/
abbrev Store := List (Int × EqLogic)

def storeLookup (s : Store) (k : Int) : Option EqLogic :=
  (s.find? (fun p => p.1 == k)).map (fun p => p.2)

/-- `sorted(eqlogic_store.keys())`. -/
def sortedKeys (s : Store) : List Int :=
  ((s.map (fun p => p.1)).dedup).insertionSort (fun a b => a ≤ b)

/-- The store entries in ascending key order (the iteration of the
generators). -/
def sortedEntries (s : Store) : List (Int × EqLogic) :=
  (sortedKeys s).filterMap (fun k => (storeLookup s k).map (fun e => (k, e)))

/-- `generate_entity_doc`. -/
def generate_entity_doc (store : Store) (config : DiscoveryConfig) : EntityDoc :=
  let parts := (sortedEntries store).map (fun p => genEntityForDevice config p.2)
  { sensor := (parts.map (fun d => d.sensor)).flatten
    binary_sensor := (parts.map (fun d => d.binary_sensor)).flatten
    alarm_control_panel := (parts.map (fun d => d.alarm_control_panel)).flatten
    climate := (parts.map (fun d => d.climate)).flatten
    light := (parts.map (fun d => d.light)).flatten
    switch := (parts.map (fun d => d.switch)).flatten
    water_heater := (parts.map (fun d => d.water_heater)).flatten
    cover := (parts.map (fun d => d.cover)).flatten
    number := (parts.map (fun d => d.number)).flatten
    select := (parts.map (fun d => d.select)).flatten }

/-! ## Action-binding document -/

/-- `_cmd_value`. -/
def cmdValue (cmd : Cmd) : Option String :=
  match cmd.configuration.value with
  | none => none
  | some v =>
    let s := strStrip v.toStr
    if s = "" || s = "#slider#" then none else some s

/-- `_cmd_range` (`int(float(·))` of the configured min/max). -/
def cmdRange (cmd : Cmd) : Option Int × Option Int :=
  let conv : Option PyVal → Option Int := fun v =>
    match v with
    | none => none
    | some (.pstr "") => none
    | some x => pyIntFloat? x
  (conv cmd.configuration.minValue, conv cmd.configuration.maxValue)

/-- `_cmd_property`. -/
def cmdProperty (cmd : Cmd) : Option String :=
  match cmd.configuration.property with
  | none => none
  | some p =>
    let s := strStrip p
    if s = "" then none else some s

/-- One RGBW channel of a light action payload
(`{channel}_cmd_id` / `{channel}_min` / `{channel}_max` /
`{channel}_state_cmd_id` in the source's flat dict). -/
structure ChannelAction where
  cmd_id : Option Int := none
  min : Option Int := none
  max : Option Int := none
  state_cmd_id : Option Int := none
deriving DecidableEq, Repr

structure LightAction where
  on_cmd_id : Option Int := none
  off_cmd_id : Option Int := none
  brightness_cmd_id : Option Int := none
  brightness_min : Option Int := none
  brightness_max : Option Int := none
  default_on_brightness : Option Int := none
  state_cmd_id : Option Int := none
  brightness_state_cmd_id : Option Int := none
  red : ChannelAction := {}
  green : ChannelAction := {}
  blue : ChannelAction := {}
  white : ChannelAction := {}
deriving DecidableEq, Repr

structure WHAction where
  state_cmd_id : Int
  on_cmd_id : Int
  off_cmd_id : Int
deriving DecidableEq, Repr

structure AlarmAction where
  state_cmd_id : Int
  arm_home_cmd_id : Option Int := none
  arm_away_cmd_id : Option Int := none
  arm_night_cmd_id : Option Int := none
  disarm_cmd_id : Option Int := none
deriving DecidableEq, Repr

structure SwitchAction where
  state_cmd_id : Int
  on_cmd_id : Int
  off_cmd_id : Int
deriving DecidableEq, Repr

structure CoverAction where
  position_state_cmd_id : Int
  open_cmd_id : Int
  close_cmd_id : Int
  open_cmd_value : Option String := none
  close_cmd_value : Option String := none
  stop_cmd_id : Option Int := none
  stop_cmd_value : Option String := none
  set_position_cmd_id : Option Int := none
  set_position_min : Option Int := none
  set_position_max : Option Int := none
  set_position_property : Option String := none
deriving DecidableEq, Repr

structure NumberAction where
  state_cmd_id : Int
  set_cmd_id : Int
deriving DecidableEq, Repr

/-- Climate action payload; `set_hot`/`set_auto`/`set_cold` are the
`set_temperature_cmd_id_{kind}` keys and `state_*` the
`temperature_state_cmd_id_{kind}` keys. -/
structure ClimateAction where
  set_temperature_cmd_id : Int
  setpoint_kind : Option String := none
  set_hot : Option Int := none
  set_auto : Option Int := none
  set_cold : Option Int := none
  current_temperature_cmd_id : Option Int := none
  temperature_state_cmd_id : Option Int := none
  state_hot : Option Int := none
  state_auto : Option Int := none
  state_cold : Option Int := none
deriving DecidableEq, Repr

structure OptPayload where
  cmd_id : Int
  value : Option String := none
deriving DecidableEq, Repr

structure SelectAction where
  state_cmd_id : Int
  options : List (String × OptPayload)
deriving DecidableEq, Repr

structure PilotAction where
  state_cmd_id : Int
  mode : List (String × OptPayload)
  preset : List (String × OptPayload)
deriving DecidableEq, Repr

/-- Insert into a label-keyed ordered dict (overwrite value, keep key order). -/
def strMapInsert (m : List (String × OptPayload)) (k : String) (v : OptPayload) :
    List (String × OptPayload) :=
  if m.any (fun p => p.1 == k) then m.map (fun p => if p.1 == k then (k, v) else p)
  else m ++ [(k, v)]

/-- `_add_cmd` of the pilot-climate action block. -/
def addCmd (rule : Option Rule) (config : DiscoveryConfig)
    (target : List (String × OptPayload)) (key : String) (opt : Option PilotOpt) :
    List (String × OptPayload) :=
  match opt with
  | none => target
  | some o =>
    if rule.isSome && !allows_cmd rule o.cmd config then target
    else strMapInsert target key { cmd_id := o.cmd.id, value := cmdValue o.cmd }

/-- The per-device action payloads (one loop iteration of `generate_actions`;
the source's `f"jeedom_{eq_id}"` keys are attached at assembly). -/
structure DeviceActions where
  alarm_control_panel : Option AlarmAction := none
  light : Option LightAction := none
  switch : Option SwitchAction := none
  water_heater : Option WHAction := none
  cover : Option CoverAction := none
  number : Option NumberAction := none
  select : Option SelectAction := none
  pilot_climate : Option PilotAction := none
  climate : Option ClimateAction := none
deriving DecidableEq, Repr

/-- The light payload of `generate_actions` for a successful detection. -/
def lightPayload (l : LightDetect) : LightAction :=
  let chan : Option Cmd → Option Cmd → ChannelAction := fun setc statec =>
    { cmd_id := setc.map (fun c => c.id)
      min := match setc with | some c => (cmdRange c).1 | none => none
      max := match setc with | some c => (cmdRange c).2 | none => none
      state_cmd_id := statec.map (fun c => c.id) }
  let (bmin, bmax) :=
    match l.brightness_set_cmd with
    | some b => cmdRange b
    | none => (none, none)
  { on_cmd_id := l.on_cmd.map (fun c => c.id)
    off_cmd_id := l.off_cmd.map (fun c => c.id)
    brightness_cmd_id := l.brightness_set_cmd.map (fun c => c.id)
    brightness_min := if l.brightness_set_cmd.isSome then bmin else none
    brightness_max := if l.brightness_set_cmd.isSome then some (bmax.getD 99) else none
    default_on_brightness := if l.brightness_set_cmd.isSome then some (bmax.getD 99) else none
    state_cmd_id := l.state_cmd.map (fun c => c.id)
    brightness_state_cmd_id := l.brightness_state_cmd.map (fun c => c.id)
    red := chan l.color_set_cmds.red l.color_state_cmds.red
    green := chan l.color_set_cmds.green l.color_state_cmds.green
    blue := chan l.color_set_cmds.blue l.color_state_cmds.blue
    white := chan l.color_set_cmds.white l.color_state_cmds.white }

/-- Whether a rule rejects any of the values of a color map. -/
def cmRejects (rule : Option Rule) (config : DiscoveryConfig) (m : ColorMap) : Bool :=
  [m.red, m.green, m.blue, m.white].any (fun c =>
    match c with
    | some cmd => rule.isSome && !allows_cmd rule cmd config
    | none => false)

/-- The light action payload of `generate_actions` (per-key rule guards, then
the flat payload). -/
def lightActionOf (rule : Option Rule) (config : DiscoveryConfig) (lt : Option LightDetect) :
    Option LightAction :=
  match lt with
  | none => none
  | some l =>
    if ruleRejects rule config l.on_cmd || ruleRejects rule config l.off_cmd ||
        ruleRejects rule config l.brightness_set_cmd || ruleRejects rule config l.state_cmd ||
        ruleRejects rule config l.brightness_state_cmd ||
        cmRejects rule config l.color_set_cmds || cmRejects rule config l.color_state_cmds then
      none
    else some (lightPayload l)

/-- The water-heater action payload of `generate_actions`. -/
def whActionOf (wh : Option WHDetect) : Option WHAction :=
  wh.map (fun w =>
    { state_cmd_id := w.state_cmd.id, on_cmd_id := w.on_cmd.id, off_cmd_id := w.off_cmd.id })

/-- The alarm-control-panel action payload of `generate_actions`. -/
def acpActionOf (rule : Option Rule) (config : DiscoveryConfig) (acp : Option AlarmDetect) :
    Option AlarmAction :=
  match acp with
  | none => none
  | some a =>
    if !(rule.isNone || allows_cmd rule a.state_cmd config) then none
    else
      let keep : Option Cmd → Option Int := fun c =>
        match c with
        | some cmd =>
          if rule.isNone || allows_cmd rule cmd config then some cmd.id else none
        | none => none
      some { state_cmd_id := a.state_cmd.id
             arm_home_cmd_id := keep a.arm_home_cmd
             arm_away_cmd_id := keep a.arm_away_cmd
             arm_night_cmd_id := keep a.arm_night_cmd
             disarm_cmd_id := keep a.disarm_cmd }

/-- The switch action payload of `generate_actions` (`gate` bundles the
platform gating and the light/water-heater priority check). -/
def swActionOf (rule : Option Rule) (config : DiscoveryConfig) (gate : Bool)
    (sw : Option SwitchDetect) : Option SwitchAction :=
  if gate then
    match sw with
    | none => none
    | some sw' =>
      if rule.isNone || (allows_cmd rule sw'.state_cmd config &&
          allows_cmd rule sw'.on_cmd config && allows_cmd rule sw'.off_cmd config) then
        some { state_cmd_id := sw'.state_cmd.id, on_cmd_id := sw'.on_cmd.id,
               off_cmd_id := sw'.off_cmd.id }
      else none
  else none

/-- The cover action payload of `generate_actions`. -/
def coverActionOf (rule : Option Rule) (config : DiscoveryConfig) (cv : Option CoverDetect) :
    Option CoverAction :=
  match cv with
  | none => none
  | some c =>
    let stop := c.stop_cmd
    let setp := c.set_position_cmd
    if rule.isNone || (allows_cmd rule c.position_state_cmd config &&
        allows_cmd rule c.up_cmd config && allows_cmd rule c.down_cmd config &&
        (stop.isNone || allows_cmd rule (stop.getD c.up_cmd) config) &&
        (setp.isNone || allows_cmd rule (setp.getD c.up_cmd) config)) then
      some { position_state_cmd_id := c.position_state_cmd.id
             open_cmd_id := c.up_cmd.id
             close_cmd_id := c.down_cmd.id
             open_cmd_value := cmdValue c.up_cmd
             close_cmd_value := cmdValue c.down_cmd
             stop_cmd_id := stop.map (fun s => s.id)
             stop_cmd_value := stop.bind cmdValue
             set_position_cmd_id := setp.map (fun s => s.id)
             set_position_min := match setp with | some s => (cmdRange s).1 | none => none
             set_position_max := match setp with | some s => (cmdRange s).2 | none => none
             set_position_property := setp.bind cmdProperty }
    else none

/-- The number action payload of `generate_actions`. -/
def numberActionOf (rule : Option Rule) (config : DiscoveryConfig) (nb : Option NumberDetect) :
    Option NumberAction :=
  match nb with
  | none => none
  | some n =>
    if rule.isNone || (allows_cmd rule n.state_cmd config && allows_cmd rule n.set_cmd config)
    then some { state_cmd_id := n.state_cmd.id, set_cmd_id := n.set_cmd.id }
    else none

/-- The climate action payload of `generate_actions`. -/
def climateActionOf (rule : Option Rule) (config : DiscoveryConfig) (cl : Option ClimateDetect) :
    Option ClimateAction :=
  match cl with
  | none => none
  | some c =>
    if ruleRejects rule config c.current_temp_cmd ||
        ruleRejects rule config c.target_temp_state_cmd ||
        ruleRejects rule config (some c.set_temp_cmd) then none
    else
      some { set_temperature_cmd_id := c.set_temp_cmd.id
             setpoint_kind := if c.setpoint_kind ≠ "" then some c.setpoint_kind else none
             set_hot := c.set_temp_cmds.hot.map (fun x => x.id)
             set_auto := c.set_temp_cmds.auto.map (fun x => x.id)
             set_cold := c.set_temp_cmds.cold.map (fun x => x.id)
             current_temperature_cmd_id := c.current_temp_cmd.map (fun x => x.id)
             temperature_state_cmd_id := c.target_temp_state_cmd.map (fun x => x.id)
             state_hot := c.target_temp_state_cmds.hot.map (fun x => x.id)
             state_auto := c.target_temp_state_cmds.auto.map (fun x => x.id)
             state_cold := c.target_temp_state_cmds.cold.map (fun x => x.id) }

/-- One insertion step of the select option map of `generate_actions`. -/
def selOptStep (m : List (String × OptPayload)) (o : PilotOpt) : List (String × OptPayload) :=
  strMapInsert m o.label { cmd_id := o.cmd.id, value := cmdValue o.cmd }

/-- The select and pilot-climate action payloads of `generate_actions`. -/
def selectPilotActionOf (rule : Option Rule) (config : DiscoveryConfig)
    (allow_select allow_pilot : Bool) (sel0 : Option PilotDetect) :
    Option SelectAction × Option PilotAction :=
  let sel :=
    match sel0 with
    | some s => if rule.isSome && !allows_cmd rule s.state_cmd config then none else some s
    | none => none
  match sel with
  | none => ((none : Option SelectAction), (none : Option PilotAction))
  | some s =>
    let options := s.options.filter (fun o => !(rule.isSome && !allows_cmd rule o.cmd config))
    let options_map := options.foldl selOptStep []
    let selAct :=
      if allow_select && options_map.length ≥ 2 then
        some { state_cmd_id := s.state_cmd.id, options := options_map }
      else none
    let pilotAct :=
      if allow_pilot then
        let pilot_cmds := pilot_wire_cmds options
        if pilot_cmds.off.isSome && pilot_cmds.comfort.isSome then
          let mode_map := addCmd rule config
            (addCmd rule config [] "heat" pilot_cmds.comfort) "off" pilot_cmds.off
          let preset_map := addCmd rule config (addCmd rule config (addCmd rule config
            (addCmd rule config (addCmd rule config (addCmd rule config []
              "comfort" pilot_cmds.comfort) "eco" pilot_cmds.eco) "away" pilot_cmds.away)
              "comfort-1" pilot_cmds.comfort_1) "comfort-2" pilot_cmds.comfort_2)
              "none" pilot_cmds.off
          if !mode_map.isEmpty && !preset_map.isEmpty then
            some { state_cmd_id := s.state_cmd.id, mode := mode_map, preset := preset_map }
          else none
        else none
      else none
    (selAct, pilotAct)

/-- The body of the `generate_actions` device loop. -/
def genActionsForDevice (config : DiscoveryConfig) (eq : EqLogic) : DeviceActions :=
  let rule := find_rule eq config
  let forced := rule_platform rule
  let allow_light := forced = none || forced = some "light"
  let allow_switch := forced = none || forced = some "switch"
  let allow_water_heater := forced = none || forced = some "water_heater"
  let allow_cover := forced = none || forced = some "cover"
  let allow_number := forced = none || forced = some "number"
  let allow_select := forced = none || forced = some "select"
  let allow_alarm_panel := forced = none || forced = some "alarm_control_panel"
  let allow_climate := forced = none || forced = some "climate"
  let allow_pilot := forced = none || forced = some "climate"
  let lt := if allow_light then detect_light eq else none
  let wh := if allow_water_heater then detect_water_heater eq rule config else none
  let selPilot := selectPilotActionOf rule config allow_select allow_pilot
    (if allow_select || allow_pilot then detect_pilot_wire eq else none)
  { alarm_control_panel :=
      acpActionOf rule config (if allow_alarm_panel then detect_alarm_control_panel eq else none)
    light := lightActionOf rule config lt
    switch := swActionOf rule config (allow_switch && lt.isNone && wh.isNone) (detect_switch eq)
    water_heater := whActionOf wh
    cover := coverActionOf rule config (if allow_cover then detect_cover eq else none)
    number := numberActionOf rule config (if allow_number then detect_number eq else none)
    select := selPilot.1
    pilot_climate := selPilot.2
    climate := climateActionOf rule config (if allow_climate then detect_climate eq else none) }

/-- The action-binding document.  Each per-platform map is keyed by the store
key (rendered as `f"jeedom_{eq_id}"` in the source); the always-empty
`"button"` platform (stripped by the final comprehension) is omitted. -/
structure ActionsDoc where
  alarm_control_panel : List (Int × AlarmAction) := []
  light : List (Int × LightAction) := []
  switch : List (Int × SwitchAction) := []
  water_heater : List (Int × WHAction) := []
  cover : List (Int × CoverAction) := []
  number : List (Int × NumberAction) := []
  select : List (Int × SelectAction) := []
  pilot_climate : List (Int × PilotAction) := []
  climate : List (Int × ClimateAction) := []
deriving DecidableEq, Repr

/-- `generate_actions`. -/
def generate_actions (store : Store) (config : DiscoveryConfig) : ActionsDoc :=
  let per := (sortedEntries store).map (fun p => (p.1, genActionsForDevice config p.2))
  { alarm_control_panel :=
      per.filterMap (fun q => q.2.alarm_control_panel.map (fun a => (q.1, a)))
    light := per.filterMap (fun q => q.2.light.map (fun a => (q.1, a)))
    switch := per.filterMap (fun q => q.2.switch.map (fun a => (q.1, a)))
    water_heater := per.filterMap (fun q => q.2.water_heater.map (fun a => (q.1, a)))
    cover := per.filterMap (fun q => q.2.cover.map (fun a => (q.1, a)))
    number := per.filterMap (fun q => q.2.number.map (fun a => (q.1, a)))
    select := per.filterMap (fun q => q.2.select.map (fun a => (q.1, a)))
    pilot_climate := per.filterMap (fun q => q.2.pilot_climate.map (fun a => (q.1, a)))
    climate := per.filterMap (fun q => q.2.climate.map (fun a => (q.1, a))) }

/-! ## The discovery engine -/

/-- `dict[key] = value` on the store (replace in place or append). -/
def storeUpsert (s : Store) (d : EqLogic) : Store :=
  if s.any (fun p => p.1 == d.id) then s.map (fun p => if p.1 == d.id then (d.id, d) else p)
  else s ++ [(d.id, d)]

/-- `JeedomDiscoveryEngine` state. -/
structure Engine where
  config : DiscoveryConfig
  store : Store := []
deriving DecidableEq, Repr

/-- `update_eqlogic` (the embedded domain carries parsed integer ids, so the
`int(data.get("id"))` guard always succeeds). -/
def Engine.update_eqlogic (e : Engine) (data : EqLogic) : Engine :=
  { e with store := storeUpsert e.store data }

/-- `generate()`: returns both documents; the engine state is read, not
written, which the explicit state-passing returns unchanged. -/
def Engine.generate (e : Engine) : (EntityDoc × ActionsDoc) × Engine :=
  ((generate_entity_doc e.store e.config, generate_actions e.store e.config), e)

/-! ## Cover position conversions (`cover/cover.py`) -/

/-- Python `round()` (banker's rounding, half to even). -/
def pyRound (q : ℚ) : Int :=
  let f := ⌊q⌋
  let frac := q - f
  if frac < 1 / 2 then f
  else if frac > 1 / 2 then f + 1
  else if f % 2 = 0 then f else f + 1

/-- `_percent_to_device` (exact rational model of the float arithmetic; the
configured min/max of the embedded domain are integers, so the inner
`float()` conversions never raise). -/
def percent_to_device (percent : ℚ) (config : CoverAction) : String :=
  let v := percent
  match config.set_position_min, config.set_position_max with
  | some mn, some mx =>
    let v := (mn : ℚ) + (v / 100) * ((mx : ℚ) - (mn : ℚ))
    let v := max (mn : ℚ) (min (mx : ℚ) v)
    toString (pyRound v)
  | _, _ =>
    let prop := strLower (strStrip (pyOrStr config.set_position_property ""))
    if prop = "targetvalue" then
      let v := if v ≤ 100 then max 0 (min 99 ((v / 100) * 99)) else max 0 (min 99 v)
      toString (pyRound v)
    else toString (pyRound (max 0 (min 100 v)))

/-- `_device_to_percent` (`none` models the `float(value)` failure path). -/
def device_to_percent (value : PyVal) (config : CoverAction) : Option Int :=
  match pyFloat? value with
  | none => none
  | some v =>
    match config.set_position_min, config.set_position_max with
    | some mn, some mx =>
      if (mx : ℚ) = (mn : ℚ) then some (pyRound v)
      else
        let pct := (v - mn) * 100 / ((mx : ℚ) - (mn : ℚ))
        some (pyRound (max 0 (min 100 pct)))
    | _, _ =>
      let prop := strLower (strStrip (pyOrStr config.set_position_property ""))
      if prop = "targetvalue" then
        let pct := if v ≤ 99 then v * 100 / 99 else 100
        some (pyRound (max 0 (min 100 pct)))
      else some (pyRound (max 0 (min 100 v)))

/-! # Claims -/

/-- **C9.** For a cover action binding whose set-position range is
`min=10, max=90`, converting percent 50 to a device value with
`_percent_to_device` and back with `_device_to_percent` returns a percentage
within 1 of 50 (in fact exactly 50). -/
theorem C9_cover_roundtrip (cfg : CoverAction)
    (hmin : cfg.set_position_min = some 10) (hmax : cfg.set_position_max = some 90) :
    ∃ p : Int, device_to_percent (.pstr (percent_to_device 50 cfg)) cfg = some p ∧
      (p - 50).natAbs ≤ 1 := by
  refine ⟨50, ?_, by norm_num⟩
  have h1 : percent_to_device 50 cfg = "50" := by
    simp only [percent_to_device, hmin, hmax]
    rw [show ((10 : Int) : ℚ) + 50 / 100 * (((90 : Int) : ℚ) - ((10 : Int) : ℚ)) = 50 by
          push_cast; norm_num,
        min_eq_right (by push_cast; norm_num : (50 : ℚ) ≤ ((90 : Int) : ℚ)),
        max_eq_right (by push_cast; norm_num : ((10 : Int) : ℚ) ≤ 50),
        show pyRound (50 : ℚ) = 50 by unfold pyRound; norm_num]
    rfl
  rw [h1]
  have h2 : pyFloat? (.pstr "50") = some ((50 : Int) : ℚ) := rfl
  simp only [device_to_percent, h2, hmin, hmax]
  rw [if_neg (by push_cast; norm_num : ¬((90 : Int) : ℚ) = ((10 : Int) : ℚ))]
  rw [show (((50 : Int) : ℚ) - ((10 : Int) : ℚ)) * 100 / (((90 : Int) : ℚ) - ((10 : Int) : ℚ))
        = 50 by push_cast; norm_num,
      min_eq_right (by norm_num : (50 : ℚ) ≤ 100),
      max_eq_right (by norm_num : (0 : ℚ) ≤ 50)]
  rw [show pyRound (50 : ℚ) = 50 by unfold pyRound; norm_num]

/-- Witness for C9 at a concrete binding. -/
theorem C9_cover_roundtrip_witness :
    ∃ p : Int,
      device_to_percent
        (.pstr (percent_to_device 50
          { position_state_cmd_id := 1, open_cmd_id := 2, close_cmd_id := 3,
            set_position_min := some 10, set_position_max := some 90 }))
        { position_state_cmd_id := 1, open_cmd_id := 2, close_cmd_id := 3,
          set_position_min := some 10, set_position_max := some 90 } = some p ∧
      (p - 50).natAbs ≤ 1 :=
  C9_cover_roundtrip _ rfl rfl

/-- **C2.** `_pilot_wire_cmds`: options at values exactly
`{0,20,30,40,50,99}` resolve to `off=0, away=20, eco=30, comfort_2=40,
comfort_1=50, comfort=99`; options at exactly `{0,99}` resolve to
`off=0, comfort=99` with every other role absent (`none`), not defaulted. -/
theorem C2_pilot_role_map :
    (∀ o1 o2 o3 o4 o5 o6 : PilotOpt,
      o1.value = 0 → o2.value = 20 → o3.value = 30 → o4.value = 40 → o5.value = 50 →
      o6.value = 99 →
      pilot_wire_cmds [o1, o2, o3, o4, o5, o6] =
        ⟨some o1, some o2, some o3, some o4, some o5, some o6⟩) ∧
    (∀ p1 p2 : PilotOpt, p1.value = 0 → p2.value = 99 →
      pilot_wire_cmds [p1, p2] = ⟨some p1, none, none, none, none, some p2⟩) := by
  constructor
  · intro o1 o2 o3 o4 o5 o6 h1 h2 h3 h4 h5 h6
    obtain ⟨v1, a1, b1, r1⟩ := o1
    obtain ⟨v2, a2, b2, r2⟩ := o2
    obtain ⟨v3, a3, b3, r3⟩ := o3
    obtain ⟨v4, a4, b4, r4⟩ := o4
    obtain ⟨v5, a5, b5, r5⟩ := o5
    obtain ⟨v6, a6, b6, r6⟩ := o6
    simp only at h1 h2 h3 h4 h5 h6
    subst h1 h2 h3 h4 h5 h6
    rfl
  · intro p1 p2 h1 h2
    obtain ⟨v1, a1, b1, r1⟩ := p1
    obtain ⟨v2, a2, b2, r2⟩ := p2
    simp only at h1 h2
    subst h1 h2
    rfl

/-- Witness for C2 at concrete option lists. -/
theorem C2_pilot_role_map_witness :
    pilot_wire_cmds
        [⟨0, "a", { id := 10 }, 0⟩, ⟨20, "b", { id := 11 }, 1⟩, ⟨30, "c", { id := 12 }, 2⟩,
         ⟨40, "d", { id := 13 }, 3⟩, ⟨50, "e", { id := 14 }, 4⟩, ⟨99, "f", { id := 15 }, 5⟩] =
      ⟨some ⟨0, "a", { id := 10 }, 0⟩, some ⟨20, "b", { id := 11 }, 1⟩,
       some ⟨30, "c", { id := 12 }, 2⟩, some ⟨40, "d", { id := 13 }, 3⟩,
       some ⟨50, "e", { id := 14 }, 4⟩, some ⟨99, "f", { id := 15 }, 5⟩⟩ ∧
    pilot_wire_cmds [⟨0, "a", { id := 10 }, 0⟩, ⟨99, "f", { id := 15 }, 5⟩] =
      ⟨some ⟨0, "a", { id := 10 }, 0⟩, none, none, none, none,
       some ⟨99, "f", { id := 15 }, 5⟩⟩ :=
  ⟨C2_pilot_role_map.1 _ _ _ _ _ _ rfl rfl rfl rfl rfl rfl,
   C2_pilot_role_map.2 _ _ rfl rfl⟩

/-- **C6.** Calling `generate()` twice with no intervening `update_eqlogic()`
yields identical entity and action documents (the engine state after a
`generate()` is unchanged, and `generate()` is a pure function of it). -/
theorem C6_generate_idempotent (e : Engine) :
    ((e.generate).2.generate).1 = (e.generate).1 := rfl

/-- **C10, counterexample.** The claim "`get_override` returns the
entity-overrides entry stored under the integer key if present, otherwise the
string-keyed entry, otherwise `{}`" fails when the integer-keyed entry is
present but empty: Python `or` treats the empty dict as falsy and falls
through to the string key. -/
theorem C10_counterexample :
    ¬ (∀ (r : Rule) (c : Int) (m : Override),
        r.entity_overrides.lookup (.ik c) = some m → get_override (some r) c = m) := by
  intro h
  have := h
    { match_eqlogic_id := some 1,
      entity_overrides := [(.ik 5, []), (.sk "5", [("name", .vs "str-key")])] }
    5 [] (by decide)
  exact absurd this (by decide)

/-- **C10, amended.** `get_override` returns the integer-keyed entry when it
is present and non-empty; otherwise the entry under the string form of the id
when present and non-empty (so a string-keyed override behaves like an
integer-keyed one whenever the integer key is absent or empty); otherwise the
empty map. -/
theorem C10_get_override_amended (r : Rule) (c : Int) :
    (∀ m : Override, r.entity_overrides.lookup (.ik c) = some m → m ≠ [] →
       get_override (some r) c = m) ∧
    (∀ m : Override,
       (r.entity_overrides.lookup (.ik c) = none ∨
        r.entity_overrides.lookup (.ik c) = some []) →
       r.entity_overrides.lookup (.sk (toString c)) = some m → m ≠ [] →
       get_override (some r) c = m) ∧
    ((r.entity_overrides.lookup (.ik c) = none ∨
      r.entity_overrides.lookup (.ik c) = some []) →
     (r.entity_overrides.lookup (.sk (toString c)) = none ∨
      r.entity_overrides.lookup (.sk (toString c)) = some []) →
     get_override (some r) c = []) := by
  refine ⟨?_, ?_, ?_⟩
  · intro m h hne
    simp only [get_override, h, pyOrDict]
    simp [List.isEmpty_iff, hne]
  · intro m hik hsk hne
    rcases hik with h | h <;>
      simp only [get_override, h, pyOrDict, hsk] <;>
      simp [List.isEmpty_iff, hne]
  · intro hik hsk
    rcases hik with h | h <;> rcases hsk with h2 | h2 <;>
      simp [get_override, h, h2, pyOrDict]

/-- A rule with a non-empty integer-keyed override entry. -/
def ruleIntKeyed : Rule :=
  { match_eqlogic_id := some 1, entity_overrides := [(.ik 5, [("name", .vs "int-key")])] }

/-- A rule with an empty integer-keyed entry shadowing a string-keyed one. -/
def ruleStrKeyed : Rule :=
  { match_eqlogic_id := some 1,
    entity_overrides := [(.ik 5, []), (.sk "5", [("name", .vs "str-key")])] }

/-- A rule with only an empty integer-keyed entry. -/
def ruleEmptyKeyed : Rule :=
  { match_eqlogic_id := some 1, entity_overrides := [(.ik 5, [])] }

/-- Witness for C10 (amended) at concrete rules: an integer-keyed non-empty
override, a string-keyed override behind an empty integer entry, and the
empty fallback. -/
theorem C10_get_override_amended_witness :
    get_override (some ruleIntKeyed) 5 = [("name", OvVal.vs "int-key")] ∧
    get_override (some ruleStrKeyed) 5 = [("name", OvVal.vs "str-key")] ∧
    get_override (some ruleEmptyKeyed) 5 = [] :=
  ⟨(C10_get_override_amended _ 5).1 _ (by decide) (by decide),
   (C10_get_override_amended _ 5).2.1 _ (Or.inr (by decide)) (by decide) (by decide),
   (C10_get_override_amended _ 5).2.2 (Or.inr (by decide)) (Or.inl (by decide))⟩

/-- **C8, counterexample.** The claim "if a non-empty global generic-type
whitelist is configured and the command's generic type is absent from it,
`allows_cmd` rejects" fails for commands with an *empty* generic type: the
source additionally requires `generic` to be truthy before applying the
whitelist, so such commands pass. -/
theorem C8_counterexample :
    ¬ (∀ (rule : Option Rule) (cmd : Cmd) (config : DiscoveryConfig),
        config.global_generic_whitelist ≠ [] →
        config.global_generic_whitelist.contains (cmdGeneric cmd) = false →
        allows_cmd rule cmd config = false) := by
  intro h
  have := h none { id := 1, name := some "X" } { global_generic_whitelist := ["POWER"] }
    (by decide) (by decide)
  exact absurd this (by decide)

/-- **C8, amended.** Blacklisted commands are always rejected; if a non-empty
global generic-type whitelist is configured and the command's generic type is
*non-empty* and absent from it, the command is rejected; and a non-blacklisted
command with no rule and no whitelist conflict (empty whitelist, whitelisted
generic, or empty generic) is accepted. -/
theorem C8_allows_cmd_amended :
    (∀ (rule : Option Rule) (cmd : Cmd) (config : DiscoveryConfig),
       blacklisted cmd = true → allows_cmd rule cmd config = false) ∧
    (∀ (rule : Option Rule) (cmd : Cmd) (config : DiscoveryConfig),
       config.global_generic_whitelist ≠ [] → cmdGeneric cmd ≠ "" →
       config.global_generic_whitelist.contains (cmdGeneric cmd) = false →
       allows_cmd rule cmd config = false) ∧
    (∀ (cmd : Cmd) (config : DiscoveryConfig),
       blacklisted cmd = false →
       (config.global_generic_whitelist = [] ∨
        config.global_generic_whitelist.contains (cmdGeneric cmd) = true ∨
        cmdGeneric cmd = "") →
       allows_cmd none cmd config = true) := by
  refine ⟨?_, ?_, ?_⟩
  · intro rule cmd config hb
    simp [allows_cmd, hb]
  · intro rule cmd config hwl hg hc
    by_cases hb : blacklisted cmd
    · simp [allows_cmd, hb]
    · have hne : config.global_generic_whitelist.isEmpty = false := by
        cases hl : config.global_generic_whitelist with
        | nil => exact absurd hl hwl
        | cons a t => rfl
      have hmem : cmdGeneric cmd ∉ config.global_generic_whitelist := by simpa using hc
      simp [allows_cmd, hb, hne, hg, hmem]
  · intro cmd config hb hok
    rcases hok with h | h | h
    · simp [allows_cmd, hb, h]
    · have hmem : cmdGeneric cmd ∈ config.global_generic_whitelist := by simpa using h
      simp [allows_cmd, hb, hmem]
    · simp [allows_cmd, hb, h]

/-- Witness for C8 (amended) at concrete commands: a blacklisted command, a
non-whitelisted generic type, and a plain accepted command. -/
theorem C8_allows_cmd_amended_witness :
    allows_cmd none { id := 1, name := some "Ping Node" } {} = false ∧
    allows_cmd none { id := 2, generic_type := some "HUMIDITY" }
      { global_generic_whitelist := ["POWER"] } = false ∧
    allows_cmd none { id := 3, name := some "Etat" } {} = true :=
  ⟨C8_allows_cmd_amended.1 none _ _ (by decide),
   C8_allows_cmd_amended.2.1 none _ _ (by decide) (by decide) (by decide),
   C8_allows_cmd_amended.2.2 _ _ (by decide) (Or.inl (by decide))⟩

/-! ### C5: pilot-wire end-to-end scenario -/

/-- A pilot-wire option action command (`type=action`, `subType=other`,
`property=targetvalue`, integer literal value). -/
def pwOptCmd (i : Int) (nm : String) (v : Int) : Cmd :=
  { id := i, type := some "action", subType := some "other", name := some nm,
    configuration := { property := some "targetvalue", value := some (.pint v) } }

/-- A `FAN_STATE` numeric info command. -/
def fanStateCmd : Cmd :=
  { id := 1, type := some "info", subType := some "numeric",
    generic_type := some "FAN_STATE", name := some "Mode" }

/-- A device with exactly two pilot-wire option commands (values 0 and 99). -/
def pw2Dev : EqLogic :=
  { id := 21, name := some "PW2",
    cmds := [fanStateCmd, pwOptCmd 2 "Arret" 0, pwOptCmd 3 "Confort" 99] }

/-- The same device with a third option command at value 50. -/
def pw3Dev : EqLogic :=
  { id := 22, name := some "PW3",
    cmds := [fanStateCmd, pwOptCmd 2 "Arret" 0, pwOptCmd 3 "Confort" 99,
             pwOptCmd 4 "Confort+" 50] }

/-- **C5, counterexample.** The claim predicts that a device with exactly two
pilot-wire option commands (values 0 and 99) plus a `FAN_STATE` numeric info
command yields a select entity with two options and a pilot climate entity;
in fact `detect_pilot_wire` requires at least three options, so `generate`
produces no select and no climate output at all for that device. -/
theorem C5_counterexample :
    detect_pilot_wire pw2Dev = none ∧
    (generate_entity_doc [(21, pw2Dev)] {}).select = [] ∧
    (generate_entity_doc [(21, pw2Dev)] {}).climate = [] ∧
    (generate_actions [(21, pw2Dev)] {}).select = [] ∧
    (generate_actions [(21, pw2Dev)] {}).pilot_climate = [] := by
  refine ⟨rfl, rfl, rfl, rfl, rfl⟩

/-- **C5, amended.** With only two option commands the pilot-wire detector
rejects the device (three distinct options are required), so `generate`
produces neither a select entity nor a pilot-climate binding for it.  With a
third option command (value 50), `generate` produces a select entity with
exactly three options and a pilot climate entity whose action binding omits
the `eco` and `away` preset keys (they are not synthesized from neighbouring
values; the present keys are `comfort`, `comfort-1` and `none`). -/
theorem C5_pilot_end_to_end :
    (generate_entity_doc [(21, pw2Dev)] {}).select = [] ∧
    (generate_entity_doc [(21, pw2Dev)] {}).climate = [] ∧
    (generate_actions [(21, pw2Dev)] {}).pilot_climate = [] ∧
    ((generate_entity_doc [(22, pw3Dev)] {}).select.map (fun s => s.options)) =
      [["Arret", "Confort", "Confort+"]] ∧
    ((generate_entity_doc [(22, pw3Dev)] {}).climate.map (fun c => c.unique_id)) =
      ["jeedom_22_pilot_climate"] ∧
    ((generate_actions [(22, pw3Dev)] {}).pilot_climate.map
        (fun p => (p.1, p.2.preset.map (fun q => q.1)))) =
      [(22, ["comfort", "comfort-1", "none"])] := by
  refine ⟨rfl, rfl, rfl, ?_, ?_, ?_⟩ <;> rfl

/-! ### C4: name-override precedence -/

lemma pyOrStr_some_ne (s d : String) (h : s ≠ "") : pyOrStr (some s) d = s := by
  simp [pyOrStr, h]

/-- The base-name chain used by the switch/climate builders
(`(rule.get("device_name") if rule else None) or eq_name`). -/
def builderBaseName (eqlogic : EqLogic) (rule : Option Rule) : String :=
  pyOrStr (rule.bind (fun r => r.device_name))
    (eqlogic.name.getD ("Jeedom " ++ toString eqlogic.id))

/-- The binary state command shared by several C4 scenarios. -/
def c4StateCmd : Cmd :=
  { id := 3, type := some "info", subType := some "binary", name := some "Etat" }

/-- A switch-shaped device used by the C4 scenarios. -/
def c4SwDev : EqLogic :=
  { id := 12, name := some "Lampe Salon",
    cmds := [
      { id := 1, type := some "action", name := some "On" },
      { id := 2, type := some "action", name := some "Off" }, c4StateCmd ] }

/-- A rule overriding the name of command 3 of `c4SwDev`. -/
def c4SwRule : Rule :=
  { match_eqlogic_id := some 12,
    entity_overrides := [(.ik 3, [("name", .vs "Custom Name")])] }

def c4SwCfg : DiscoveryConfig := { devices := [c4SwRule] }

/-- **C4, counterexample.** The claim "an `entity_overrides` name always wins
over any inferred default name, for every platform's builder" fails for the
switch builder: it never reads the name override (only the device block
does), so the built switch keeps the device name. -/
theorem C4_counterexample :
    ovGetS (get_override (some c4SwRule) 3) "name" = some "Custom Name" ∧
    (build_switch_yaml c4SwDev (some c4SwRule) c4SwCfg).map (fun i => i.name) =
      some "Lampe Salon" := ⟨rfl, rfl⟩

/-- **C4, amended.** A non-empty `entity_overrides` name override wins over
the inferred default name in the sensor and binary-sensor builders (keyed by
the iterated command) and in the cover, number, select, pilot-climate,
water-heater and alarm-panel builders (keyed by the detected
position/state command), and in the light builder when a state command was
detected; the switch and thermostat-climate builders ignore the name
override and always use the rule device-name / device-name chain. -/
theorem C4_name_override :
    (∀ (eq : EqLogic) (cmd : Cmd) (rule : Option Rule) (config : DiscoveryConfig)
       (s : String) (item : SensorItem),
       ovGetS (get_override rule cmd.id) "name" = some s → s ≠ "" →
       build_sensor_yaml eq cmd rule config = some item → item.name = s) ∧
    (∀ (eq : EqLogic) (cmd : Cmd) (rule : Option Rule) (config : DiscoveryConfig)
       (s : String) (item : BinaryItem),
       ovGetS (get_override rule cmd.id) "name" = some s → s ≠ "" →
       build_binary_sensor_yaml eq cmd rule config = some item → item.name = s) ∧
    (∀ (eq : EqLogic) (rule : Option Rule) (config : DiscoveryConfig) (s : String)
       (item : CoverItem) (d : CoverDetect),
       detect_cover eq = some d →
       ovGetS (get_override rule d.position_state_cmd.id) "name" = some s → s ≠ "" →
       build_cover_yaml eq rule config = some item → item.name = s) ∧
    (∀ (eq : EqLogic) (rule : Option Rule) (config : DiscoveryConfig) (s : String)
       (item : NumberItem) (d : NumberDetect),
       detect_number eq = some d →
       ovGetS (get_override rule d.state_cmd.id) "name" = some s → s ≠ "" →
       build_number_yaml eq rule config = some item → item.name = s) ∧
    (∀ (eq : EqLogic) (rule : Option Rule) (config : DiscoveryConfig) (s : String)
       (item : SelectItem) (d : PilotDetect),
       detect_pilot_wire eq = some d →
       ovGetS (get_override rule d.state_cmd.id) "name" = some s → s ≠ "" →
       build_select_yaml eq rule config = some item → item.name = s) ∧
    (∀ (eq : EqLogic) (rule : Option Rule) (config : DiscoveryConfig) (s : String)
       (item : ClimateItem) (d : PilotDetect),
       detect_pilot_wire eq = some d →
       ovGetS (get_override rule d.state_cmd.id) "name" = some s → s ≠ "" →
       build_pilot_climate_yaml eq rule config = some item → item.name = s) ∧
    (∀ (eq : EqLogic) (rule : Option Rule) (config : DiscoveryConfig) (s : String)
       (item : WaterHeaterItem) (d : WHDetect),
       detect_water_heater eq rule config = some d →
       ovGetS (get_override rule d.state_cmd.id) "name" = some s → s ≠ "" →
       build_water_heater_yaml eq rule config = some item → item.name = s) ∧
    (∀ (eq : EqLogic) (rule : Option Rule) (config : DiscoveryConfig) (s : String)
       (item : AlarmItem) (d : AlarmDetect),
       detect_alarm_control_panel eq = some d →
       ovGetS (get_override rule d.state_cmd.id) "name" = some s → s ≠ "" →
       build_alarm_control_panel_yaml eq rule config = some item → item.name = s) ∧
    (∀ (eq : EqLogic) (rule : Option Rule) (config : DiscoveryConfig) (s : String)
       (item : LightItem) (d : LightDetect) (st : Cmd),
       detect_light eq = some d → d.state_cmd = some st →
       ovGetS (get_override rule st.id) "name" = some s → s ≠ "" →
       build_light_yaml eq rule config = some item → item.name = s) ∧
    (∀ (eq : EqLogic) (rule : Option Rule) (config : DiscoveryConfig) (item : SwitchItem),
       build_switch_yaml eq rule config = some item → item.name = builderBaseName eq rule) ∧
    (∀ (eq : EqLogic) (rule : Option Rule) (config : DiscoveryConfig) (item : ClimateItem),
       build_climate_yaml eq rule config = some item → item.name = builderBaseName eq rule) := by
  refine ⟨?_, ?_, ?_, ?_, ?_, ?_, ?_, ?_, ?_, ?_, ?_⟩
  · intro eq cmd rule config s item hov hs hb
    unfold build_sensor_yaml at hb
    iterate 6 (split at hb; · exact absurd hb (by simp))
    rw [Option.some.injEq] at hb
    subst hb
    unfold sensorItemOf
    simp only [hov]
    exact pyOrStr_some_ne s _ hs
  · intro eq cmd rule config s item hov hs hb
    unfold build_binary_sensor_yaml at hb
    iterate 5 (split at hb; · exact absurd hb (by simp))
    rw [Option.some.injEq] at hb
    subst hb
    unfold binaryItemOf
    simp only [hov]
    exact pyOrStr_some_ne s _ hs
  · intro eq rule config s item d hd hov hs hb
    unfold build_cover_yaml at hb
    rw [hd] at hb
    dsimp only at hb
    split at hb
    · exact absurd hb (by simp)
    rw [Option.some.injEq] at hb
    subst hb
    unfold coverItemOf
    simp only [hov]
    exact pyOrStr_some_ne s _ hs
  · intro eq rule config s item d hd hov hs hb
    unfold build_number_yaml at hb
    rw [hd] at hb
    dsimp only at hb
    split at hb
    · exact absurd hb (by simp)
    rw [Option.some.injEq] at hb
    subst hb
    unfold numberItemOf
    simp only [hov]
    exact pyOrStr_some_ne s _ hs
  · intro eq rule config s item d hd hov hs hb
    unfold build_select_yaml at hb
    rw [hd] at hb
    dsimp only at hb
    iterate 3 (split at hb; · exact absurd hb (by simp))
    rw [Option.some.injEq] at hb
    subst hb
    unfold selectItemOf
    simp only [hov]
    exact pyOrStr_some_ne s _ hs
  · intro eq rule config s item d hd hov hs hb
    unfold build_pilot_climate_yaml at hb
    rw [hd] at hb
    dsimp only at hb
    iterate 3 (split at hb; · exact absurd hb (by simp))
    rw [Option.some.injEq] at hb
    subst hb
    unfold pilotClimateItemOf
    simp only [hov]
    exact pyOrStr_some_ne s _ hs
  · intro eq rule config s item d hd hov hs hb
    unfold build_water_heater_yaml at hb
    rw [hd] at hb
    dsimp only at hb
    split at hb
    · exact absurd hb (by simp)
    rw [Option.some.injEq] at hb
    subst hb
    unfold whItemOf
    simp only [hov]
    exact pyOrStr_some_ne s _ hs
  · intro eq rule config s item d hd hov hs hb
    unfold build_alarm_control_panel_yaml at hb
    rw [hd] at hb
    dsimp only at hb
    split at hb
    · exact absurd hb (by simp)
    rw [Option.some.injEq] at hb
    subst hb
    unfold alarmItemOf
    simp only [hov]
    exact pyOrStr_some_ne s _ hs
  · intro eq rule config s item d st hd hst hov hs hb
    unfold build_light_yaml at hb
    rw [hd] at hb
    dsimp only at hb
    split at hb
    · exact absurd hb (by simp)
    rw [Option.some.injEq] at hb
    subst hb
    unfold lightItemOf
    rw [hst]
    dsimp only
    simp only [hov]
    exact pyOrStr_some_ne s _ hs
  · intro eq rule config item hb
    unfold build_switch_yaml at hb
    split at hb
    · exact absurd hb (by simp)
    split at hb
    · exact absurd hb (by simp)
    rw [Option.some.injEq] at hb
    subst hb
    rfl
  · intro eq rule config item hb
    unfold build_climate_yaml at hb
    split at hb
    · exact absurd hb (by simp)
    split at hb
    · exact absurd hb (by simp)
    rw [Option.some.injEq] at hb
    subst hb
    rfl

def c4BinCmd : Cmd :=
  { id := 1, type := some "info", subType := some "binary", name := some "Presence" }
def c4BinDev : EqLogic := { id := 13, name := some "Capteur", cmds := [c4BinCmd] }
def c4BinRule : Rule :=
  { match_eqlogic_id := some 13, entity_overrides := [(.ik 1, [("name", .vs "Binary Custom")])] }
def c4CoverDev : EqLogic :=
  { id := 14, name := some "Volet",
    cmds := [{ id := 1, type := some "action", name := some "up" },
             { id := 2, type := some "action", name := some "down" },
             { id := 3, type := some "action", name := some "stop" },
             { id := 4, type := some "info", subType := some "numeric", name := some "position" }] }
def c4CoverRule : Rule :=
  { match_eqlogic_id := some 14, entity_overrides := [(.ik 4, [("name", .vs "Cover Custom")])] }
def c4NumDev : EqLogic :=
  { id := 15, name := some "Var",
    cmds := [{ id := 1, type := some "action", subType := some "slider" },
             { id := 2, type := some "info", subType := some "numeric", name := some "Valeur" }] }
def c4NumRule : Rule :=
  { match_eqlogic_id := some 15, entity_overrides := [(.ik 2, [("name", .vs "Number Custom")])] }
def c4PwRule : Rule :=
  { match_eqlogic_id := some 22, entity_overrides := [(.ik 1, [("name", .vs "Select Custom")])] }
def c4WhRule : Rule :=
  { match_eqlogic_id := some 12, platform := some "water_heater",
    entity_overrides := [(.ik 3, [("name", .vs "WH Custom")])] }
def c4AlarmDev : EqLogic :=
  { id := 16, name := some "Keypad Entree",
    cmds := [{ id := 1, type := some "info", subType := some "binary", name := some "Alarm state" },
             { id := 2, type := some "action", name := some "Away" }] }
def c4AlarmRule : Rule :=
  { match_eqlogic_id := some 16, entity_overrides := [(.ik 1, [("name", .vs "Alarm Custom")])] }
def c4LightDev : EqLogic :=
  { id := 17, name := some "Lampe", category := { light := some "1" },
    cmds := [{ id := 1, type := some "action", name := some "On" },
             { id := 2, type := some "action", name := some "Off" }, c4StateCmd] }
def c4LightRule : Rule :=
  { match_eqlogic_id := some 17, entity_overrides := [(.ik 3, [("name", .vs "Light Custom")])] }
def c4ClimDev : EqLogic :=
  { id := 30, name := some "Thermo",
    cmds := [{ id := 1, type := some "action", subType := some "slider",
               name := some "Consigne chaud", logicalId := some "sp-setpoint-1" },
             { id := 2, type := some "info", subType := some "numeric",
               generic_type := some "THERMOSTAT_TEMPERATURE", name := some "Temp" }] }
def c4ClimRule : Rule :=
  { match_eqlogic_id := some 30, entity_overrides := [(.ik 2, [("name", .vs "Clim Custom")])] }


/-- Witness for C4 at concrete devices and rules, one per builder. -/
theorem C4_name_override_witness :
    (build_sensor_yaml c4SwDev c4StateCmd (some c4SwRule) { devices := [c4SwRule] }).map
      (fun i => i.name) = some "Custom Name" ∧
    (build_binary_sensor_yaml c4BinDev c4BinCmd (some c4BinRule) { devices := [c4BinRule] }).map
      (fun i => i.name) = some "Binary Custom" ∧
    (build_cover_yaml c4CoverDev (some c4CoverRule) { devices := [c4CoverRule] }).map
      (fun i => i.name) = some "Cover Custom" ∧
    (build_number_yaml c4NumDev (some c4NumRule) { devices := [c4NumRule] }).map
      (fun i => i.name) = some "Number Custom" ∧
    (build_select_yaml pw3Dev (some c4PwRule) { devices := [c4PwRule] }).map
      (fun i => i.name) = some "Select Custom" ∧
    (build_pilot_climate_yaml pw3Dev (some c4PwRule) { devices := [c4PwRule] }).map
      (fun i => i.name) = some "Select Custom" ∧
    (build_water_heater_yaml c4SwDev (some c4WhRule) { devices := [c4WhRule] }).map
      (fun i => i.name) = some "WH Custom" ∧
    (build_alarm_control_panel_yaml c4AlarmDev (some c4AlarmRule) { devices := [c4AlarmRule] }).map
      (fun i => i.name) = some "Alarm Custom" ∧
    (build_light_yaml c4LightDev (some c4LightRule) { devices := [c4LightRule] }).map
      (fun i => i.name) = some "Light Custom" ∧
    (build_switch_yaml c4SwDev (some c4SwRule) { devices := [c4SwRule] }).map
      (fun i => i.name) = some "Lampe Salon" ∧
    (build_climate_yaml c4ClimDev (some c4ClimRule) { devices := [c4ClimRule] }).map
      (fun i => i.name) = some "Thermo" := by
  refine ⟨?_, ?_, ?_, ?_, ?_, ?_, ?_, ?_, ?_, ?_, ?_⟩
  · cases hb : build_sensor_yaml c4SwDev c4StateCmd (some c4SwRule) { devices := [c4SwRule] } with
    | none => exact absurd hb (by decide)
    | some item =>
      exact congrArg some (C4_name_override.1 _ _ _ _ _ _ (by decide) (by decide) hb)
  · cases hb : build_binary_sensor_yaml c4BinDev c4BinCmd (some c4BinRule)
        { devices := [c4BinRule] } with
    | none => exact absurd hb (by decide)
    | some item =>
      exact congrArg some (C4_name_override.2.1 _ _ _ _ _ _ (by decide) (by decide) hb)
  · have hd : detect_cover c4CoverDev =
        some ((detect_cover c4CoverDev).get (by decide)) := (Option.some_get _).symm
    cases hb : build_cover_yaml c4CoverDev (some c4CoverRule) { devices := [c4CoverRule] } with
    | none => exact absurd hb (by decide)
    | some item =>
      exact congrArg some (C4_name_override.2.2.1 _ _ _ _ _ _ hd (by decide) (by decide) hb)
  · have hd : detect_number c4NumDev =
        some ((detect_number c4NumDev).get (by decide)) := (Option.some_get _).symm
    cases hb : build_number_yaml c4NumDev (some c4NumRule) { devices := [c4NumRule] } with
    | none => exact absurd hb (by decide)
    | some item =>
      exact congrArg some (C4_name_override.2.2.2.1 _ _ _ _ _ _ hd (by decide) (by decide) hb)
  · have hd : detect_pilot_wire pw3Dev =
        some ((detect_pilot_wire pw3Dev).get (by decide)) := (Option.some_get _).symm
    cases hb : build_select_yaml pw3Dev (some c4PwRule) { devices := [c4PwRule] } with
    | none => exact absurd hb (by decide)
    | some item =>
      exact congrArg some (C4_name_override.2.2.2.2.1 _ _ _ _ _ _ hd (by decide) (by decide) hb)
  · have hd : detect_pilot_wire pw3Dev =
        some ((detect_pilot_wire pw3Dev).get (by decide)) := (Option.some_get _).symm
    cases hb : build_pilot_climate_yaml pw3Dev (some c4PwRule) { devices := [c4PwRule] } with
    | none => exact absurd hb (by decide)
    | some item =>
      exact congrArg some (C4_name_override.2.2.2.2.2.1 _ _ _ _ _ _ hd (by decide) (by decide) hb)
  · have hd : detect_water_heater c4SwDev (some c4WhRule) { devices := [c4WhRule] } =
        some ((detect_water_heater c4SwDev (some c4WhRule) { devices := [c4WhRule] }).get
          (by decide)) := (Option.some_get _).symm
    cases hb : build_water_heater_yaml c4SwDev (some c4WhRule) { devices := [c4WhRule] } with
    | none => exact absurd hb (by decide)
    | some item =>
      exact congrArg some
        (C4_name_override.2.2.2.2.2.2.1 _ _ _ _ _ _ hd (by decide) (by decide) hb)
  · have hd : detect_alarm_control_panel c4AlarmDev =
        some ((detect_alarm_control_panel c4AlarmDev).get (by decide)) := (Option.some_get _).symm
    cases hb : build_alarm_control_panel_yaml c4AlarmDev (some c4AlarmRule)
        { devices := [c4AlarmRule] } with
    | none => exact absurd hb (by decide)
    | some item =>
      exact congrArg some
        (C4_name_override.2.2.2.2.2.2.2.1 _ _ _ _ _ _ hd (by decide) (by decide) hb)
  · have hd : detect_light c4LightDev =
        some ((detect_light c4LightDev).get (by decide)) := (Option.some_get _).symm
    cases hb : build_light_yaml c4LightDev (some c4LightRule) { devices := [c4LightRule] } with
    | none => exact absurd hb (by decide)
    | some item =>
      exact congrArg some
        (C4_name_override.2.2.2.2.2.2.2.2.1 _ _ _ _ _ _ c4StateCmd hd (by decide) (by decide)
          (by decide) hb)
  · cases hb : build_switch_yaml c4SwDev (some c4SwRule) { devices := [c4SwRule] } with
    | none => exact absurd hb (by decide)
    | some item =>
      exact congrArg some (C4_name_override.2.2.2.2.2.2.2.2.2.1 _ _ _ _ hb)
  · cases hb : build_climate_yaml c4ClimDev (some c4ClimRule) { devices := [c4ClimRule] } with
    | none => exact absurd hb (by decide)
    | some item =>
      exact congrArg some (C4_name_override.2.2.2.2.2.2.2.2.2.2 _ _ _ _ hb)

/-! ### C3: switch completeness -/

/-- The "off" condition of the `detect_switch` scanning loop. -/
def switchOffCond (a : Cmd) : Bool :=
  strContains (a.logicalId.getD "") "setvalue-false" || strLower (a.name.getD "") == "off"

lemma switch_fold_off_none (l : List Cmd) (p : Option Cmd × Option Cmd)
    (h : ∀ a ∈ l, switchOffCond a = false) :
    (l.foldl switchOnOffStep p).2 = p.2 := by
  induction l generalizing p with
  | nil => rfl
  | cons a t ih =>
    have ha := h a (by simp)
    have hoff : ¬ (strContains (a.logicalId.getD "") "setvalue-false" ||
        strLower (a.name.getD "") == "off") = true := by
      simp only [switchOffCond] at ha
      simp [ha]
    simp only [List.foldl_cons]
    rw [ih _ (fun b hb => h b (by simp [hb]))]
    unfold switchOnOffStep
    dsimp only
    by_cases hc1 : (strContains (a.logicalId.getD "") "setvalue-true" ||
        strLower (a.name.getD "") == "on") = true
    · rw [if_pos hc1]
    · rw [if_neg hc1, if_neg hoff]

lemma detect_switch_none_of_no_off (d : EqLogic)
    (h3 : ∀ c ∈ d.cmds, blacklisted c = false → c.type = some "action" →
       switchOffCond c = false) :
    detect_switch d = none := by
  unfold detect_switch
  dsimp only
  have hsnd : (((d.cmds.filter (fun c => !blacklisted c)).filter
      (fun c => c.type == some "action")).foldl switchOnOffStep (none, none)).2 = none := by
    apply switch_fold_off_none
    intro a ha
    have ha2 := List.of_mem_filter ha
    have ha1 := List.mem_of_mem_filter ha
    have hbl := List.of_mem_filter ha1
    have hmem := List.mem_of_mem_filter ha1
    exact h3 a hmem (by simpa using hbl) (by simpa using ha2)
  cases hinf : (d.cmds.filter (fun c => !blacklisted c)).filter
      (fun c => c.type == some "info" && c.subType == some "binary") with
  | nil => rfl
  | cons st rest =>
    dsimp only
    rcases hp : ((d.cmds.filter (fun c => !blacklisted c)).filter
        (fun c => c.type == some "action")).foldl switchOnOffStep (none, none) with ⟨on?, off?⟩
    rw [hp] at hsnd
    dsimp only at hsnd
    subst hsnd
    rw [hp]
    cases on? <;> rfl

lemma build_switch_none (d : EqLogic) (rule : Option Rule) (config : DiscoveryConfig)
    (hdet : detect_switch d = none) : build_switch_yaml d rule config = none := by
  unfold build_switch_yaml
  rw [hdet]

lemma genEntity_switch_nil (d : EqLogic) (config : DiscoveryConfig)
    (hdet : detect_switch d = none) : (genEntityForDevice config d).switch = [] := by
  have hb : ∀ r : Option Rule, build_switch_yaml d r config = none :=
    fun r => build_switch_none d r config hdet
  unfold genEntityForDevice
  dsimp only
  split <;> simp [hb]

lemma swActionOf_none (rule : Option Rule) (config : DiscoveryConfig) (gate : Bool) :
    swActionOf rule config gate none = none := by
  cases gate <;> rfl

lemma genActions_switch_none (d : EqLogic) (config : DiscoveryConfig)
    (hdet : detect_switch d = none) : (genActionsForDevice config d).switch = none := by
  unfold genActionsForDevice
  dsimp only
  rw [hdet]
  exact swActionOf_none _ _ _

lemma sortedKeys_nodup (s : Store) : (sortedKeys s).Nodup :=
  (List.perm_insertionSort _ _).symm.nodup (List.nodup_dedup _)

lemma filterMap_pair_fst_sublist (l : List Int) (g : Int → Option EqLogic) :
    ((l.filterMap (fun k => (g k).map (fun e => (k, e)))).map Prod.fst).Sublist l := by
  induction l with
  | nil => simp
  | cons k t ih =>
    rw [List.filterMap_cons]
    cases hg : g k with
    | none => exact ih.cons _
    | some e =>
      simp only [Option.map_some', List.map_cons]
      exact ih.cons₂ _

lemma sortedEntries_fst_nodup (s : Store) : ((sortedEntries s).map Prod.fst).Nodup :=
  ((filterMap_pair_fst_sublist (sortedKeys s) (storeLookup s)).nodup (sortedKeys_nodup s))

lemma mem_sortedEntries (s : Store) (k : Int) (e : EqLogic)
    (h : (k, e) ∈ sortedEntries s) : storeLookup s k = some e := by
  unfold sortedEntries at h
  rw [List.mem_filterMap] at h
  obtain ⟨k', _, hmap⟩ := h
  cases hl : storeLookup s k' with
  | none => rw [hl] at hmap; simp at hmap
  | some e' =>
    rw [hl] at hmap
    simp only [Option.map_some', Option.some.injEq, Prod.mk.injEq] at hmap
    obtain ⟨hk, he⟩ := hmap
    subst hk
    rw [hl, he]

lemma lookup_filterMap_none {β : Type} (per : List (Int × DeviceActions))
    (f : DeviceActions → Option β) (k : Int)
    (hk : ∀ p ∈ per, p.1 = k → f p.2 = none) :
    (per.filterMap (fun q => (f q.2).map (fun a => (q.1, a)))).lookup k = none := by
  induction per with
  | nil => rfl
  | cons q t ih =>
    rw [List.filterMap_cons]
    cases hq : f q.2 with
    | none => exact ih (fun p hp => hk p (by simp [hp]))
    | some a =>
      by_cases hqk : q.1 = k
      · exact absurd hq (by rw [hk q (by simp) hqk]; simp)
      · have hbe : (k == q.1) = false := beq_eq_false_iff_ne.mpr (fun h => hqk h.symm)
        simp only [Option.map_some', List.lookup, hbe]
        exact ih (fun p hp => hk p (by simp [hp]))

lemma generate_actions_switch_lookup_none (store : Store) (config : DiscoveryConfig)
    (k : Int) (d : EqLogic) (hk : storeLookup store k = some d)
    (hdet : detect_switch d = none) :
    (generate_actions store config).switch.lookup k = none := by
  unfold generate_actions
  dsimp only
  apply lookup_filterMap_none
  intro p hp hpk
  rw [List.mem_map] at hp
  obtain ⟨⟨k', e'⟩, hq, hpq⟩ := hp
  subst hpq
  dsimp only at hpk ⊢
  subst hpk
  have hl := mem_sortedEntries store k' e' hq
  rw [hk] at hl
  have he : e' = d := by injection hl with h; exact h.symm
  subst he
  exact genActions_switch_none e' config hdet

/-- A device with a binary info command and only an "on" action. -/
def c3Dev : EqLogic :=
  { id := 40, name := some "OnOnly",
    cmds := [{ id := 1, type := some "info", subType := some "binary", name := some "Etat" },
             { id := 2, type := some "action", name := some "On" }] }

/-- **C3.** A device with at least one (non-blacklisted) binary info command
and an "on" action but no "off" action (no non-blacklisted action whose
logical id contains `setvalue-false` or whose lowercased name is `"off"`)
is not detected as a switch, and consequently `generate` produces no switch
entity for it and no switch action-binding entry under its store key. -/
theorem C3_switch_requires_off (d : EqLogic)
    (h1 : ∃ c ∈ d.cmds, blacklisted c = false ∧ c.type = some "info" ∧
      c.subType = some "binary")
    (h2 : ∃ c ∈ d.cmds, blacklisted c = false ∧ c.type = some "action" ∧
      (strContains (c.logicalId.getD "") "setvalue-true" = true ∨
       strLower (c.name.getD "") = "on"))
    (h3 : ∀ c ∈ d.cmds, blacklisted c = false → c.type = some "action" →
      switchOffCond c = false) :
    detect_switch d = none ∧
    (∀ config : DiscoveryConfig, (genEntityForDevice config d).switch = []) ∧
    (∀ (store : Store) (config : DiscoveryConfig) (k : Int), storeLookup store k = some d →
      (generate_actions store config).switch.lookup k = none) := by
  have hdet := detect_switch_none_of_no_off d h3
  exact ⟨hdet, fun config => genEntity_switch_nil d config hdet,
    fun store config k hk => generate_actions_switch_lookup_none store config k d hk hdet⟩

/-- Witness for C3 at a concrete on-only device. -/
theorem C3_switch_requires_off_witness :
    detect_switch c3Dev = none ∧
    (genEntityForDevice {} c3Dev).switch = [] ∧
    (generate_actions [(40, c3Dev)] {}).switch.lookup 40 = none := by
  have t := C3_switch_requires_off c3Dev (by decide) (by decide) (by decide)
  exact ⟨t.1, t.2.1 {}, t.2.2 [(40, c3Dev)] {} 40 (by decide)⟩

lemma storeUpsert_not_mem (s : Store) (d : EqLogic) (h : d.id ∉ s.map Prod.fst) :
    storeUpsert s d = s ++ [(d.id, d)] := by
  have hany : s.any (fun p => p.1 == d.id) = false := by
    rw [List.any_eq_false]
    intro p hp
    intro hpe
    exact h (by
      rw [← show p.1 = d.id by simpa using hpe]
      exact List.mem_map_of_mem Prod.fst hp)
  unfold storeUpsert
  rw [hany]
  simp

lemma foldl_upsert_eq (l : List EqLogic) (s : Store)
    (hdisj : ∀ d ∈ l, d.id ∉ s.map Prod.fst)
    (hn : (l.map (fun d => d.id)).Nodup) :
    l.foldl storeUpsert s = s ++ l.map (fun d => (d.id, d)) := by
  induction l generalizing s with
  | nil => simp
  | cons d t ih =>
    rw [List.foldl_cons, storeUpsert_not_mem s d (hdisj d (by simp))]
    rw [List.map_cons, List.nodup_cons] at hn
    rw [ih (s ++ [(d.id, d)]) ?_ hn.2]
    · simp
    · intro x hx
      rw [List.map_append]
      simp only [List.mem_append]
      rintro (hxs | hxd)
      · exact hdisj x (by simp [hx]) hxs
      · have hmem : x.id ∈ t.map (fun d => d.id) := List.mem_map_of_mem _ hx
        rw [show x.id = d.id from by simpa using hxd] at hmem
        exact hn.1 hmem

lemma engine_foldl_store (l : List EqLogic) (e : Engine) :
    (l.foldl Engine.update_eqlogic e).store = l.foldl storeUpsert e.store ∧
    (l.foldl Engine.update_eqlogic e).config = e.config := by
  induction l generalizing e with
  | nil => exact ⟨rfl, rfl⟩
  | cons d t ih =>
    rw [List.foldl_cons, List.foldl_cons]
    exact ih _

lemma find?_eq_of_perm_nodup (l1 l2 : List EqLogic) (h : List.Perm l1 l2)
    (hn : (l1.map (fun d => d.id)).Nodup) (k : Int) :
    l1.find? (fun d => d.id == k) = l2.find? (fun d => d.id == k) := by
  cases hf : l1.find? (fun d => d.id == k) with
  | some d =>
    have hpd := List.find?_some hf
    have hmem := List.mem_of_find?_eq_some hf
    cases hf2 : l2.find? (fun d => d.id == k) with
    | none =>
      exact absurd hpd (by simpa using List.find?_eq_none.mp hf2 d (h.subset hmem))
    | some d' =>
      have hpd' := List.find?_some hf2
      have hmem' : d' ∈ l1 := h.symm.subset (List.mem_of_find?_eq_some hf2)
      have heq : d = d' := by
        apply List.inj_on_of_nodup_map hn hmem hmem'
        rw [show d.id = k by simpa using hpd, show d'.id = k by simpa using hpd']
      rw [heq]
  | none =>
    cases hf2 : l2.find? (fun d => d.id == k) with
    | some d' =>
      have hmem' : d' ∈ l1 := h.symm.subset (List.mem_of_find?_eq_some hf2)
      exact absurd (List.find?_some hf2) (by simpa using List.find?_eq_none.mp hf d' hmem')
    | none => rfl

lemma storeLookup_map_pairify (l : List EqLogic) (k : Int) :
    storeLookup (l.map (fun d => (d.id, d))) k = (l.find? (fun d => d.id == k)) := by
  unfold storeLookup
  induction l with
  | nil => rfl
  | cons d t ih =>
    rw [List.map_cons, List.find?_cons, List.find?_cons]
    by_cases hd : (d.id == k) = true
    · simp [hd]
    · simp only [Bool.not_eq_true] at hd
      simp only [hd]
      exact ih

lemma sortedEntries_pairify_perm_eq (l1 l2 : List EqLogic) (h : List.Perm l1 l2)
    (hn1 : (l1.map (fun d => d.id)).Nodup) :
    sortedEntries (l1.map (fun d => (d.id, d))) = sortedEntries (l2.map (fun d => (d.id, d))) := by
  have hn2 : (l2.map (fun d => d.id)).Nodup := (h.map (fun d => d.id)).nodup hn1
  have hcomp : (Prod.fst ∘ fun d : EqLogic => (d.id, d)) = fun d : EqLogic => d.id := rfl
  have hkeys : sortedKeys (l1.map (fun d => (d.id, d))) =
      sortedKeys (l2.map (fun d => (d.id, d))) := by
    unfold sortedKeys
    rw [List.map_map, List.map_map, hcomp]
    rw [List.dedup_eq_self.mpr hn1, List.dedup_eq_self.mpr hn2]
    haveI : IsTotal ℤ (fun a b : ℤ => a ≤ b) := ⟨fun a b => le_total a b⟩
    haveI : IsTrans ℤ (fun a b : ℤ => a ≤ b) := ⟨fun _ _ _ => le_trans⟩
    exact @List.eq_of_perm_of_sorted ℤ (fun a b : ℤ => a ≤ b) ⟨fun _ _ => le_antisymm⟩ _ _
      (((List.perm_insertionSort _ _).trans (h.map _)).trans
        (List.perm_insertionSort _ _).symm)
      (List.sorted_insertionSort _ _) (List.sorted_insertionSort _ _)
  unfold sortedEntries
  rw [hkeys]
  apply List.filterMap_congr
  intro k _
  rw [storeLookup_map_pairify, storeLookup_map_pairify, find?_eq_of_perm_nodup l1 l2 h hn1 k]

/-- A first concrete device for exercising update order. -/
def c7DevA : EqLogic :=
  { id := 41, name := some "SondeSalon",
    cmds := [{ id := 1, type := some "info", subType := some "numeric",
               name := some "Temperature", generic_type := some "TEMPERATURE" }] }

/-- A second concrete device with a distinct id. -/
def c7DevB : EqLogic :=
  { id := 42, name := some "PriseTV",
    cmds := [{ id := 3, type := some "info", subType := some "binary", name := some "Etat" },
             { id := 4, type := some "action", name := some "On" },
             { id := 5, type := some "action", name := some "Off" }] }

/-- **C7.** Feeding the same set of device records (pairwise distinct ids)
to `update_eqlogic` in any order and then calling `generate()` yields the
same entity document and the same action-binding document. -/
theorem C7_update_order_irrelevant (cfg : DiscoveryConfig) (l1 l2 : List EqLogic)
    (hperm : List.Perm l1 l2) (hn : (l1.map (fun d => d.id)).Nodup) :
    ((l1.foldl Engine.update_eqlogic { config := cfg, store := [] }).generate).1 =
    ((l2.foldl Engine.update_eqlogic { config := cfg, store := [] }).generate).1 := by
  have hn2 : (l2.map (fun d => d.id)).Nodup := (hperm.map (fun d => d.id)).nodup hn
  obtain ⟨hs1, hc1⟩ := engine_foldl_store l1 { config := cfg, store := [] }
  obtain ⟨hs2, hc2⟩ := engine_foldl_store l2 { config := cfg, store := [] }
  simp only [Engine.generate]
  rw [hs1, hs2, hc1, hc2]
  rw [foldl_upsert_eq l1 [] (by simp) hn, foldl_upsert_eq l2 [] (by simp) hn2]
  simp only [List.nil_append]
  have hse := sortedEntries_pairify_perm_eq l1 l2 hperm hn
  unfold generate_entity_doc generate_actions
  rw [hse]

/-- Witness for C7 at two concrete two-device update orders. -/
theorem C7_update_order_irrelevant_witness :
    ((([c7DevA, c7DevB] : List EqLogic).foldl Engine.update_eqlogic
        { config := {}, store := [] }).generate).1 =
    ((([c7DevB, c7DevA] : List EqLogic).foldl Engine.update_eqlogic
        { config := {}, store := [] }).generate).1 :=
  C7_update_order_irrelevant {} [c7DevA, c7DevB] [c7DevB, c7DevA]
    (by decide) (by decide)


/-! ### C1: provenance basics -/

/-- A command of the device that no blacklist matches. -/
def okCmd (eqlogic : EqLogic) (c : Cmd) : Prop :=
  c ∈ eqlogic.cmds ∧ blacklisted c = false

/-- An id carried by some non-blacklisted command of the device. -/
def okId (eqlogic : EqLogic) (i : Int) : Prop :=
  ∃ c, okCmd eqlogic c ∧ c.id = i

/-- All commands an optional slot may hold satisfy `P`. -/
def optP (P : Cmd → Prop) (x : Option Cmd) : Prop :=
  ∀ c, x = some c → P c

lemma optP_none (P : Cmd → Prop) : optP P none := fun _ hc => nomatch hc

lemma optP_some {P : Cmd → Prop} {c : Cmd} (h : P c) : optP P (some c) :=
  fun c' hc => by injection hc with h2; exact h2 ▸ h

lemma mem_clean {eqlogic : EqLogic} {c : Cmd}
    (h : c ∈ eqlogic.cmds.filter (fun c => !blacklisted c)) : okCmd eqlogic c := by
  have h2 := List.mem_filter.mp h
  exact ⟨h2.1, by simpa using h2.2⟩

lemma foldl_preserve {α β : Type} (f : α → β → α) (Q : α → Prop) (P : β → Prop)
    (hf : ∀ a b, Q a → P b → Q (f a b)) :
    ∀ (l : List β) (a : α), Q a → (∀ b ∈ l, P b) → Q (l.foldl f a) := by
  intro l
  induction l with
  | nil => intro a ha _; exact ha
  | cons x t ih =>
    intro a ha hl
    rw [List.foldl_cons]
    exact ih _ (hf a x ha (hl x (List.mem_cons_self _ _)))
      (fun b hb => hl b (List.mem_cons_of_mem _ hb))

lemma orElse_ok (P : Cmd → Prop) (x y : Option Cmd) (hx : optP P x) (hy : optP P y) :
    optP P (x <|> y) := by
  intro c hc
  cases x with
  | none => exact hy c (by simpa using hc)
  | some a => exact hx c (by simpa using hc)

lemma allows_cmd_not_blacklisted (rule : Option Rule) (cmd : Cmd) (config : DiscoveryConfig)
    (h : allows_cmd rule cmd config = true) : blacklisted cmd = false := by
  by_contra hb
  rw [Bool.not_eq_false] at hb
  unfold allows_cmd at h
  rw [hb] at h
  simp at h

lemma ifOpt_some {α : Type} (b : Bool) (x : Option α) (y : α)
    (h : (if b then x else none) = some y) : x = some y := by
  cases b with
  | false => exact absurd h (by simp)
  | true => simpa using h

/-! ### C1: switch detector provenance -/

lemma switchOnOffStep_ok (P : Cmd → Prop) (p : Option Cmd × Option Cmd) (a : Cmd)
    (h1 : optP P p.1) (h2 : optP P p.2) (ha : P a) :
    optP P (switchOnOffStep p a).1 ∧ optP P (switchOnOffStep p a).2 := by
  unfold switchOnOffStep
  dsimp only
  split
  · exact ⟨optP_some ha, h2⟩
  · split
    · exact ⟨h1, optP_some ha⟩
    · exact ⟨h1, h2⟩

lemma switch_fold_okP (P : Cmd → Prop) (l : List Cmd) (p : Option Cmd × Option Cmd)
    (hl : ∀ c ∈ l, P c) (h1 : optP P p.1) (h2 : optP P p.2) :
    optP P (l.foldl switchOnOffStep p).1 ∧ optP P (l.foldl switchOnOffStep p).2 :=
  foldl_preserve switchOnOffStep (fun q => optP P q.1 ∧ optP P q.2) P
    (fun q b hq hb => switchOnOffStep_ok P q b hq.1 hq.2 hb) l p ⟨h1, h2⟩ hl

lemma detect_switch_ok (eqlogic : EqLogic) (sw : SwitchDetect)
    (h : detect_switch eqlogic = some sw) :
    okCmd eqlogic sw.state_cmd ∧ okCmd eqlogic sw.on_cmd ∧ okCmd eqlogic sw.off_cmd := by
  unfold detect_switch at h
  dsimp only at h
  split at h
  · exact absurd h (by simp)
  next st rest hinf =>
    have hst : okCmd eqlogic st := by
      have h2 : st ∈ (eqlogic.cmds.filter (fun c => !blacklisted c)).filter
          (fun c => c.type == some "info" && c.subType == some "binary") := by
        rw [hinf]; exact List.mem_cons_self _ _
      exact mem_clean (List.mem_filter.mp h2).1
    have hfold := switch_fold_okP (okCmd eqlogic)
      ((eqlogic.cmds.filter (fun c => !blacklisted c)).filter (fun c => c.type == some "action"))
      (none, none)
      (fun c hc => mem_clean (List.mem_filter.mp hc).1) (optP_none _) (optP_none _)
    split at h
    next on_cmd off_cmd hpair =>
      injection h with h
      subst h
      exact ⟨hst, hfold.1 on_cmd (congrArg Prod.fst hpair),
        hfold.2 off_cmd (congrArg Prod.snd hpair)⟩
    next => exact absurd h (by simp)

/-! ### C1: cover detector provenance -/

lemma coverStep_ok (P : Cmd → Prop) (st : CoverAcc) (a : Cmd)
    (h1 : optP P st.up) (h2 : optP P st.down) (h3 : optP P st.stop)
    (h4 : optP P st.set_pos) (h5 : optP P st.pos) (ha : P a) :
    optP P (coverStep st a).up ∧ optP P (coverStep st a).down ∧ optP P (coverStep st a).stop ∧
    optP P (coverStep st a).set_pos ∧ optP P (coverStep st a).pos := by
  unfold coverStep
  dsimp only
  split
  · split
    · exact ⟨optP_some ha, h2, h3, h4, h5⟩
    · split
      · exact ⟨h1, optP_some ha, h3, h4, h5⟩
      · split
        · exact ⟨h1, h2, optP_some ha, h4, h5⟩
        · split
          · exact ⟨h1, h2, h3, optP_some ha, h5⟩
          · exact ⟨h1, h2, h3, h4, h5⟩
  · split
    · split
      · exact ⟨h1, h2, h3, h4, optP_some ha⟩
      · exact ⟨h1, h2, h3, h4, h5⟩
    · exact ⟨h1, h2, h3, h4, h5⟩

lemma cover_fold_okP (eqlogic : EqLogic) :
    optP (okCmd eqlogic) ((eqlogic.cmds.filter (fun c => !blacklisted c)).foldl
      coverStep {}).up ∧
    optP (okCmd eqlogic) ((eqlogic.cmds.filter (fun c => !blacklisted c)).foldl
      coverStep {}).down ∧
    optP (okCmd eqlogic) ((eqlogic.cmds.filter (fun c => !blacklisted c)).foldl
      coverStep {}).stop ∧
    optP (okCmd eqlogic) ((eqlogic.cmds.filter (fun c => !blacklisted c)).foldl
      coverStep {}).set_pos ∧
    optP (okCmd eqlogic) ((eqlogic.cmds.filter (fun c => !blacklisted c)).foldl
      coverStep {}).pos :=
  foldl_preserve coverStep
    (fun st => optP (okCmd eqlogic) st.up ∧ optP (okCmd eqlogic) st.down ∧
      optP (okCmd eqlogic) st.stop ∧ optP (okCmd eqlogic) st.set_pos ∧
      optP (okCmd eqlogic) st.pos)
    (okCmd eqlogic)
    (fun st b hq hb => coverStep_ok (okCmd eqlogic) st b hq.1 hq.2.1 hq.2.2.1 hq.2.2.2.1
      hq.2.2.2.2 hb)
    (eqlogic.cmds.filter (fun c => !blacklisted c)) {}
    ⟨optP_none _, optP_none _, optP_none _, optP_none _, optP_none _⟩
    (fun c hc => mem_clean hc)

lemma detect_cover_ok (eqlogic : EqLogic) (d : CoverDetect)
    (h : detect_cover eqlogic = some d) :
    okCmd eqlogic d.up_cmd ∧ okCmd eqlogic d.down_cmd ∧ okCmd eqlogic d.position_state_cmd ∧
    optP (okCmd eqlogic) d.stop_cmd ∧ optP (okCmd eqlogic) d.set_position_cmd := by
  unfold detect_cover at h
  dsimp only at h
  obtain ⟨hu, hd2, hs, hsp, hp⟩ := cover_fold_okP eqlogic
  split at h
  next up down pos hup hdown hpos =>
    split at h
    · injection h with h
      subst h
      exact ⟨hu up hup, hd2 down hdown, hp pos hpos, hs, hsp⟩
    · exact absurd h (by simp)
  next => exact absurd h (by simp)

/-! ### C1: number detector provenance -/

lemma numberStep_ok (P : Cmd → Prop) (p : Option Cmd × Option Cmd) (a : Cmd)
    (h1 : optP P p.1) (h2 : optP P p.2) (ha : P a) :
    optP P (numberStep p a).1 ∧ optP P (numberStep p a).2 := by
  unfold numberStep
  dsimp only
  constructor
  · split
    · exact optP_some ha
    · exact h1
  · split
    · exact optP_some ha
    · exact h2

lemma detect_number_ok (eqlogic : EqLogic) (d : NumberDetect)
    (h : detect_number eqlogic = some d) :
    okCmd eqlogic d.set_cmd ∧ okCmd eqlogic d.state_cmd := by
  unfold detect_number at h
  dsimp only at h
  have hfold := foldl_preserve numberStep
    (fun q => optP (okCmd eqlogic) q.1 ∧ optP (okCmd eqlogic) q.2) (okCmd eqlogic)
    (fun q b hq hb => numberStep_ok (okCmd eqlogic) q b hq.1 hq.2 hb)
    (eqlogic.cmds.filter (fun c => !blacklisted c)) (none, none)
    ⟨optP_none _, optP_none _⟩ (fun c hc => mem_clean hc)
  split at h
  next set_cmd state_cmd hpair =>
    injection h with h
    subst h
    exact ⟨hfold.1 set_cmd (congrArg Prod.fst hpair), hfold.2 state_cmd (congrArg Prod.snd hpair)⟩
  next => exact absurd h (by simp)

/-! ### C1: alarm detector provenance -/

lemma alarmActionStep_ok (eqlogic : EqLogic)
    (st : Option Cmd × Option Cmd × Option Cmd × Option Cmd) (a : Cmd)
    (h1 : optP (okCmd eqlogic) st.1) (h2 : optP (okCmd eqlogic) st.2.1)
    (h3 : optP (okCmd eqlogic) st.2.2.1) (h4 : optP (okCmd eqlogic) st.2.2.2)
    (ha : a ∈ eqlogic.cmds) :
    optP (okCmd eqlogic) (alarmActionStep st a).1 ∧
    optP (okCmd eqlogic) (alarmActionStep st a).2.1 ∧
    optP (okCmd eqlogic) (alarmActionStep st a).2.2.1 ∧
    optP (okCmd eqlogic) (alarmActionStep st a).2.2.2 := by
  unfold alarmActionStep
  dsimp only
  split
  · exact ⟨h1, h2, h3, h4⟩
  next hbl =>
    split
    · exact ⟨h1, h2, h3, h4⟩
    · have hok : okCmd eqlogic a := ⟨ha, by simpa using hbl⟩
      split
      · exact ⟨optP_some hok, h2, h3, h4⟩
      · split
        · exact ⟨h1, optP_some hok, h3, h4⟩
        · split
          · exact ⟨h1, h2, optP_some hok, h4⟩
          · split
            · exact ⟨h1, h2, h3, optP_some hok⟩
            · exact ⟨h1, h2, h3, h4⟩

lemma detect_alarm_ok (eqlogic : EqLogic) (a : AlarmDetect)
    (h : detect_alarm_control_panel eqlogic = some a) :
    okCmd eqlogic a.state_cmd ∧ optP (okCmd eqlogic) a.arm_home_cmd ∧
    optP (okCmd eqlogic) a.arm_away_cmd ∧ optP (okCmd eqlogic) a.arm_night_cmd ∧
    optP (okCmd eqlogic) a.disarm_cmd := by
  unfold detect_alarm_control_panel at h
  dsimp only at h
  split at h
  · exact absurd h (by simp)
  · split at h
    · exact absurd h (by simp)
    next st hfind =>
      have hmem : st ∈ eqlogic.cmds := by
        have h2 := List.mem_of_find?_eq_some hfind
        unfold sortCmdsById at h2
        exact (List.perm_insertionSort _ _).subset h2
      have hpred := List.find?_some hfind
      have hbl : blacklisted st = false := by
        simp only [Bool.and_eq_true, Bool.not_eq_true'] at hpred
        exact hpred.1.1.1
      have hfold := foldl_preserve alarmActionStep
        (fun q => optP (okCmd eqlogic) q.1 ∧ optP (okCmd eqlogic) q.2.1 ∧
          optP (okCmd eqlogic) q.2.2.1 ∧ optP (okCmd eqlogic) q.2.2.2)
        (fun c => c ∈ eqlogic.cmds)
        (fun q b hq hb => alarmActionStep_ok eqlogic q b hq.1 hq.2.1 hq.2.2.1 hq.2.2.2 hb)
        eqlogic.cmds (none, none, none, none)
        ⟨optP_none _, optP_none _, optP_none _, optP_none _⟩ (fun _ hc => hc)
      injection h with h
      subst h
      exact ⟨⟨hmem, hbl⟩, hfold.1, hfold.2.1, hfold.2.2.2, hfold.2.2.1⟩

/-! ### C1: water-heater detector provenance -/

lemma whOnOffStep_ok (P : Cmd → Prop) (p : Option Cmd × Option Cmd) (a : Cmd)
    (h1 : optP P p.1) (h2 : optP P p.2) (ha : P a) :
    optP P (whOnOffStep p a).1 ∧ optP P (whOnOffStep p a).2 := by
  unfold whOnOffStep
  dsimp only
  constructor
  · split
    · exact optP_some ha
    · exact h1
  · split
    · exact optP_some ha
    · exact h2

lemma ite_ok {α : Type} {c : Prop} [Decidable c] (Q : α → Prop) (x y : α)
    (hx : Q x) (hy : Q y) : Q (if c then x else y) := by
  split
  · exact hx
  · exact hy

lemma whScoreStep_ok (P : Cmd → Prop) (p : Option Cmd × Int) (a : Cmd)
    (h1 : optP P p.1) (ha : P a) : optP P (whScoreStep p a).1 := by
  unfold whScoreStep
  dsimp only
  exact ite_ok (fun (q : Option Cmd × Int) => optP P q.1) _ _ (optP_some ha) h1

lemma whBestState_ok (P : Cmd → Prop) (l : List Cmd) (hl : ∀ c ∈ l, P c) :
    optP P (whBestState l) := by
  unfold whBestState
  exact foldl_preserve whScoreStep (fun (q : Option Cmd × Int) => optP P q.1) P
    (fun q b hq hb => whScoreStep_ok P q b hq hb) l (none, -1) (optP_none _) hl

lemma getCmdById_mem (eqlogic : EqLogic) (x : Option Int) :
    optP (fun c => c ∈ eqlogic.cmds) (x.bind (getCmdById eqlogic)) := by
  intro c hc
  rw [Option.bind_eq_some] at hc
  obtain ⟨i, _, hg⟩ := hc
  unfold getCmdById at hg
  exact List.mem_of_find?_eq_some hg

lemma whStage1_mem (eqlogic : EqLogic) (s0 o0 f0 : Option Cmd)
    (hs : optP (fun c => c ∈ eqlogic.cmds) s0) (ho : optP (fun c => c ∈ eqlogic.cmds) o0)
    (hf : optP (fun c => c ∈ eqlogic.cmds) f0) :
    optP (fun c => c ∈ eqlogic.cmds) (whStage1 eqlogic s0 o0 f0).1 ∧
    optP (fun c => c ∈ eqlogic.cmds) (whStage1 eqlogic s0 o0 f0).2.1 ∧
    optP (fun c => c ∈ eqlogic.cmds) (whStage1 eqlogic s0 o0 f0).2.2 := by
  unfold whStage1
  split
  · cases hsw : detect_switch eqlogic with
    | some sw =>
      dsimp only
      obtain ⟨hst, hon, hoff⟩ := detect_switch_ok eqlogic sw hsw
      exact ⟨orElse_ok _ _ _ hs (optP_some hst.1), orElse_ok _ _ _ ho (optP_some hon.1),
        orElse_ok _ _ _ hf (optP_some hoff.1)⟩
    | none => exact ⟨hs, ho, hf⟩
  · exact ⟨hs, ho, hf⟩

lemma whStage2_mem (eqlogic : EqLogic) (s1 o1 f1 : Option Cmd)
    (hs : optP (fun c => c ∈ eqlogic.cmds) s1) (ho : optP (fun c => c ∈ eqlogic.cmds) o1)
    (hf : optP (fun c => c ∈ eqlogic.cmds) f1) :
    optP (fun c => c ∈ eqlogic.cmds) (whStage2 eqlogic s1 o1 f1).1 ∧
    optP (fun c => c ∈ eqlogic.cmds) (whStage2 eqlogic s1 o1 f1).2.1 ∧
    optP (fun c => c ∈ eqlogic.cmds) (whStage2 eqlogic s1 o1 f1).2.2 := by
  unfold whStage2
  split
  · dsimp only
    have hfold := foldl_preserve whOnOffStep
      (fun q => optP (fun c => c ∈ eqlogic.cmds) q.1 ∧ optP (fun c => c ∈ eqlogic.cmds) q.2)
      (fun c => c ∈ eqlogic.cmds)
      (fun q b hq hb => whOnOffStep_ok _ q b hq.1 hq.2 hb)
      ((eqlogic.cmds.filter (fun c => !blacklisted c)).filter (fun c => c.type == some "action"))
      (o1, f1) ⟨ho, hf⟩
      (fun c hc => (mem_clean (List.mem_filter.mp hc).1).1)
    refine ⟨orElse_ok _ _ _ hs (whBestState_ok _ _ ?_), hfold.1, hfold.2⟩
    exact fun c hc => (mem_clean (List.mem_filter.mp hc).1).1
  · exact ⟨hs, ho, hf⟩

lemma whStages_mem (eqlogic : EqLogic) (whd : WhDict) :
    optP (fun c => c ∈ eqlogic.cmds)
      (whStage2 eqlogic
        (whStage1 eqlogic (whd.state_cmd_id.bind (getCmdById eqlogic))
          (whd.on_cmd_id.bind (getCmdById eqlogic))
          (whd.off_cmd_id.bind (getCmdById eqlogic))).1
        (whStage1 eqlogic (whd.state_cmd_id.bind (getCmdById eqlogic))
          (whd.on_cmd_id.bind (getCmdById eqlogic))
          (whd.off_cmd_id.bind (getCmdById eqlogic))).2.1
        (whStage1 eqlogic (whd.state_cmd_id.bind (getCmdById eqlogic))
          (whd.on_cmd_id.bind (getCmdById eqlogic))
          (whd.off_cmd_id.bind (getCmdById eqlogic))).2.2).1 ∧
    optP (fun c => c ∈ eqlogic.cmds)
      (whStage2 eqlogic
        (whStage1 eqlogic (whd.state_cmd_id.bind (getCmdById eqlogic))
          (whd.on_cmd_id.bind (getCmdById eqlogic))
          (whd.off_cmd_id.bind (getCmdById eqlogic))).1
        (whStage1 eqlogic (whd.state_cmd_id.bind (getCmdById eqlogic))
          (whd.on_cmd_id.bind (getCmdById eqlogic))
          (whd.off_cmd_id.bind (getCmdById eqlogic))).2.1
        (whStage1 eqlogic (whd.state_cmd_id.bind (getCmdById eqlogic))
          (whd.on_cmd_id.bind (getCmdById eqlogic))
          (whd.off_cmd_id.bind (getCmdById eqlogic))).2.2).2.1 ∧
    optP (fun c => c ∈ eqlogic.cmds)
      (whStage2 eqlogic
        (whStage1 eqlogic (whd.state_cmd_id.bind (getCmdById eqlogic))
          (whd.on_cmd_id.bind (getCmdById eqlogic))
          (whd.off_cmd_id.bind (getCmdById eqlogic))).1
        (whStage1 eqlogic (whd.state_cmd_id.bind (getCmdById eqlogic))
          (whd.on_cmd_id.bind (getCmdById eqlogic))
          (whd.off_cmd_id.bind (getCmdById eqlogic))).2.1
        (whStage1 eqlogic (whd.state_cmd_id.bind (getCmdById eqlogic))
          (whd.on_cmd_id.bind (getCmdById eqlogic))
          (whd.off_cmd_id.bind (getCmdById eqlogic))).2.2).2.2 := by
  have h1 := whStage1_mem eqlogic (whd.state_cmd_id.bind (getCmdById eqlogic))
    (whd.on_cmd_id.bind (getCmdById eqlogic)) (whd.off_cmd_id.bind (getCmdById eqlogic))
    (getCmdById_mem eqlogic _) (getCmdById_mem eqlogic _) (getCmdById_mem eqlogic _)
  exact whStage2_mem eqlogic _ _ _ h1.1 h1.2.1 h1.2.2

lemma detect_wh_ok (eqlogic : EqLogic) (rule : Option Rule) (config : DiscoveryConfig)
    (w : WHDetect) (h : detect_water_heater eqlogic rule config = some w) :
    okCmd eqlogic w.state_cmd ∧ okCmd eqlogic w.on_cmd ∧ okCmd eqlogic w.off_cmd := by
  unfold detect_water_heater at h
  cases rule with
  | none => exact absurd h (by simp)
  | some r =>
    dsimp only at h
    split at h
    · exact absurd h (by simp)
    · have hm2 := whStages_mem eqlogic
        (match r.water_heater with | some (WhCfgV.whDict d) => d | _ => ({} : WhDict))
      split at h
      next state_cmd on_cmd off_cmd hseq hoeq hfeq =>
        split at h
        · exact absurd h (by simp)
        next hallow =>
          injection h with h
          subst h
          simp only [Bool.not_eq_true, Bool.not_eq_false', Bool.and_eq_true] at hallow
          exact ⟨⟨hm2.1 state_cmd hseq, allows_cmd_not_blacklisted _ _ _ hallow.1.1⟩,
            ⟨hm2.2.1 on_cmd hoeq, allows_cmd_not_blacklisted _ _ _ hallow.1.2⟩,
            ⟨hm2.2.2 off_cmd hfeq, allows_cmd_not_blacklisted _ _ _ hallow.2⟩⟩
      next => exact absurd h (by simp)

/-! ### C1: pilot-wire detector provenance -/

lemma pilotOptOf_ok (c : Cmd) (o : PilotOpt) (h : pilotOptOf c = some o) :
    o.cmd = c ∧ blacklisted c = false := by
  unfold pilotOptOf at h
  dsimp only at h
  split at h
  next hbl => exact absurd h (by simp)
  next hbl =>
    split at h
    · exact absurd h (by simp)
    · split at h
      · exact absurd h (by simp)
      · split at h
        · exact absurd h (by simp)
        · split at h
          · exact absurd h (by simp)
          · split at h
            · exact absurd h (by simp)
            · injection h with h
              subst h
              exact ⟨rfl, by simpa using hbl⟩

lemma pilotDedupStep_sub (L : List PilotOpt) (st : List PilotOpt × List String × List Int)
    (o : PilotOpt) (hq : ∀ x ∈ st.1, x ∈ L) (ho : o ∈ L) :
    ∀ x ∈ (pilotDedupStep st o).1, x ∈ L := by
  unfold pilotDedupStep
  dsimp only
  split
  · exact hq
  · intro x hx
    rcases List.mem_append.mp hx with hx | hx
    · exact hq x hx
    · rw [List.mem_singleton.mp hx]
      exact ho

lemma pilotDedup_sub (l : List PilotOpt) : ∀ o ∈ pilotDedup l, o ∈ l := by
  unfold pilotDedup
  exact foldl_preserve pilotDedupStep (fun st => ∀ x ∈ st.1, x ∈ l) (fun o => o ∈ l)
    (fun st o hq ho => pilotDedupStep_sub l st o hq ho) l ([], [], [])
    (fun x hx => absurd hx (List.not_mem_nil x)) (fun _ ho => ho)

lemma detect_pilot_ok (eqlogic : EqLogic) (D : PilotDetect)
    (h : detect_pilot_wire eqlogic = some D) :
    okCmd eqlogic D.state_cmd ∧ ∀ o ∈ D.options, okCmd eqlogic o.cmd := by
  unfold detect_pilot_wire at h
  dsimp only at h
  split at h
  · exact absurd h (by simp)
  next st hfind =>
    have hmem := List.mem_of_find?_eq_some hfind
    have hpred := List.find?_some hfind
    have hbl : blacklisted st = false := by
      simp only [Bool.and_eq_true, Bool.not_eq_true'] at hpred
      exact hpred.1.1.1
    split at h
    · exact absurd h (by simp)
    · split at h
      · exact absurd h (by simp)
      · injection h with h
        subst h
        refine ⟨⟨hmem, hbl⟩, ?_⟩
        intro o ho
        have h1 := pilotDedup_sub _ o ho
        have h2 : o ∈ eqlogic.cmds.filterMap pilotOptOf :=
          (List.perm_insertionSort _ _).subset h1
        obtain ⟨c, hc, hoc⟩ := List.mem_filterMap.mp h2
        obtain ⟨hco, hcbl⟩ := pilotOptOf_ok c o hoc
        rw [hco]
        exact ⟨hc, hcbl⟩

lemma byValueGet_mem (options : List PilotOpt) (v : Int) (o : PilotOpt)
    (h : byValueGet options v = some o) : o ∈ options := by
  unfold byValueGet at h
  exact List.mem_reverse.mp (List.mem_of_find?_eq_some h)

lemma pilotPick_mem (options : List PilotOpt) (values : List Int) (fb : Option String)
    (o : PilotOpt) (h : pilotPick options values fb = some o) : o ∈ options := by
  unfold pilotPick at h
  split at h
  · exact byValueGet_mem _ _ _ h
  · split at h
    · rw [Option.bind_eq_some] at h
      obtain ⟨k, _, hbv⟩ := h
      exact byValueGet_mem _ _ _ hbv
    · split at h
      · rw [Option.bind_eq_some] at h
        obtain ⟨k, _, hbv⟩ := h
        exact byValueGet_mem _ _ _ hbv
      · exact absurd h (by simp)

lemma pilot_wire_cmds_mem (options : List PilotOpt) :
    (∀ o, (pilot_wire_cmds options).off = some o → o ∈ options) ∧
    (∀ o, (pilot_wire_cmds options).away = some o → o ∈ options) ∧
    (∀ o, (pilot_wire_cmds options).eco = some o → o ∈ options) ∧
    (∀ o, (pilot_wire_cmds options).comfort_2 = some o → o ∈ options) ∧
    (∀ o, (pilot_wire_cmds options).comfort_1 = some o → o ∈ options) ∧
    (∀ o, (pilot_wire_cmds options).comfort = some o → o ∈ options) := by
  unfold pilot_wire_cmds
  dsimp only
  exact ⟨fun o h => pilotPick_mem _ _ _ o h, fun o h => pilotPick_mem _ _ _ o h,
    fun o h => pilotPick_mem _ _ _ o h, fun o h => pilotPick_mem _ _ _ o h,
    fun o h => pilotPick_mem _ _ _ o h, fun o h => pilotPick_mem _ _ _ o h⟩

/-! ### C1: climate detector provenance -/

lemma kmSet_ok (P : Cmd → Prop) (m : KindMap) (k : String) (c : Cmd)
    (h1 : optP P m.hot) (h2 : optP P m.cold) (h3 : optP P m.auto) (hc : P c) :
    optP P (kmSet m k c).hot ∧ optP P (kmSet m k c).cold ∧ optP P (kmSet m k c).auto := by
  unfold kmSet
  split
  · exact ⟨optP_some hc, h2, h3⟩
  · split
    · exact ⟨h1, optP_some hc, h3⟩
    · split
      · exact ⟨h1, h2, optP_some hc⟩
      · exact ⟨h1, h2, h3⟩

lemma kmSetD_ok (P : Cmd → Prop) (m : KindMap) (k : String) (c : Cmd)
    (h1 : optP P m.hot) (h2 : optP P m.cold) (h3 : optP P m.auto) (hc : P c) :
    optP P (kmSetD m k c).hot ∧ optP P (kmSetD m k c).cold ∧ optP P (kmSetD m k c).auto := by
  unfold kmSetD
  split
  · exact ⟨h1, h2, h3⟩
  · exact kmSet_ok P m k c h1 h2 h3 hc

lemma kmGet_ok (P : Cmd → Prop) (m : KindMap) (k : String)
    (h1 : optP P m.hot) (h2 : optP P m.cold) (h3 : optP P m.auto) :
    optP P (kmGet m k) := by
  unfold kmGet
  split
  · exact h1
  · split
    · exact h2
    · split
      · exact h3
      · exact optP_none _

lemma climateInfoPhase_ok (P : Cmd → Prop) (st : ClimateAcc) (a : Cmd)
    (h0 : optP P st.current_temp)
    (h1 : optP P st.target_temp_states.hot) (h2 : optP P st.target_temp_states.cold)
    (h3 : optP P st.target_temp_states.auto)
    (h4 : optP P st.set_temp_cmds.hot) (h5 : optP P st.set_temp_cmds.cold)
    (h6 : optP P st.set_temp_cmds.auto) (ha : P a) :
    optP P (climateInfoPhase st a).current_temp ∧
    optP P (climateInfoPhase st a).target_temp_states.hot ∧
    optP P (climateInfoPhase st a).target_temp_states.cold ∧
    optP P (climateInfoPhase st a).target_temp_states.auto ∧
    optP P (climateInfoPhase st a).set_temp_cmds.hot ∧
    optP P (climateInfoPhase st a).set_temp_cmds.cold ∧
    optP P (climateInfoPhase st a).set_temp_cmds.auto := by
  unfold climateInfoPhase
  dsimp only
  split
  · split
    · exact ⟨optP_some ha, h1, h2, h3, h4, h5, h6⟩
    · split
      · have hk := kmSet_ok P st.target_temp_states (setpoint_kind a) a h1 h2 h3 ha
        exact ⟨h0, hk.1, hk.2.1, hk.2.2, h4, h5, h6⟩
      · split
        · have hk := kmSetD_ok P st.target_temp_states "auto" a h1 h2 h3 ha
          exact ⟨h0, hk.1, hk.2.1, hk.2.2, h4, h5, h6⟩
        · exact ⟨h0, h1, h2, h3, h4, h5, h6⟩
  · exact ⟨h0, h1, h2, h3, h4, h5, h6⟩

lemma climateActionPhase_ok (P : Cmd → Prop) (st : ClimateAcc) (a : Cmd)
    (h0 : optP P st.current_temp)
    (h1 : optP P st.target_temp_states.hot) (h2 : optP P st.target_temp_states.cold)
    (h3 : optP P st.target_temp_states.auto)
    (h4 : optP P st.set_temp_cmds.hot) (h5 : optP P st.set_temp_cmds.cold)
    (h6 : optP P st.set_temp_cmds.auto) (ha : P a) :
    optP P (climateActionPhase st a).current_temp ∧
    optP P (climateActionPhase st a).target_temp_states.hot ∧
    optP P (climateActionPhase st a).target_temp_states.cold ∧
    optP P (climateActionPhase st a).target_temp_states.auto ∧
    optP P (climateActionPhase st a).set_temp_cmds.hot ∧
    optP P (climateActionPhase st a).set_temp_cmds.cold ∧
    optP P (climateActionPhase st a).set_temp_cmds.auto := by
  unfold climateActionPhase
  dsimp only
  split
  · split
    · split
      · have hk := kmSet_ok P st.set_temp_cmds (setpoint_kind a) a h4 h5 h6 ha
        exact ⟨h0, h1, h2, h3, hk.1, hk.2.1, hk.2.2⟩
      · split
        · have hk := kmSetD_ok P st.set_temp_cmds "auto" a h4 h5 h6 ha
          exact ⟨h0, h1, h2, h3, hk.1, hk.2.1, hk.2.2⟩
        · exact ⟨h0, h1, h2, h3, h4, h5, h6⟩
    · exact ⟨h0, h1, h2, h3, h4, h5, h6⟩
  · exact ⟨h0, h1, h2, h3, h4, h5, h6⟩

lemma climateStep_ok (P : Cmd → Prop) (st : ClimateAcc) (a : Cmd)
    (h0 : optP P st.current_temp)
    (h1 : optP P st.target_temp_states.hot) (h2 : optP P st.target_temp_states.cold)
    (h3 : optP P st.target_temp_states.auto)
    (h4 : optP P st.set_temp_cmds.hot) (h5 : optP P st.set_temp_cmds.cold)
    (h6 : optP P st.set_temp_cmds.auto) (ha : P a) :
    optP P (climateStep st a).current_temp ∧
    optP P (climateStep st a).target_temp_states.hot ∧
    optP P (climateStep st a).target_temp_states.cold ∧
    optP P (climateStep st a).target_temp_states.auto ∧
    optP P (climateStep st a).set_temp_cmds.hot ∧
    optP P (climateStep st a).set_temp_cmds.cold ∧
    optP P (climateStep st a).set_temp_cmds.auto := by
  unfold climateStep
  have hi := climateInfoPhase_ok P st a h0 h1 h2 h3 h4 h5 h6 ha
  exact climateActionPhase_ok P (climateInfoPhase st a) a hi.1 hi.2.1 hi.2.2.1 hi.2.2.2.1
    hi.2.2.2.2.1 hi.2.2.2.2.2.1 hi.2.2.2.2.2.2 ha

lemma climate_fold_ok (eqlogic : EqLogic) :
    optP (okCmd eqlogic) ((eqlogic.cmds.filter (fun c => !blacklisted c)).foldl
      climateStep {}).current_temp ∧
    optP (okCmd eqlogic) ((eqlogic.cmds.filter (fun c => !blacklisted c)).foldl
      climateStep {}).target_temp_states.hot ∧
    optP (okCmd eqlogic) ((eqlogic.cmds.filter (fun c => !blacklisted c)).foldl
      climateStep {}).target_temp_states.cold ∧
    optP (okCmd eqlogic) ((eqlogic.cmds.filter (fun c => !blacklisted c)).foldl
      climateStep {}).target_temp_states.auto ∧
    optP (okCmd eqlogic) ((eqlogic.cmds.filter (fun c => !blacklisted c)).foldl
      climateStep {}).set_temp_cmds.hot ∧
    optP (okCmd eqlogic) ((eqlogic.cmds.filter (fun c => !blacklisted c)).foldl
      climateStep {}).set_temp_cmds.cold ∧
    optP (okCmd eqlogic) ((eqlogic.cmds.filter (fun c => !blacklisted c)).foldl
      climateStep {}).set_temp_cmds.auto :=
  foldl_preserve climateStep
    (fun st => optP (okCmd eqlogic) st.current_temp ∧
      optP (okCmd eqlogic) st.target_temp_states.hot ∧
      optP (okCmd eqlogic) st.target_temp_states.cold ∧
      optP (okCmd eqlogic) st.target_temp_states.auto ∧
      optP (okCmd eqlogic) st.set_temp_cmds.hot ∧
      optP (okCmd eqlogic) st.set_temp_cmds.cold ∧
      optP (okCmd eqlogic) st.set_temp_cmds.auto)
    (okCmd eqlogic)
    (fun st b hq hb => climateStep_ok (okCmd eqlogic) st b hq.1 hq.2.1 hq.2.2.1 hq.2.2.2.1
      hq.2.2.2.2.1 hq.2.2.2.2.2.1 hq.2.2.2.2.2.2 hb)
    (eqlogic.cmds.filter (fun c => !blacklisted c)) {}
    ⟨optP_none _, optP_none _, optP_none _, optP_none _, optP_none _, optP_none _, optP_none _⟩
    (fun c hc => mem_clean hc)

lemma detect_climate_ok (eqlogic : EqLogic) (d : ClimateDetect)
    (h : detect_climate eqlogic = some d) :
    okCmd eqlogic d.set_temp_cmd ∧ optP (okCmd eqlogic) d.current_temp_cmd ∧
    optP (okCmd eqlogic) d.target_temp_state_cmd ∧
    optP (okCmd eqlogic) d.set_temp_cmds.hot ∧ optP (okCmd eqlogic) d.set_temp_cmds.cold ∧
    optP (okCmd eqlogic) d.set_temp_cmds.auto ∧
    optP (okCmd eqlogic) d.target_temp_state_cmds.hot ∧
    optP (okCmd eqlogic) d.target_temp_state_cmds.cold ∧
    optP (okCmd eqlogic) d.target_temp_state_cmds.auto := by
  unfold detect_climate at h
  dsimp only at h
  split at h
  · exact absurd h (by simp)
  · split at h
    · exact absurd h (by simp)
    · obtain ⟨hct, hth, htc, hta, hsh, hsc, hsa⟩ := climate_fold_ok eqlogic
      split at h
      · exact absurd h (by simp)
      next kind hkind =>
        split at h
        · exact absurd h (by simp)
        next set_temp hset =>
          injection h with h
          subst h
          exact ⟨kmGet_ok _ _ _ hsh hsc hsa set_temp hset, hct,
            orElse_ok _ _ _ (kmGet_ok _ _ _ hth htc hta) (kmGet_ok _ _ _ hth htc hta),
            hsh, hsc, hsa, hth, htc, hta⟩

/-! ### C1: light detector provenance -/

lemma cmSetFirst_ok (P : Cmd → Prop) (m : ColorMap) (k : String) (c : Cmd)
    (h1 : optP P m.red) (h2 : optP P m.green) (h3 : optP P m.blue) (h4 : optP P m.white)
    (hc : P c) :
    optP P (cmSetFirst m k c).red ∧ optP P (cmSetFirst m k c).green ∧
    optP P (cmSetFirst m k c).blue ∧ optP P (cmSetFirst m k c).white := by
  unfold cmSetFirst
  split
  · exact ⟨h1, h2, h3, h4⟩
  · split
    · exact ⟨optP_some hc, h2, h3, h4⟩
    · split
      · exact ⟨h1, optP_some hc, h3, h4⟩
      · split
        · exact ⟨h1, h2, optP_some hc, h4⟩
        · split
          · exact ⟨h1, h2, h3, optP_some hc⟩
          · exact ⟨h1, h2, h3, h4⟩

lemma lightActionStep_ok (P : Cmd → Prop) (st : Option Cmd × Option Cmd × ColorMap) (a : Cmd)
    (h1 : optP P st.1) (h2 : optP P st.2.1)
    (m1 : optP P st.2.2.red) (m2 : optP P st.2.2.green) (m3 : optP P st.2.2.blue)
    (m4 : optP P st.2.2.white) (ha : P a) :
    optP P (lightActionStep st a).1 ∧ optP P (lightActionStep st a).2.1 ∧
    optP P (lightActionStep st a).2.2.red ∧ optP P (lightActionStep st a).2.2.green ∧
    optP P (lightActionStep st a).2.2.blue ∧ optP P (lightActionStep st a).2.2.white := by
  unfold lightActionStep
  dsimp only
  refine ⟨?_, ?_, ?_, ?_, ?_, ?_⟩
  · split
    · exact optP_some ha
    · split
      · exact h1
      · exact h1
  · split
    · exact h2
    · split
      · exact optP_some ha
      · exact h2
  all_goals (
    split
    · split
      · first
        | exact (cmSetFirst_ok P st.2.2 _ a m1 m2 m3 m4 ha).1
        | exact (cmSetFirst_ok P st.2.2 _ a m1 m2 m3 m4 ha).2.1
        | exact (cmSetFirst_ok P st.2.2 _ a m1 m2 m3 m4 ha).2.2.1
        | exact (cmSetFirst_ok P st.2.2 _ a m1 m2 m3 m4 ha).2.2.2
      · first
        | exact m1
        | exact m2
        | exact m3
        | exact m4
    · first
      | exact m1
      | exact m2
      | exact m3
      | exact m4)

lemma lightInfoStep_ok (P : Cmd → Prop) (st : Option Cmd × ColorMap) (a : Cmd)
    (h1 : optP P st.1)
    (m1 : optP P st.2.red) (m2 : optP P st.2.green) (m3 : optP P st.2.blue)
    (m4 : optP P st.2.white) (ha : P a) :
    optP P (lightInfoStep st a).1 ∧
    optP P (lightInfoStep st a).2.red ∧ optP P (lightInfoStep st a).2.green ∧
    optP P (lightInfoStep st a).2.blue ∧ optP P (lightInfoStep st a).2.white := by
  unfold lightInfoStep
  dsimp only
  refine ⟨?_, ?_, ?_, ?_, ?_⟩
  · split
    · exact optP_some ha
    · exact h1
  all_goals (
    split
    · split
      · first
        | exact (cmSetFirst_ok P st.2 _ a m1 m2 m3 m4 ha).1
        | exact (cmSetFirst_ok P st.2 _ a m1 m2 m3 m4 ha).2.1
        | exact (cmSetFirst_ok P st.2 _ a m1 m2 m3 m4 ha).2.2.1
        | exact (cmSetFirst_ok P st.2 _ a m1 m2 m3 m4 ha).2.2.2
      · first
        | exact m1
        | exact m2
        | exact m3
        | exact m4
    · first
      | exact m1
      | exact m2
      | exact m3
      | exact m4)

lemma light_action_fold_ok (eqlogic : EqLogic) :
    optP (okCmd eqlogic)
      (((eqlogic.cmds.filter (fun c => !blacklisted c)).filter
        (fun c => c.type == some "action")).foldl lightActionStep (none, none, {})).1 ∧
    optP (okCmd eqlogic)
      (((eqlogic.cmds.filter (fun c => !blacklisted c)).filter
        (fun c => c.type == some "action")).foldl lightActionStep (none, none, {})).2.1 ∧
    optP (okCmd eqlogic)
      (((eqlogic.cmds.filter (fun c => !blacklisted c)).filter
        (fun c => c.type == some "action")).foldl lightActionStep (none, none, {})).2.2.red ∧
    optP (okCmd eqlogic)
      (((eqlogic.cmds.filter (fun c => !blacklisted c)).filter
        (fun c => c.type == some "action")).foldl lightActionStep (none, none, {})).2.2.green ∧
    optP (okCmd eqlogic)
      (((eqlogic.cmds.filter (fun c => !blacklisted c)).filter
        (fun c => c.type == some "action")).foldl lightActionStep (none, none, {})).2.2.blue ∧
    optP (okCmd eqlogic)
      (((eqlogic.cmds.filter (fun c => !blacklisted c)).filter
        (fun c => c.type == some "action")).foldl lightActionStep (none, none, {})).2.2.white :=
  foldl_preserve lightActionStep
    (fun st => optP (okCmd eqlogic) st.1 ∧ optP (okCmd eqlogic) st.2.1 ∧
      optP (okCmd eqlogic) st.2.2.red ∧ optP (okCmd eqlogic) st.2.2.green ∧
      optP (okCmd eqlogic) st.2.2.blue ∧ optP (okCmd eqlogic) st.2.2.white)
    (okCmd eqlogic)
    (fun st b hq hb => lightActionStep_ok (okCmd eqlogic) st b hq.1 hq.2.1 hq.2.2.1 hq.2.2.2.1
      hq.2.2.2.2.1 hq.2.2.2.2.2 hb)
    ((eqlogic.cmds.filter (fun c => !blacklisted c)).filter (fun c => c.type == some "action"))
    (none, none, {})
    ⟨optP_none _, optP_none _, optP_none _, optP_none _, optP_none _, optP_none _⟩
    (fun c hc => mem_clean (List.mem_filter.mp hc).1)

lemma light_info_fold_ok (eqlogic : EqLogic) :
    optP (okCmd eqlogic)
      (((eqlogic.cmds.filter (fun c => !blacklisted c)).filter
        (fun c => c.type == some "info")).foldl lightInfoStep (none, {})).1 ∧
    optP (okCmd eqlogic)
      (((eqlogic.cmds.filter (fun c => !blacklisted c)).filter
        (fun c => c.type == some "info")).foldl lightInfoStep (none, {})).2.red ∧
    optP (okCmd eqlogic)
      (((eqlogic.cmds.filter (fun c => !blacklisted c)).filter
        (fun c => c.type == some "info")).foldl lightInfoStep (none, {})).2.green ∧
    optP (okCmd eqlogic)
      (((eqlogic.cmds.filter (fun c => !blacklisted c)).filter
        (fun c => c.type == some "info")).foldl lightInfoStep (none, {})).2.blue ∧
    optP (okCmd eqlogic)
      (((eqlogic.cmds.filter (fun c => !blacklisted c)).filter
        (fun c => c.type == some "info")).foldl lightInfoStep (none, {})).2.white :=
  foldl_preserve lightInfoStep
    (fun st => optP (okCmd eqlogic) st.1 ∧ optP (okCmd eqlogic) st.2.red ∧
      optP (okCmd eqlogic) st.2.green ∧ optP (okCmd eqlogic) st.2.blue ∧
      optP (okCmd eqlogic) st.2.white)
    (okCmd eqlogic)
    (fun st b hq hb => lightInfoStep_ok (okCmd eqlogic) st b hq.1 hq.2.1 hq.2.2.1 hq.2.2.2.1
      hq.2.2.2.2 hb)
    ((eqlogic.cmds.filter (fun c => !blacklisted c)).filter (fun c => c.type == some "info"))
    (none, {})
    ⟨optP_none _, optP_none _, optP_none _, optP_none _, optP_none _⟩
    (fun c hc => mem_clean (List.mem_filter.mp hc).1)

lemma detect_light_ok (eqlogic : EqLogic) (d : LightDetect)
    (h : detect_light eqlogic = some d) :
    optP (okCmd eqlogic) d.on_cmd ∧ optP (okCmd eqlogic) d.off_cmd ∧
    optP (okCmd eqlogic) d.brightness_set_cmd ∧ optP (okCmd eqlogic) d.state_cmd ∧
    optP (okCmd eqlogic) d.brightness_state_cmd ∧
    (optP (okCmd eqlogic) d.color_set_cmds.red ∧ optP (okCmd eqlogic) d.color_set_cmds.green ∧
     optP (okCmd eqlogic) d.color_set_cmds.blue ∧ optP (okCmd eqlogic) d.color_set_cmds.white) ∧
    (optP (okCmd eqlogic) d.color_state_cmds.red ∧
     optP (okCmd eqlogic) d.color_state_cmds.green ∧
     optP (okCmd eqlogic) d.color_state_cmds.blue ∧
     optP (okCmd eqlogic) d.color_state_cmds.white) := by
  unfold detect_light at h
  dsimp only at h
  split at h
  · exact absurd h (by simp)
  · split at h
    · exact absurd h (by simp)
    · split at h
      · exact absurd h (by simp)
      · obtain ⟨ha1, ha2, ha3, ha4, ha5, ha6⟩ := light_action_fold_ok eqlogic
        obtain ⟨hi1, hi2, hi3, hi4, hi5⟩ := light_info_fold_ok eqlogic
        split at h
        · injection h with h
          subst h
          refine ⟨ha1, ha2, ?_, hi1, ?_, ⟨ha3, ha4, ha5, ha6⟩, ⟨hi2, hi3, hi4, hi5⟩⟩
          · intro c hc
            have hm := List.mem_of_find?_eq_some hc
            exact mem_clean (List.mem_filter.mp (List.mem_filter.mp hm).1).1
          · intro c hc
            have hm := List.mem_of_find?_eq_some hc
            exact mem_clean (List.mem_filter.mp hm).1
        · exact absurd h (by simp)

/-! ### C1: command-id reference collectors -/

/-- The command ids referenced by an alarm action binding. -/
def alarmActionRefs (a : AlarmAction) : List Int :=
  a.state_cmd_id ::
    ([a.arm_home_cmd_id, a.arm_away_cmd_id, a.arm_night_cmd_id, a.disarm_cmd_id].filterMap id)

/-- The command ids referenced by a switch action binding. -/
def switchActionRefs (a : SwitchAction) : List Int :=
  [a.state_cmd_id, a.on_cmd_id, a.off_cmd_id]

/-- The command ids referenced by a water-heater action binding. -/
def whActionRefs (a : WHAction) : List Int :=
  [a.state_cmd_id, a.on_cmd_id, a.off_cmd_id]

/-- The command ids referenced by a cover action binding. -/
def coverActionRefs (a : CoverAction) : List Int :=
  [a.position_state_cmd_id, a.open_cmd_id, a.close_cmd_id] ++
    ([a.stop_cmd_id, a.set_position_cmd_id].filterMap id)

/-- The command ids referenced by a number action binding. -/
def numberActionRefs (a : NumberAction) : List Int :=
  [a.state_cmd_id, a.set_cmd_id]

/-- The command ids referenced by a climate action binding. -/
def climateActionRefs (a : ClimateAction) : List Int :=
  a.set_temperature_cmd_id ::
    ([a.set_hot, a.set_auto, a.set_cold, a.current_temperature_cmd_id,
      a.temperature_state_cmd_id, a.state_hot, a.state_auto, a.state_cold].filterMap id)

/-- The command ids referenced by a light action binding. -/
def lightActionRefs (a : LightAction) : List Int :=
  [a.on_cmd_id, a.off_cmd_id, a.brightness_cmd_id, a.state_cmd_id, a.brightness_state_cmd_id,
   a.red.cmd_id, a.red.state_cmd_id, a.green.cmd_id, a.green.state_cmd_id,
   a.blue.cmd_id, a.blue.state_cmd_id, a.white.cmd_id, a.white.state_cmd_id].filterMap id

/-- The command ids referenced by a select action binding. -/
def selectActionRefs (a : SelectAction) : List Int :=
  a.state_cmd_id :: a.options.map (fun p => p.2.cmd_id)

/-- The command ids referenced by a pilot-climate action binding. -/
def pilotActionRefs (a : PilotAction) : List Int :=
  a.state_cmd_id :: (a.mode.map (fun p => p.2.cmd_id) ++ a.preset.map (fun p => p.2.cmd_id))

/-- Collect references from an optional payload. -/
def optRefs {α : Type} (f : α → List Int) : Option α → List Int
  | some a => f a
  | none => []

/-- All command ids referenced by one device entry of the action document. -/
def deviceActionRefs (da : DeviceActions) : List Int :=
  optRefs alarmActionRefs da.alarm_control_panel ++ optRefs lightActionRefs da.light ++
  optRefs switchActionRefs da.switch ++ optRefs whActionRefs da.water_heater ++
  optRefs coverActionRefs da.cover ++ optRefs numberActionRefs da.number ++
  optRefs selectActionRefs da.select ++ optRefs pilotActionRefs da.pilot_climate ++
  optRefs climateActionRefs da.climate

/-- All command ids referenced by an action-binding document. -/
def actionsRefs (doc : ActionsDoc) : List Int :=
  doc.alarm_control_panel.flatMap (fun p => alarmActionRefs p.2) ++
  doc.light.flatMap (fun p => lightActionRefs p.2) ++
  doc.switch.flatMap (fun p => switchActionRefs p.2) ++
  doc.water_heater.flatMap (fun p => whActionRefs p.2) ++
  doc.cover.flatMap (fun p => coverActionRefs p.2) ++
  doc.number.flatMap (fun p => numberActionRefs p.2) ++
  doc.select.flatMap (fun p => selectActionRefs p.2) ++
  doc.pilot_climate.flatMap (fun p => pilotActionRefs p.2) ++
  doc.climate.flatMap (fun p => climateActionRefs p.2)

/-- All command ids referenced by the entity document (sensor and
binary-sensor `cmd_id` fields plus the pilot-climate current-temperature
reference). -/
def entityCmdRefs (doc : EntityDoc) : List Int :=
  doc.sensor.map (fun s => s.cmd_id) ++ doc.binary_sensor.map (fun b => b.cmd_id) ++
  doc.climate.filterMap (fun c => c.current_temperature_cmd_id)

/-- The entity-document command-id references outside the climate
current-temperature field. -/
def entitySensorBinaryRefs (doc : EntityDoc) : List Int :=
  doc.sensor.map (fun s => s.cmd_id) ++ doc.binary_sensor.map (fun b => b.cmd_id)

/-! ### C1: payload reference provenance -/

lemma okId_map {eqlogic : EqLogic} {i : Int} (z : Option Cmd) (hz : optP (okCmd eqlogic) z)
    (hm : z.map (fun x => x.id) = some i) : okId eqlogic i := by
  rw [Option.map_eq_some'] at hm
  obtain ⟨x, hx, hxi⟩ := hm
  exact ⟨x, hz x hx, hxi⟩

lemma acpActionOf_refs (eqlogic : EqLogic) (rule : Option Rule) (config : DiscoveryConfig)
    (acp : Option AlarmDetect) (a : AlarmAction)
    (hdet : ∀ x, acp = some x → detect_alarm_control_panel eqlogic = some x)
    (h : acpActionOf rule config acp = some a) :
    ∀ i ∈ alarmActionRefs a, okId eqlogic i := by
  cases hacp : acp with
  | none =>
    rw [hacp] at h
    exact absurd h (by simp [acpActionOf])
  | some x =>
    rw [hacp] at h
    unfold acpActionOf at h
    dsimp only at h
    split at h
    · exact absurd h (by simp)
    · injection h with h
      subst h
      obtain ⟨hst, hh, haw, hnight, hdis⟩ := detect_alarm_ok eqlogic x (hdet x hacp)
      intro i hi
      unfold alarmActionRefs at hi
      dsimp only at hi
      have hk : ∀ (z : Option Cmd), optP (okCmd eqlogic) z →
          (match z with
            | some cmd =>
              if rule.isNone || allows_cmd rule cmd config then some cmd.id else none
            | none => none) = some i → okId eqlogic i := by
        intro z hz hzk
        cases z with
        | none => exact absurd hzk (by simp)
        | some cmd =>
          dsimp only at hzk
          split at hzk
          · injection hzk with h2
            exact ⟨cmd, hz cmd rfl, h2⟩
          · exact absurd hzk (by simp)
      rcases List.mem_cons.mp hi with hi | hi
      · exact ⟨x.state_cmd, hst, hi.symm⟩
      · obtain ⟨oc, hoc, hoci⟩ := List.mem_filterMap.mp hi
        simp only [id_eq] at hoci
        simp only [List.mem_cons, List.not_mem_nil, or_false] at hoc
        rcases hoc with hoc | hoc | hoc | hoc <;> subst hoc
        · exact hk x.arm_home_cmd hh hoci
        · exact hk x.arm_away_cmd haw hoci
        · exact hk x.arm_night_cmd hnight hoci
        · exact hk x.disarm_cmd hdis hoci

lemma swActionOf_refs (eqlogic : EqLogic) (rule : Option Rule) (config : DiscoveryConfig)
    (gate : Bool) (a : SwitchAction)
    (h : swActionOf rule config gate (detect_switch eqlogic) = some a) :
    ∀ i ∈ switchActionRefs a, okId eqlogic i := by
  cases hsw : detect_switch eqlogic with
  | none =>
    rw [hsw] at h
    rw [swActionOf_none] at h
    exact absurd h (by simp)
  | some sw =>
    rw [hsw] at h
    unfold swActionOf at h
    split at h
    · dsimp only at h
      split at h
      · injection h with h
        subst h
        obtain ⟨hst, hon, hoff⟩ := detect_switch_ok eqlogic sw hsw
        intro i hi
        unfold switchActionRefs at hi
        dsimp only at hi
        simp only [List.mem_cons, List.not_mem_nil, or_false] at hi
        rcases hi with hi | hi | hi
        · exact ⟨sw.state_cmd, hst, hi.symm⟩
        · exact ⟨sw.on_cmd, hon, hi.symm⟩
        · exact ⟨sw.off_cmd, hoff, hi.symm⟩
      · exact absurd h (by simp)
    · exact absurd h (by simp)

lemma whActionOf_refs (eqlogic : EqLogic) (rule : Option Rule) (config : DiscoveryConfig)
    (wh : Option WHDetect) (a : WHAction)
    (hdet : ∀ x, wh = some x → detect_water_heater eqlogic rule config = some x)
    (h : whActionOf wh = some a) :
    ∀ i ∈ whActionRefs a, okId eqlogic i := by
  cases hwh : wh with
  | none =>
    rw [hwh] at h
    exact absurd h (by simp [whActionOf])
  | some w =>
    rw [hwh] at h
    unfold whActionOf at h
    simp only [Option.map_some', Option.some.injEq] at h
    subst h
    obtain ⟨hst, hon, hoff⟩ := detect_wh_ok eqlogic rule config w (hdet w hwh)
    intro i hi
    unfold whActionRefs at hi
    dsimp only at hi
    simp only [List.mem_cons, List.not_mem_nil, or_false] at hi
    rcases hi with hi | hi | hi
    · exact ⟨w.state_cmd, hst, hi.symm⟩
    · exact ⟨w.on_cmd, hon, hi.symm⟩
    · exact ⟨w.off_cmd, hoff, hi.symm⟩

lemma coverActionOf_refs (eqlogic : EqLogic) (rule : Option Rule) (config : DiscoveryConfig)
    (cv : Option CoverDetect) (a : CoverAction)
    (hdet : ∀ x, cv = some x → detect_cover eqlogic = some x)
    (h : coverActionOf rule config cv = some a) :
    ∀ i ∈ coverActionRefs a, okId eqlogic i := by
  cases hcv : cv with
  | none =>
    rw [hcv] at h
    exact absurd h (by simp [coverActionOf])
  | some c =>
    rw [hcv] at h
    unfold coverActionOf at h
    dsimp only at h
    split at h
    · injection h with h
      subst h
      obtain ⟨hup, hdown, hpos, hstop, hsetp⟩ := detect_cover_ok eqlogic c (hdet c hcv)
      intro i hi
      unfold coverActionRefs at hi
      dsimp only at hi
      rcases List.mem_append.mp hi with hi | hi
      · simp only [List.mem_cons, List.not_mem_nil, or_false] at hi
        rcases hi with hi | hi | hi
        · exact ⟨c.position_state_cmd, hpos, hi.symm⟩
        · exact ⟨c.up_cmd, hup, hi.symm⟩
        · exact ⟨c.down_cmd, hdown, hi.symm⟩
      · obtain ⟨oc, hoc, hoci⟩ := List.mem_filterMap.mp hi
        simp only [id_eq] at hoci
        simp only [List.mem_cons, List.not_mem_nil, or_false] at hoc
        rcases hoc with hoc | hoc <;> subst hoc
        · exact okId_map c.stop_cmd hstop hoci
        · exact okId_map c.set_position_cmd hsetp hoci
    · exact absurd h (by simp)

lemma numberActionOf_refs (eqlogic : EqLogic) (rule : Option Rule) (config : DiscoveryConfig)
    (nb : Option NumberDetect) (a : NumberAction)
    (hdet : ∀ x, nb = some x → detect_number eqlogic = some x)
    (h : numberActionOf rule config nb = some a) :
    ∀ i ∈ numberActionRefs a, okId eqlogic i := by
  cases hnb : nb with
  | none =>
    rw [hnb] at h
    exact absurd h (by simp [numberActionOf])
  | some n =>
    rw [hnb] at h
    unfold numberActionOf at h
    dsimp only at h
    split at h
    · injection h with h
      subst h
      obtain ⟨hset, hstate⟩ := detect_number_ok eqlogic n (hdet n hnb)
      intro i hi
      unfold numberActionRefs at hi
      dsimp only at hi
      simp only [List.mem_cons, List.not_mem_nil, or_false] at hi
      rcases hi with hi | hi
      · exact ⟨n.state_cmd, hstate, hi.symm⟩
      · exact ⟨n.set_cmd, hset, hi.symm⟩
    · exact absurd h (by simp)

lemma climateActionOf_refs (eqlogic : EqLogic) (rule : Option Rule) (config : DiscoveryConfig)
    (cl : Option ClimateDetect) (a : ClimateAction)
    (hdet : ∀ x, cl = some x → detect_climate eqlogic = some x)
    (h : climateActionOf rule config cl = some a) :
    ∀ i ∈ climateActionRefs a, okId eqlogic i := by
  cases hcl : cl with
  | none =>
    rw [hcl] at h
    exact absurd h (by simp [climateActionOf])
  | some c =>
    rw [hcl] at h
    unfold climateActionOf at h
    dsimp only at h
    split at h
    · exact absurd h (by simp)
    · injection h with h
      subst h
      obtain ⟨hset, hct, hts, hsh, hsc, hsa, hth, htc, hta⟩ :=
        detect_climate_ok eqlogic c (hdet c hcl)
      intro i hi
      unfold climateActionRefs at hi
      dsimp only at hi
      rcases List.mem_cons.mp hi with hi | hi
      · exact ⟨c.set_temp_cmd, hset, hi.symm⟩
      · obtain ⟨oc, hoc, hoci⟩ := List.mem_filterMap.mp hi
        simp only [id_eq] at hoci
        simp only [List.mem_cons, List.not_mem_nil, or_false] at hoc
        rcases hoc with hoc | hoc | hoc | hoc | hoc | hoc | hoc | hoc <;> subst hoc
        · exact okId_map c.set_temp_cmds.hot hsh hoci
        · exact okId_map c.set_temp_cmds.auto hsa hoci
        · exact okId_map c.set_temp_cmds.cold hsc hoci
        · exact okId_map c.current_temp_cmd hct hoci
        · exact okId_map c.target_temp_state_cmd hts hoci
        · exact okId_map c.target_temp_state_cmds.hot hth hoci
        · exact okId_map c.target_temp_state_cmds.auto hta hoci
        · exact okId_map c.target_temp_state_cmds.cold htc hoci

lemma lightActionOf_refs (eqlogic : EqLogic) (rule : Option Rule) (config : DiscoveryConfig)
    (lt : Option LightDetect) (a : LightAction)
    (hdet : ∀ x, lt = some x → detect_light eqlogic = some x)
    (h : lightActionOf rule config lt = some a) :
    ∀ i ∈ lightActionRefs a, okId eqlogic i := by
  cases hlt : lt with
  | none =>
    rw [hlt] at h
    exact absurd h (by simp [lightActionOf])
  | some l =>
    rw [hlt] at h
    unfold lightActionOf at h
    dsimp only at h
    split at h
    · exact absurd h (by simp)
    · injection h with h
      subst h
      obtain ⟨hon, hoff, hbs, hst, hbst, ⟨hcsr, hcsg, hcsb, hcsw⟩, hctr, hctg, hctb, hctw⟩ :=
        detect_light_ok eqlogic l (hdet l hlt)
      intro i hi
      unfold lightActionRefs lightPayload at hi
      dsimp only at hi
      obtain ⟨oc, hoc, hoci⟩ := List.mem_filterMap.mp hi
      simp only [id_eq] at hoci
      simp only [List.mem_cons, List.not_mem_nil, or_false] at hoc
      rcases hoc with hoc|hoc|hoc|hoc|hoc|hoc|hoc|hoc|hoc|hoc|hoc|hoc|hoc <;> subst hoc
      · exact okId_map l.on_cmd hon hoci
      · exact okId_map l.off_cmd hoff hoci
      · exact okId_map l.brightness_set_cmd hbs hoci
      · exact okId_map l.state_cmd hst hoci
      · exact okId_map l.brightness_state_cmd hbst hoci
      · exact okId_map l.color_set_cmds.red hcsr hoci
      · exact okId_map l.color_state_cmds.red hctr hoci
      · exact okId_map l.color_set_cmds.green hcsg hoci
      · exact okId_map l.color_state_cmds.green hctg hoci
      · exact okId_map l.color_set_cmds.blue hcsb hoci
      · exact okId_map l.color_state_cmds.blue hctb hoci
      · exact okId_map l.color_set_cmds.white hcsw hoci
      · exact okId_map l.color_state_cmds.white hctw hoci

lemma strMapInsert_mem (m : List (String × OptPayload)) (k : String) (v : OptPayload)
    (pr : String × OptPayload) (h : pr ∈ strMapInsert m k v) : pr ∈ m ∨ pr.2 = v := by
  unfold strMapInsert at h
  split at h
  · obtain ⟨p, hp, hpe⟩ := List.mem_map.mp h
    by_cases hk : (p.1 == k) = true
    · rw [if_pos hk] at hpe
      right
      rw [← hpe]
    · rw [if_neg hk] at hpe
      left
      rw [← hpe]
      exact hp
  · rcases List.mem_append.mp h with h | h
    · exact Or.inl h
    · right
      rw [List.mem_singleton.mp h]

lemma selOptStep_ok (eqlogic : EqLogic) (m : List (String × OptPayload)) (o : PilotOpt)
    (hq : ∀ pr ∈ m, okId eqlogic pr.2.cmd_id) (ho : okCmd eqlogic o.cmd) :
    ∀ pr ∈ selOptStep m o, okId eqlogic pr.2.cmd_id := by
  intro pr hpr
  unfold selOptStep at hpr
  rcases strMapInsert_mem _ _ _ _ hpr with h | h
  · exact hq pr h
  · rw [h]
    exact ⟨o.cmd, ho, rfl⟩

lemma addCmd_ok (eqlogic : EqLogic) (rule : Option Rule) (config : DiscoveryConfig)
    (t : List (String × OptPayload)) (key : String) (opt : Option PilotOpt)
    (ht : ∀ pr ∈ t, okId eqlogic pr.2.cmd_id)
    (hopt : ∀ o, opt = some o → okCmd eqlogic o.cmd) :
    ∀ pr ∈ addCmd rule config t key opt, okId eqlogic pr.2.cmd_id := by
  unfold addCmd
  cases opt with
  | none => exact ht
  | some o =>
    dsimp only
    split
    · exact ht
    · intro pr hpr
      rcases strMapInsert_mem _ _ _ _ hpr with h | h
      · exact ht pr h
      · rw [h]
        exact ⟨o.cmd, hopt o rfl, rfl⟩

lemma selectPilotActionOf_refs (eqlogic : EqLogic) (rule : Option Rule)
    (config : DiscoveryConfig) (als alp : Bool) (sel0 : Option PilotDetect)
    (hdet : ∀ x, sel0 = some x → detect_pilot_wire eqlogic = some x) :
    (∀ a, (selectPilotActionOf rule config als alp sel0).1 = some a →
      ∀ i ∈ selectActionRefs a, okId eqlogic i) ∧
    (∀ a, (selectPilotActionOf rule config als alp sel0).2 = some a →
      ∀ i ∈ pilotActionRefs a, okId eqlogic i) := by
  cases hs0 : sel0 with
  | none =>
    unfold selectPilotActionOf
    dsimp only
    exact ⟨fun a h => absurd h (by simp), fun a h => absurd h (by simp)⟩
  | some s =>
    have hds := detect_pilot_ok eqlogic s (hdet s hs0)
    have hopts : ∀ o ∈ List.filter (fun o => !(rule.isSome && !allows_cmd rule o.cmd config))
        s.options, okCmd eqlogic o.cmd :=
      fun o ho => hds.2 o (List.mem_filter.mp ho).1
    have hroles := pilot_wire_cmds_mem
      (List.filter (fun o => !(rule.isSome && !allows_cmd rule o.cmd config)) s.options)
    have hQ := foldl_preserve selOptStep (fun m => ∀ pr ∈ m, okId eqlogic pr.2.cmd_id)
      (fun o => okCmd eqlogic o.cmd) (fun m o hq ho => selOptStep_ok eqlogic m o hq ho)
      (List.filter (fun o => !(rule.isSome && !allows_cmd rule o.cmd config)) s.options) []
      (fun pr hpr => absurd hpr (List.not_mem_nil _)) hopts
    unfold selectPilotActionOf
    dsimp only
    split
    · exact ⟨fun a h => absurd h (by simp), fun a h => absurd h (by simp)⟩
    next detected hdeq =>
      have hdet2 : s = detected := by
        split at hdeq
        · exact absurd hdeq (by simp)
        · exact Option.some.inj hdeq
      subst hdet2
      dsimp only
      constructor
      · intro a h
        split at h
        · injection h with h
          subst h
          intro i hi
          unfold selectActionRefs at hi
          dsimp only at hi
          rcases List.mem_cons.mp hi with hi | hi
          · exact ⟨s.state_cmd, hds.1, hi.symm⟩
          · obtain ⟨pr, hpr, hpri⟩ := List.mem_map.mp hi
            rw [← hpri]
            exact hQ pr hpr
        · exact absurd h (by simp)
      · intro a h
        split at h
        · split at h
          · split at h
            · injection h with h
              subst h
              have hoffr : ∀ o, (pilot_wire_cmds (List.filter
                  (fun o => !(rule.isSome && !allows_cmd rule o.cmd config)) s.options)).off =
                  some o → okCmd eqlogic o.cmd := fun o ho => hopts o (hroles.1 o ho)
              have hawayr : ∀ o, (pilot_wire_cmds (List.filter
                  (fun o => !(rule.isSome && !allows_cmd rule o.cmd config)) s.options)).away =
                  some o → okCmd eqlogic o.cmd := fun o ho => hopts o (hroles.2.1 o ho)
              have hecor : ∀ o, (pilot_wire_cmds (List.filter
                  (fun o => !(rule.isSome && !allows_cmd rule o.cmd config)) s.options)).eco =
                  some o → okCmd eqlogic o.cmd := fun o ho => hopts o (hroles.2.2.1 o ho)
              have hc2r : ∀ o, (pilot_wire_cmds (List.filter
                  (fun o => !(rule.isSome && !allows_cmd rule o.cmd config))
                    s.options)).comfort_2 =
                  some o → okCmd eqlogic o.cmd := fun o ho => hopts o (hroles.2.2.2.1 o ho)
              have hc1r : ∀ o, (pilot_wire_cmds (List.filter
                  (fun o => !(rule.isSome && !allows_cmd rule o.cmd config))
                    s.options)).comfort_1 =
                  some o → okCmd eqlogic o.cmd := fun o ho => hopts o (hroles.2.2.2.2.1 o ho)
              have hcomfr : ∀ o, (pilot_wire_cmds (List.filter
                  (fun o => !(rule.isSome && !allows_cmd rule o.cmd config)) s.options)).comfort =
                  some o → okCmd eqlogic o.cmd := fun o ho => hopts o (hroles.2.2.2.2.2 o ho)
              have hmode := addCmd_ok eqlogic rule config _ "off" _
                (addCmd_ok eqlogic rule config [] "heat" _
                  (fun pr hpr => absurd hpr (List.not_mem_nil _)) hcomfr) hoffr
              have hpreset := addCmd_ok eqlogic rule config _ "none" _
                (addCmd_ok eqlogic rule config _ "comfort-2" _
                  (addCmd_ok eqlogic rule config _ "comfort-1" _
                    (addCmd_ok eqlogic rule config _ "away" _
                      (addCmd_ok eqlogic rule config _ "eco" _
                        (addCmd_ok eqlogic rule config [] "comfort" _
                          (fun pr hpr => absurd hpr (List.not_mem_nil _)) hcomfr) hecor)
                      hawayr) hc1r) hc2r) hoffr
              intro i hi
              unfold pilotActionRefs at hi
              dsimp only at hi
              rcases List.mem_cons.mp hi with hi | hi
              · exact ⟨s.state_cmd, hds.1, hi.symm⟩
              · rcases List.mem_append.mp hi with hi | hi
                · obtain ⟨pr, hpr, hpri⟩ := List.mem_map.mp hi
                  rw [← hpri]
                  exact hmode pr hpr
                · obtain ⟨pr, hpr, hpri⟩ := List.mem_map.mp hi
                  rw [← hpri]
                  exact hpreset pr hpr
            · exact absurd h (by simp)
          · exact absurd h (by simp)
        · exact absurd h (by simp)

/-! ### C1: assembling the per-device action provenance -/

lemma genActions_alarm_eq (config : DiscoveryConfig) (eq : EqLogic) :
    (genActionsForDevice config eq).alarm_control_panel =
    acpActionOf (find_rule eq config) config
      (if (rule_platform (find_rule eq config) = none ||
           rule_platform (find_rule eq config) = some "alarm_control_panel")
       then detect_alarm_control_panel eq else none) := rfl

lemma genActions_light_eq (config : DiscoveryConfig) (eq : EqLogic) :
    (genActionsForDevice config eq).light =
    lightActionOf (find_rule eq config) config
      (if (rule_platform (find_rule eq config) = none ||
           rule_platform (find_rule eq config) = some "light")
       then detect_light eq else none) := rfl

lemma genActions_switch_eq (config : DiscoveryConfig) (eq : EqLogic) :
    (genActionsForDevice config eq).switch =
    swActionOf (find_rule eq config) config
      ((rule_platform (find_rule eq config) = none ||
        rule_platform (find_rule eq config) = some "switch") &&
       (if (rule_platform (find_rule eq config) = none ||
            rule_platform (find_rule eq config) = some "light")
        then detect_light eq else none).isNone &&
       (if (rule_platform (find_rule eq config) = none ||
            rule_platform (find_rule eq config) = some "water_heater")
        then detect_water_heater eq (find_rule eq config) config else none).isNone)
      (detect_switch eq) := rfl

lemma genActions_wh_eq (config : DiscoveryConfig) (eq : EqLogic) :
    (genActionsForDevice config eq).water_heater =
    whActionOf
      (if (rule_platform (find_rule eq config) = none ||
           rule_platform (find_rule eq config) = some "water_heater")
       then detect_water_heater eq (find_rule eq config) config else none) := rfl

lemma genActions_cover_eq (config : DiscoveryConfig) (eq : EqLogic) :
    (genActionsForDevice config eq).cover =
    coverActionOf (find_rule eq config) config
      (if (rule_platform (find_rule eq config) = none ||
           rule_platform (find_rule eq config) = some "cover")
       then detect_cover eq else none) := rfl

lemma genActions_number_eq (config : DiscoveryConfig) (eq : EqLogic) :
    (genActionsForDevice config eq).number =
    numberActionOf (find_rule eq config) config
      (if (rule_platform (find_rule eq config) = none ||
           rule_platform (find_rule eq config) = some "number")
       then detect_number eq else none) := rfl

lemma genActions_climate_eq (config : DiscoveryConfig) (eq : EqLogic) :
    (genActionsForDevice config eq).climate =
    climateActionOf (find_rule eq config) config
      (if (rule_platform (find_rule eq config) = none ||
           rule_platform (find_rule eq config) = some "climate")
       then detect_climate eq else none) := rfl

lemma genActions_select_eq (config : DiscoveryConfig) (eq : EqLogic) :
    (genActionsForDevice config eq).select =
    (selectPilotActionOf (find_rule eq config) config
      (rule_platform (find_rule eq config) = none ||
       rule_platform (find_rule eq config) = some "select")
      (rule_platform (find_rule eq config) = none ||
       rule_platform (find_rule eq config) = some "climate")
      (if ((rule_platform (find_rule eq config) = none ||
            rule_platform (find_rule eq config) = some "select") ||
           (rule_platform (find_rule eq config) = none ||
            rule_platform (find_rule eq config) = some "climate"))
       then detect_pilot_wire eq else none)).1 := rfl

lemma genActions_pilot_eq (config : DiscoveryConfig) (eq : EqLogic) :
    (genActionsForDevice config eq).pilot_climate =
    (selectPilotActionOf (find_rule eq config) config
      (rule_platform (find_rule eq config) = none ||
       rule_platform (find_rule eq config) = some "select")
      (rule_platform (find_rule eq config) = none ||
       rule_platform (find_rule eq config) = some "climate")
      (if ((rule_platform (find_rule eq config) = none ||
            rule_platform (find_rule eq config) = some "select") ||
           (rule_platform (find_rule eq config) = none ||
            rule_platform (find_rule eq config) = some "climate"))
       then detect_pilot_wire eq else none)).2 := rfl

lemma deviceActionRefs_ok (config : DiscoveryConfig) (eq : EqLogic) :
    ∀ i ∈ deviceActionRefs (genActionsForDevice config eq), okId eq i := by
  intro i hi
  unfold deviceActionRefs at hi
  simp only [List.mem_append, or_assoc] at hi
  rcases hi with hi | hi | hi | hi | hi | hi | hi | hi | hi
  · cases hx : (genActionsForDevice config eq).alarm_control_panel with
    | none => rw [hx] at hi; exact absurd hi (by simp [optRefs])
    | some a =>
      rw [hx] at hi
      rw [genActions_alarm_eq] at hx
      exact acpActionOf_refs eq _ config _ a (fun x hxx => ifOpt_some _ _ _ hxx) hx i hi
  · cases hx : (genActionsForDevice config eq).light with
    | none => rw [hx] at hi; exact absurd hi (by simp [optRefs])
    | some a =>
      rw [hx] at hi
      rw [genActions_light_eq] at hx
      exact lightActionOf_refs eq _ config _ a (fun x hxx => ifOpt_some _ _ _ hxx) hx i hi
  · cases hx : (genActionsForDevice config eq).switch with
    | none => rw [hx] at hi; exact absurd hi (by simp [optRefs])
    | some a =>
      rw [hx] at hi
      rw [genActions_switch_eq] at hx
      exact swActionOf_refs eq _ config _ a hx i hi
  · cases hx : (genActionsForDevice config eq).water_heater with
    | none => rw [hx] at hi; exact absurd hi (by simp [optRefs])
    | some a =>
      rw [hx] at hi
      rw [genActions_wh_eq] at hx
      exact whActionOf_refs eq _ config _ a (fun x hxx => ifOpt_some _ _ _ hxx) hx i hi
  · cases hx : (genActionsForDevice config eq).cover with
    | none => rw [hx] at hi; exact absurd hi (by simp [optRefs])
    | some a =>
      rw [hx] at hi
      rw [genActions_cover_eq] at hx
      exact coverActionOf_refs eq _ config _ a (fun x hxx => ifOpt_some _ _ _ hxx) hx i hi
  · cases hx : (genActionsForDevice config eq).number with
    | none => rw [hx] at hi; exact absurd hi (by simp [optRefs])
    | some a =>
      rw [hx] at hi
      rw [genActions_number_eq] at hx
      exact numberActionOf_refs eq _ config _ a (fun x hxx => ifOpt_some _ _ _ hxx) hx i hi
  · cases hx : (genActionsForDevice config eq).select with
    | none => rw [hx] at hi; exact absurd hi (by simp [optRefs])
    | some a =>
      rw [hx] at hi
      rw [genActions_select_eq] at hx
      exact (selectPilotActionOf_refs eq _ config _ _ _
        (fun x hxx => ifOpt_some _ _ _ hxx)).1 a hx i hi
  · cases hx : (genActionsForDevice config eq).pilot_climate with
    | none => rw [hx] at hi; exact absurd hi (by simp [optRefs])
    | some a =>
      rw [hx] at hi
      rw [genActions_pilot_eq] at hx
      exact (selectPilotActionOf_refs eq _ config _ _ _
        (fun x hxx => ifOpt_some _ _ _ hxx)).2 a hx i hi
  · cases hx : (genActionsForDevice config eq).climate with
    | none => rw [hx] at hi; exact absurd hi (by simp [optRefs])
    | some a =>
      rw [hx] at hi
      rw [genActions_climate_eq] at hx
      exact climateActionOf_refs eq _ config _ a (fun x hxx => ifOpt_some _ _ _ hxx) hx i hi

lemma actionsRefs_ok (store : Store) (config : DiscoveryConfig) :
    ∀ i ∈ actionsRefs (generate_actions store config),
      ∃ p, p ∈ sortedEntries store ∧ okId p.2 i := by
  intro i hi
  unfold actionsRefs generate_actions at hi
  dsimp only at hi
  simp only [List.mem_append, or_assoc] at hi
  rcases hi with hi | hi | hi | hi | hi | hi | hi | hi | hi
  · obtain ⟨pair, hpair, hix⟩ := List.mem_flatMap.mp hi
    obtain ⟨q, hq, hmap⟩ := List.mem_filterMap.mp hpair
    rw [Option.map_eq_some'] at hmap
    obtain ⟨a, hXa, hpa⟩ := hmap
    obtain ⟨p, hp, hqp⟩ := List.mem_map.mp hq
    subst hqp
    subst hpa
    dsimp only at hXa
    refine ⟨p, hp, deviceActionRefs_ok config p.2 i ?_⟩
    unfold deviceActionRefs
    simp only [List.mem_append, or_assoc]
    refine Or.inl ?_
    rw [hXa]
    exact hix
  · obtain ⟨pair, hpair, hix⟩ := List.mem_flatMap.mp hi
    obtain ⟨q, hq, hmap⟩ := List.mem_filterMap.mp hpair
    rw [Option.map_eq_some'] at hmap
    obtain ⟨a, hXa, hpa⟩ := hmap
    obtain ⟨p, hp, hqp⟩ := List.mem_map.mp hq
    subst hqp
    subst hpa
    dsimp only at hXa
    refine ⟨p, hp, deviceActionRefs_ok config p.2 i ?_⟩
    unfold deviceActionRefs
    simp only [List.mem_append, or_assoc]
    refine Or.inr (Or.inl ?_)
    rw [hXa]
    exact hix
  · obtain ⟨pair, hpair, hix⟩ := List.mem_flatMap.mp hi
    obtain ⟨q, hq, hmap⟩ := List.mem_filterMap.mp hpair
    rw [Option.map_eq_some'] at hmap
    obtain ⟨a, hXa, hpa⟩ := hmap
    obtain ⟨p, hp, hqp⟩ := List.mem_map.mp hq
    subst hqp
    subst hpa
    dsimp only at hXa
    refine ⟨p, hp, deviceActionRefs_ok config p.2 i ?_⟩
    unfold deviceActionRefs
    simp only [List.mem_append, or_assoc]
    refine Or.inr (Or.inr (Or.inl ?_))
    rw [hXa]
    exact hix
  · obtain ⟨pair, hpair, hix⟩ := List.mem_flatMap.mp hi
    obtain ⟨q, hq, hmap⟩ := List.mem_filterMap.mp hpair
    rw [Option.map_eq_some'] at hmap
    obtain ⟨a, hXa, hpa⟩ := hmap
    obtain ⟨p, hp, hqp⟩ := List.mem_map.mp hq
    subst hqp
    subst hpa
    dsimp only at hXa
    refine ⟨p, hp, deviceActionRefs_ok config p.2 i ?_⟩
    unfold deviceActionRefs
    simp only [List.mem_append, or_assoc]
    refine Or.inr (Or.inr (Or.inr (Or.inl ?_)))
    rw [hXa]
    exact hix
  · obtain ⟨pair, hpair, hix⟩ := List.mem_flatMap.mp hi
    obtain ⟨q, hq, hmap⟩ := List.mem_filterMap.mp hpair
    rw [Option.map_eq_some'] at hmap
    obtain ⟨a, hXa, hpa⟩ := hmap
    obtain ⟨p, hp, hqp⟩ := List.mem_map.mp hq
    subst hqp
    subst hpa
    dsimp only at hXa
    refine ⟨p, hp, deviceActionRefs_ok config p.2 i ?_⟩
    unfold deviceActionRefs
    simp only [List.mem_append, or_assoc]
    refine Or.inr (Or.inr (Or.inr (Or.inr (Or.inl ?_))))
    rw [hXa]
    exact hix
  · obtain ⟨pair, hpair, hix⟩ := List.mem_flatMap.mp hi
    obtain ⟨q, hq, hmap⟩ := List.mem_filterMap.mp hpair
    rw [Option.map_eq_some'] at hmap
    obtain ⟨a, hXa, hpa⟩ := hmap
    obtain ⟨p, hp, hqp⟩ := List.mem_map.mp hq
    subst hqp
    subst hpa
    dsimp only at hXa
    refine ⟨p, hp, deviceActionRefs_ok config p.2 i ?_⟩
    unfold deviceActionRefs
    simp only [List.mem_append, or_assoc]
    refine Or.inr (Or.inr (Or.inr (Or.inr (Or.inr (Or.inl ?_)))))
    rw [hXa]
    exact hix
  · obtain ⟨pair, hpair, hix⟩ := List.mem_flatMap.mp hi
    obtain ⟨q, hq, hmap⟩ := List.mem_filterMap.mp hpair
    rw [Option.map_eq_some'] at hmap
    obtain ⟨a, hXa, hpa⟩ := hmap
    obtain ⟨p, hp, hqp⟩ := List.mem_map.mp hq
    subst hqp
    subst hpa
    dsimp only at hXa
    refine ⟨p, hp, deviceActionRefs_ok config p.2 i ?_⟩
    unfold deviceActionRefs
    simp only [List.mem_append, or_assoc]
    refine Or.inr (Or.inr (Or.inr (Or.inr (Or.inr (Or.inr (Or.inl ?_))))))
    rw [hXa]
    exact hix
  · obtain ⟨pair, hpair, hix⟩ := List.mem_flatMap.mp hi
    obtain ⟨q, hq, hmap⟩ := List.mem_filterMap.mp hpair
    rw [Option.map_eq_some'] at hmap
    obtain ⟨a, hXa, hpa⟩ := hmap
    obtain ⟨p, hp, hqp⟩ := List.mem_map.mp hq
    subst hqp
    subst hpa
    dsimp only at hXa
    refine ⟨p, hp, deviceActionRefs_ok config p.2 i ?_⟩
    unfold deviceActionRefs
    simp only [List.mem_append, or_assoc]
    refine Or.inr (Or.inr (Or.inr (Or.inr (Or.inr (Or.inr (Or.inr (Or.inl ?_)))))))
    rw [hXa]
    exact hix
  · obtain ⟨pair, hpair, hix⟩ := List.mem_flatMap.mp hi
    obtain ⟨q, hq, hmap⟩ := List.mem_filterMap.mp hpair
    rw [Option.map_eq_some'] at hmap
    obtain ⟨a, hXa, hpa⟩ := hmap
    obtain ⟨p, hp, hqp⟩ := List.mem_map.mp hq
    subst hqp
    subst hpa
    dsimp only at hXa
    refine ⟨p, hp, deviceActionRefs_ok config p.2 i ?_⟩
    unfold deviceActionRefs
    simp only [List.mem_append, or_assoc]
    refine Or.inr (Or.inr (Or.inr (Or.inr (Or.inr (Or.inr (Or.inr (Or.inr (?_))))))))
    rw [hXa]
    exact hix

/-! ### C1: entity-document provenance -/

lemma build_sensor_allows (eqlogic : EqLogic) (cmd : Cmd) (rule : Option Rule)
    (config : DiscoveryConfig) (s : SensorItem)
    (h : build_sensor_yaml eqlogic cmd rule config = some s) :
    allows_cmd rule cmd config = true := by
  by_contra hno
  rw [Bool.not_eq_true] at hno
  unfold build_sensor_yaml at h
  rw [hno] at h
  simp at h

lemma build_sensor_cmd_id (eqlogic : EqLogic) (cmd : Cmd) (rule : Option Rule)
    (config : DiscoveryConfig) (s : SensorItem)
    (h : build_sensor_yaml eqlogic cmd rule config = some s) : s.cmd_id = cmd.id := by
  unfold build_sensor_yaml at h
  iterate 6 (split at h; · exact absurd h (by simp))
  injection h with h
  subst h
  rfl

lemma build_binary_allows (eqlogic : EqLogic) (cmd : Cmd) (rule : Option Rule)
    (config : DiscoveryConfig) (b : BinaryItem)
    (h : build_binary_sensor_yaml eqlogic cmd rule config = some b) :
    allows_cmd rule cmd config = true := by
  by_contra hno
  rw [Bool.not_eq_true] at hno
  unfold build_binary_sensor_yaml at h
  rw [hno] at h
  simp at h

lemma build_binary_cmd_id (eqlogic : EqLogic) (cmd : Cmd) (rule : Option Rule)
    (config : DiscoveryConfig) (b : BinaryItem)
    (h : build_binary_sensor_yaml eqlogic cmd rule config = some b) : b.cmd_id = cmd.id := by
  unfold build_binary_sensor_yaml at h
  iterate 5 (split at h; · exact absurd h (by simp))
  injection h with h
  subst h
  rfl

lemma genEntity_sensor_eq (config : DiscoveryConfig) (eq : EqLogic) :
    (genEntityForDevice config eq).sensor =
    (sensorBinLists eq (find_rule eq config) config).1 := by
  unfold genEntityForDevice
  dsimp only
  split <;> rfl

lemma genEntity_binary_eq (config : DiscoveryConfig) (eq : EqLogic) :
    (genEntityForDevice config eq).binary_sensor =
    (sensorBinLists eq (find_rule eq config) config).2 := by
  unfold genEntityForDevice
  dsimp only
  split <;> rfl

lemma sensorBinLists_sensor_ok (eqlogic : EqLogic) (rule : Option Rule)
    (config : DiscoveryConfig) :
    ∀ s ∈ (sensorBinLists eqlogic rule config).1, okId eqlogic s.cmd_id := by
  intro s hs
  unfold sensorBinLists at hs
  dsimp only at hs
  obtain ⟨c, hc, hbuild⟩ := List.mem_filterMap.mp hs
  split at hbuild
  · exact absurd hbuild (by simp)
  · have hcid := build_sensor_cmd_id _ _ _ _ _ hbuild
    have hal := build_sensor_allows _ _ _ _ _ hbuild
    have hmem : c ∈ eqlogic.cmds := by
      unfold sortCmdsById at hc
      exact (List.perm_insertionSort _ _).subset hc
    exact ⟨c, ⟨hmem, allows_cmd_not_blacklisted _ _ _ hal⟩, hcid.symm⟩

lemma sensorBinLists_binary_ok (eqlogic : EqLogic) (rule : Option Rule)
    (config : DiscoveryConfig) :
    ∀ b ∈ (sensorBinLists eqlogic rule config).2, okId eqlogic b.cmd_id := by
  intro b hb
  unfold sensorBinLists at hb
  dsimp only at hb
  obtain ⟨c, hc, hbuild⟩ := List.mem_filterMap.mp hb
  have hcid := build_binary_cmd_id _ _ _ _ _ hbuild
  have hal := build_binary_allows _ _ _ _ _ hbuild
  have hmem : c ∈ eqlogic.cmds := by
    unfold sortCmdsById at hc
    exact (List.perm_insertionSort _ _).subset hc
  exact ⟨c, ⟨hmem, allows_cmd_not_blacklisted _ _ _ hal⟩, hcid.symm⟩

lemma entitySensorBinary_ok (store : Store) (config : DiscoveryConfig) :
    ∀ i ∈ entitySensorBinaryRefs (generate_entity_doc store config),
      ∃ p, p ∈ sortedEntries store ∧ okId p.2 i := by
  intro i hi
  unfold entitySensorBinaryRefs generate_entity_doc at hi
  dsimp only at hi
  simp only [List.mem_append] at hi
  rcases hi with hi | hi
  · obtain ⟨s, hs, hsi⟩ := List.mem_map.mp hi
    obtain ⟨l, hl, hsl⟩ := List.mem_flatten.mp hs
    obtain ⟨part, hpart, hpl⟩ := List.mem_map.mp hl
    obtain ⟨p, hp, hpe⟩ := List.mem_map.mp hpart
    subst hpe
    subst hpl
    rw [genEntity_sensor_eq] at hsl
    refine ⟨p, hp, ?_⟩
    rw [← hsi]
    exact sensorBinLists_sensor_ok p.2 _ config s hsl
  · obtain ⟨b, hb, hbi⟩ := List.mem_map.mp hi
    obtain ⟨l, hl, hbl⟩ := List.mem_flatten.mp hb
    obtain ⟨part, hpart, hpl⟩ := List.mem_map.mp hl
    obtain ⟨p, hp, hpe⟩ := List.mem_map.mp hpart
    subst hpe
    subst hpl
    rw [genEntity_binary_eq] at hbl
    refine ⟨p, hp, ?_⟩
    rw [← hbi]
    exact sensorBinLists_binary_ok p.2 _ config b hbl

/-! ### C1: global uniqueness argument and the claim -/

lemma flatten_nodup_parts {α : Type} (L : List (List α)) (h : L.flatten.Nodup) :
    ∀ l ∈ L, l.Nodup := by
  induction L with
  | nil => intro l hl; exact absurd hl (List.not_mem_nil _)
  | cons a t ih =>
    rw [List.flatten_cons, List.nodup_append] at h
    intro l hl
    rcases List.mem_cons.mp hl with hl | hl
    · exact hl ▸ h.1
    · exact ih h.2.1 l hl

lemma flatten_nodup_pairwise {α β : Type} (f : α → List β) (l : List α)
    (h : ((l.map f).flatten).Nodup) :
    l.Pairwise (fun a b => (f a).Disjoint (f b)) := by
  induction l with
  | nil => exact List.Pairwise.nil
  | cons a t ih =>
    rw [List.map_cons, List.flatten_cons, List.nodup_append] at h
    refine List.Pairwise.cons ?_ (ih h.2.1)
    intro b hb x hx1 hx2
    exact h.2.2 hx1 (List.mem_flatten.mpr ⟨f b, List.mem_map_of_mem f hb, hx2⟩)

/-- **C1 (amended).** If the command ids of the devices iterated by `generate`
are globally pairwise distinct, a blacklisted command of any stored device is
referenced by no sensor record, no binary-sensor record and no entry of the
action-binding document.  (The pilot-climate `current_temperature` reference
of the entity document is the sole exception, exhibited by the
counterexample, and is therefore excluded here.) -/
theorem C1_blacklist_invariant (store : Store) (config : DiscoveryConfig) (d : EqLogic)
    (c : Cmd) (hd : d ∈ (sortedEntries store).map Prod.snd)
    (hc : c ∈ d.cmds) (hb : blacklisted c = true)
    (hn : (((sortedEntries store).map (fun p => p.2.cmds.map (fun x => x.id))).flatten).Nodup) :
    c.id ∉ entitySensorBinaryRefs (generate_entity_doc store config) ∧
    c.id ∉ actionsRefs (generate_actions store config) := by
  have key : ∀ p, p ∈ sortedEntries store → ¬ okId p.2 c.id := by
    intro p hp hok
    obtain ⟨c2, ⟨hc2m, hc2b⟩, hc2i⟩ := hok
    obtain ⟨q, hq, hqd⟩ := List.mem_map.mp hd
    have hpw := flatten_nodup_pairwise (fun p => p.2.cmds.map (fun x => x.id))
      (sortedEntries store) hn
    have hparts := flatten_nodup_parts _ hn
    by_cases hqp : q = p
    · subst hqp
      have hnd : (q.2.cmds.map (fun x => x.id)).Nodup :=
        hparts _ (List.mem_map_of_mem _ hq)
      have hcq : c ∈ q.2.cmds := by rw [hqd]; exact hc
      have hce : c2 = c := List.inj_on_of_nodup_map hnd hc2m hcq hc2i
      rw [hce] at hc2b
      rw [hb] at hc2b
      exact absurd hc2b (by simp)
    · have hdisj := List.Pairwise.forall (fun a b hab => List.Disjoint.symm hab) hpw hq hp hqp
      have hcidq : c.id ∈ q.2.cmds.map (fun x => x.id) := by
        rw [hqd]
        exact List.mem_map_of_mem _ hc
      have hcidp : c.id ∈ p.2.cmds.map (fun x => x.id) := by
        rw [← hc2i]
        exact List.mem_map_of_mem _ hc2m
      exact hdisj hcidq hcidp
  constructor
  · intro hmem
    obtain ⟨p, hp, hok⟩ := entitySensorBinary_ok store config c.id hmem
    exact key p hp hok
  · intro hmem
    obtain ⟨p, hp, hok⟩ := actionsRefs_ok store config c.id hmem
    exact key p hp hok

/-- A `FAN_STATE` numeric info command (the pilot-wire state). -/
def c1StateCmd : Cmd :=
  { id := 1, type := some "info", subType := some "numeric",
    generic_type := some "FAN_STATE", name := some "Mode" }

/-- A pilot-wire option action command. -/
def c1OptCmd (i : Int) (nm : String) (v : Int) : Cmd :=
  { id := i, type := some "action", subType := some "other", name := some nm,
    configuration := { property := some "targetvalue", value := some (.pint v) } }

/-- A node-management-blacklisted `TEMPERATURE` info command (its logical id
contains `refresh`). -/
def c1TempCmd : Cmd :=
  { id := 5, type := some "info", subType := some "numeric",
    generic_type := some "TEMPERATURE", logicalId := some "refreshtemp",
    name := some "Temperature" }

/-- A pilot-wire device carrying the blacklisted temperature command. -/
def c1Dev : EqLogic :=
  { id := 7, name := some "Radiateur",
    cmds := [c1StateCmd, c1OptCmd 2 "Arret" 0, c1OptCmd 3 "Confort" 99, c1OptCmd 4 "Eco" 30,
             c1TempCmd] }

/-- **C1, counterexample.** A node-management-blacklisted `TEMPERATURE`
command of a pilot-wire device is referenced by the generated pilot-climate
entity record: `build_pilot_climate_yaml` scans the raw command list for its
current-temperature reference without a blacklist check. -/
theorem C1_counterexample :
    is_node_mgmt_cmd c1TempCmd = true ∧ blacklisted c1TempCmd = true ∧
    c1TempCmd ∈ c1Dev.cmds ∧
    ((generate_entity_doc [(7, c1Dev)] {}).climate.map
      (fun i => i.current_temperature_cmd_id)) = [some c1TempCmd.id] ∧
    c1TempCmd.id ∈ entityCmdRefs (generate_entity_doc [(7, c1Dev)] {}) := by
  exact ⟨by decide, by decide, by decide, by decide, by decide⟩

/-- Witness for the amended C1 at the counterexample store: outside the
climate current-temperature field the blacklisted id is indeed absent. -/
theorem C1_blacklist_invariant_witness :
    c1TempCmd.id ∉ entitySensorBinaryRefs (generate_entity_doc [(7, c1Dev)] {}) ∧
    c1TempCmd.id ∉ actionsRefs (generate_actions [(7, c1Dev)] {}) :=
  C1_blacklist_invariant [(7, c1Dev)] {} c1Dev c1TempCmd (by decide) (by decide) (by decide)
    (by decide)

end Jeedom
